import Mathlib

/-!
Verification development for the ddk-ffi unified release pipeline.

The core of the repository is a release orchestration script
(`scripts/unified-release.js`) together with a post-generation hotfix
script (`ddk-rn/scripts/apply-hotfix.js`).  Both are Node.js programs whose
only interesting behaviour is (a) pure text/JSON transformations of
manifest files and (b) the ordered sequence of external effects (commands
run, files written, messages printed, process exit).

This file shallowly embeds the two scripts:

* pure text transformations are embedded as Lean functions on
  `String`/`List Char`, mirroring the exact JavaScript semantics that the
  source relies on (`String.prototype.replace` with a string pattern
  replaces only the first occurrence, `RegExp.prototype.test`, JSON
  parse/stringify with 2-space indentation, `includes`, `trim`,
  `endsWith`);
* the effectful control flow is embedded in a monad
  `M α = Env → List Event × Outcome α`: an environment oracle answers
  every external query (command exit status and captured output, file
  existence, file contents, directory listings, host platform and
  toolchain probes), and running a computation yields the ordered trace of
  externally visible events plus an outcome (normal value, thrown JS
  exception, or `process.exit`).

Javascript string values are modelled as Lean `String`s; file paths are
modelled POSIX-style with `path.join a b = a ++ "/" ++ b` (the scripts
only ever join with relative segments).  Braces and apostrophes occurring
in embedded literal text are written with `\x7b`, `\x7d` and `\x27`
escapes.
-/

namespace DdkRelease

/-! ### JavaScript string primitives -/

/-- Does `pat` occur as a contiguous substring of `s`?  This is
`String.prototype.includes` restricted to a string argument. -/
def hasSubstr (pat : List Char) : List Char → Bool
  | [] => pat.isEmpty
  | c :: s => pat.isPrefixOf (c :: s) || hasSubstr pat s

/-- Replace the first occurrence of `pat` by `repl`, leaving the input
unchanged when `pat` does not occur.  This is the semantics of
`String.prototype.replace(pat, repl)` for a string (non-regex) pattern. -/
def replaceFirstAux (pat repl : List Char) : List Char → List Char
  | [] => []
  | c :: s =>
    if pat.isPrefixOf (c :: s) then repl ++ (c :: s).drop pat.length
    else c :: replaceFirstAux pat repl s

/-- String-level wrapper for `hasSubstr` (JS `includes`). -/
def jsIncludes (s pat : String) : Bool := hasSubstr pat.data s.data

/-- String-level wrapper for `replaceFirstAux` (JS `replace` with a string
pattern: first occurrence only). -/
def jsReplaceFirst (s pat repl : String) : String :=
  ⟨replaceFirstAux pat.data repl.data s.data⟩

/-- JS `String.prototype.endsWith`. -/
def jsEndsWith (s pat : String) : Bool :=
  pat.data.reverse.isPrefixOf s.data.reverse

/-- Whitespace characters stripped by JS `trim` (the ones relevant to this
program). -/
def isWsChar (c : Char) : Bool :=
  c = ' ' || c = '\n' || c = '\t' || c = '\r'

/-- JS `String.prototype.trim`. -/
def jsTrim (s : String) : String :=
  ⟨((s.data.dropWhile isWsChar).reverse.dropWhile isWsChar).reverse⟩

/-! ### The version grammar

`unified-release.js` validates its argument with the regular expression
`/^\d+\.\d+\.\d+(-[\w.]+)?$/`.  `\d` is `[0-9]` and `\w` is
`[A-Za-z0-9_]`. -/

def isDigitChar (c : Char) : Bool := '0' ≤ c && c ≤ '9'

def isWordChar (c : Char) : Bool :=
  isDigitChar c || ('a' ≤ c && c ≤ 'z') || ('A' ≤ c && c ≤ 'Z') || c = '_'

/-- Decision procedure for the anchored regex
`^\d+\.\d+\.\d+(-[\w.]+)?$` used to validate the version argument. -/
def isValidVersionChars (cs : List Char) : Bool :=
  let d1 := cs.takeWhile isDigitChar
  let r1 := cs.dropWhile isDigitChar
  (!d1.isEmpty) &&
    match r1 with
    | '.' :: r2 =>
      let d2 := r2.takeWhile isDigitChar
      let r3 := r2.dropWhile isDigitChar
      (!d2.isEmpty) &&
        match r3 with
        | '.' :: r4 =>
          let d3 := r4.takeWhile isDigitChar
          let r5 := r4.dropWhile isDigitChar
          (!d3.isEmpty) &&
            (match r5 with
             | [] => true
             | '-' :: r6 =>
               (!r6.isEmpty) && r6.all (fun c => isWordChar c || c = '.')
             | _ => false)
        | _ => false
    | _ => false

/-- Version-format validation, `/^\d+\.\d+\.\d+(-[\w.]+)?$/.test version`. -/
def isValidVersion (s : String) : Bool := isValidVersionChars s.data

example : isValidVersion "1.2.0" = true := by decide
example : isValidVersion "0.3.0-alpha.1" = true := by decide
example : isValidVersion "1.2" = false := by decide
example : isValidVersion "" = false := by decide
example : isValidVersion "--help" = false := by decide

/-! ### Splitting text into lines

`updateRustVersions` rewrites `Cargo.toml` with
`content.replace(/^version = ".*"/m, ...)`.  With the `m` flag, `^`
anchors at the start of every line and `.` does not match a newline, so
the replacement is a purely line-local operation on the first line whose
text matches.  We therefore model the file as its list of
newline-separated lines. -/

/-- Split a character list at every newline.  The empty text is one empty
line; a trailing newline produces a final empty line, mirroring
`"a\nb".split("\n")`. -/
def splitLines : List Char → List (List Char)
  | [] => [[]]
  | c :: cs =>
    if c = '\n' then [] :: splitLines cs
    else (c :: (splitLines cs).headD []) :: (splitLines cs).tail

/-- Rejoin lines with a newline separator; inverse of `splitLines`. -/
def joinLines : List (List Char) → List Char
  | [] => []
  | [l] => l
  | l :: ls => l ++ '\n' :: joinLines ls

theorem splitLines_ne_nil (cs : List Char) : splitLines cs ≠ [] := by
  cases cs with
  | nil => simp [splitLines]
  | cons c cs => simp only [splitLines]; split <;> simp

theorem joinLines_splitLines (cs : List Char) :
    joinLines (splitLines cs) = cs := by
  induction cs with
  | nil => rfl
  | cons c cs ih =>
    by_cases hc : c = '\n'
    · subst hc
      simp only [splitLines, if_pos rfl]
      cases h : splitLines cs with
      | nil => exact absurd h (splitLines_ne_nil cs)
      | cons l ls =>
        rw [h] at ih
        simpa [joinLines] using ih
    · simp only [splitLines, if_neg hc]
      cases h : splitLines cs with
      | nil => exact absurd h (splitLines_ne_nil cs)
      | cons l ls =>
        rw [h] at ih
        cases ls with
        | nil => simpa [joinLines] using ih
        | cons l' ls' =>
          simp only [joinLines] at ih ⊢
          simp [← ih]

theorem splitLines_of_no_newline (l : List Char) (hl : '\n' ∉ l) :
    splitLines l = [l] := by
  induction l with
  | nil => rfl
  | cons c cs ih =>
    have hc : c ≠ '\n' := fun h => hl (h ▸ List.mem_cons_self c cs)
    have hcs : '\n' ∉ cs := fun h => hl (List.mem_cons_of_mem c h)
    simp [splitLines, if_neg hc, ih hcs]

theorem splitLines_append_newline (l : List Char) (rest : List Char)
    (hl : '\n' ∉ l) : splitLines (l ++ '\n' :: rest) = l :: splitLines rest := by
  induction l with
  | nil => simp [splitLines]
  | cons c cs ih =>
    have hc : c ≠ '\n' := fun h => hl (h ▸ List.mem_cons_self c cs)
    have hcs : '\n' ∉ cs := fun h => hl (List.mem_cons_of_mem c h)
    rw [List.cons_append]
    simp only [splitLines, if_neg hc, ih hcs]
    simp

theorem splitLines_joinLines (ls : List (List Char))
    (h : ∀ l ∈ ls, '\n' ∉ l) (hne : ls ≠ []) :
    splitLines (joinLines ls) = ls := by
  induction ls with
  | nil => exact absurd rfl hne
  | cons l ls ih =>
    cases ls with
    | nil =>
      exact splitLines_of_no_newline l (h l (List.mem_cons_self l []))
    | cons l' ls' =>
      have hl : '\n' ∉ l := h l (List.mem_cons_self l _)
      have hrest : ∀ x ∈ l' :: ls', '\n' ∉ x := fun x hx =>
        h x (List.mem_cons_of_mem l hx)
      show splitLines (l ++ '\n' :: joinLines (l' :: ls')) = l :: l' :: ls'
      rw [splitLines_append_newline l _ hl, ih hrest (by simp)]

/-! ### The Cargo.toml version rewrite

`/^version = ".*"/m` matches a line that starts with `version = "` and
contains at least one further `"`; the greedy `.*` extends the match to
the last `"` on that line.  `String.prototype.replace` rewrites only the
first such match, with the replacement `version = "<version>"`. -/

/-- The literal prefix `version = "` required by the regex. -/
def versionLinePat : List Char := ('v' :: "ersion = \"".data)

/-- Does this line match `^version = ".*"` (anchored at the line start)? -/
def lineMatches (l : List Char) : Bool :=
  versionLinePat.isPrefixOf l && (l.drop versionLinePat.length).contains '"'

/-- The text of the line that remains after the regex match, i.e.
everything after the last `"` of the line. -/
def afterLastQuote (l : List Char) : List Char :=
  (l.reverse.takeWhile (fun c => c ≠ '"')).reverse

/-- Result of replacing the matched span of a matching line by
`version = "<v>"`. -/
def patchVersionLine (v : String) (l : List Char) : List Char :=
  versionLinePat ++ v.data ++ '"' :: afterLastQuote l

/-- Rewrite the first matching line of the file, leaving every other line
untouched. -/
def updateLines (v : String) : List (List Char) → List (List Char)
  | [] => []
  | l :: ls =>
    if lineMatches l then patchVersionLine v l :: ls
    else l :: updateLines v ls

/-- The `Cargo.toml` rewrite performed per manifest by
`updateRustVersions`:
`content.replace` on the regex with the literal replacement text
`version = "<v>"`. -/
def replaceVersionLine (v : String) (content : String) : String :=
  ⟨joinLines (updateLines v (splitLines content.data))⟩

example :
    replaceVersionLine "1.2.0" "[package]\nversion = \"1.1.9\"\nedition = \"2021\"\n"
      = "[package]\nversion = \"1.2.0\"\nedition = \"2021\"\n" := by decide

theorem updateLines_frame (v : String) (pre : List (List Char))
    (line : List Char) (post : List (List Char))
    (hpre : ∀ l ∈ pre, lineMatches l = false) (hline : lineMatches line = true) :
    updateLines v (pre ++ line :: post) = pre ++ patchVersionLine v line :: post := by
  induction pre with
  | nil => simp [updateLines, hline]
  | cons p ps ih =>
    have hp : lineMatches p = false := hpre p (List.mem_cons_self p ps)
    rw [List.cons_append, updateLines]
    simp only [hp, Bool.false_eq_true, if_false]
    rw [ih (fun l hl => hpre l (List.mem_cons_of_mem p hl)), List.cons_append]

theorem updateLines_id (v : String) (ls : List (List Char))
    (h : ∀ l ∈ ls, lineMatches l = false) : updateLines v ls = ls := by
  induction ls with
  | nil => rfl
  | cons l ls ih =>
    rw [updateLines]
    simp only [h l (List.mem_cons_self l ls), Bool.false_eq_true, if_false]
    rw [ih (fun x hx => h x (List.mem_cons_of_mem l hx))]

/-- If no line of the manifest matches the version-line regex, the
rewrite leaves the file untouched (and in particular does not set the
version). -/
theorem replaceVersionLine_id (v : String) (content : String)
    (h : ∀ l ∈ splitLines content.data, lineMatches l = false) :
    replaceVersionLine v content = content := by
  unfold replaceVersionLine
  rw [updateLines_id v _ h, joinLines_splitLines]

/-! ### JSON values, `JSON.parse` and `JSON.stringify`

`updatePackageVersions` rewrites each `package.json` by parsing it,
assigning the `version` property and re-serialising with
`JSON.stringify(obj, null, 2) + "\n"`.  We embed the fragment of JSON
that a `package.json` manifest uses: strings, objects, arrays and scalar
literals.  Scalar literals (numbers, `true`, `false`, `null`) are kept as
their source text, which round-trips exactly for the canonical literal
spellings these manifests contain; object keys are assumed distinct, as
`JSON.parse` deduplicates them. -/

inductive Json where
  | str : String → Json
  | lit : String → Json
  | arr : List Json → Json
  | obj : List (String × Json) → Json

/-- Escaping performed by `JSON.stringify` on string contents (the escapes
relevant to manifest text). -/
def jsonEscapeChar (c : Char) : List Char :=
  if c = '"' then ['\\', '"']
  else if c = '\\' then ['\\', '\\']
  else if c = '\n' then ['\\', 'n']
  else if c = '\t' then ['\\', 't']
  else if c = '\r' then ['\\', 'r']
  else [c]

def jsonEscape (s : String) : String :=
  ⟨s.data.foldr (fun c acc => jsonEscapeChar c ++ acc) []⟩

/-- Two spaces of indentation per depth level, as produced by
`JSON.stringify(x, null, 2)`. -/
def indentStr (d : Nat) : String := ⟨List.replicate (2 * d) ' '⟩

mutual

/-- Embeds `JSON.stringify(x, null, 2)` at nesting depth `d`. -/
def stringifyVal : Json → Nat → String
  | .str s, _ => "\"" ++ jsonEscape s ++ "\""
  | .lit s, _ => s
  | .arr [], _ => "[]"
  | .arr (e :: es), d =>
    "[\n" ++ stringifyElems (e :: es) (d + 1) ++ "\n" ++ indentStr d ++ "]"
  | .obj [], _ => "\x7b\x7d"
  | .obj (kv :: kvs), d =>
    "\x7b\n" ++ stringifyMembers (kv :: kvs) (d + 1) ++ "\n" ++ indentStr d ++ "\x7d"

def stringifyElems : List Json → Nat → String
  | [], _ => ""
  | [e], d => indentStr d ++ stringifyVal e d
  | e :: e' :: es, d =>
    indentStr d ++ stringifyVal e d ++ ",\n" ++ stringifyElems (e' :: es) d

def stringifyMembers : List (String × Json) → Nat → String
  | [], _ => ""
  | [(k, val)], d => indentStr d ++ "\"" ++ jsonEscape k ++ "\": " ++ stringifyVal val d
  | (k, val) :: kv :: kvs, d =>
    indentStr d ++ "\"" ++ jsonEscape k ++ "\": " ++ stringifyVal val d ++ ",\n" ++
      stringifyMembers (kv :: kvs) d

end

/-- Whitespace skipped between JSON tokens. -/
def skipWs (cs : List Char) : List Char := cs.dropWhile isWsChar

/-- Parse the body of a JSON string literal (after the opening quote),
returning the string and the text after the closing quote.  Backslash
escapes for `\" \\ \n \t \r` are recognised. -/
def parseStrBody : List Char → Option (List Char × List Char)
  | [] => none
  | '"' :: rest => some ([], rest)
  | '\\' :: e :: rest =>
    (parseStrBody rest).bind fun (s, r) =>
      if e = '"' then some ('"' :: s, r)
      else if e = '\\' then some ('\\' :: s, r)
      else if e = 'n' then some ('\n' :: s, r)
      else if e = 't' then some ('\t' :: s, r)
      else if e = 'r' then some ('\r' :: s, r)
      else none
  | c :: rest => (parseStrBody rest).map fun (s, r) => (c :: s, r)

/-- Characters that may make up a scalar JSON literal (number, boolean,
null). -/
def isLitChar (c : Char) : Bool :=
  isDigitChar c || ('a' ≤ c && c ≤ 'z') || c = '-' || c = '+' || c = '.' ||
    c = 'E'

mutual

/-- Recursive-descent `JSON.parse` for the embedded fragment, fuelled by
the input length. -/
def parseVal : Nat → List Char → Option (Json × List Char)
  | 0, _ => none
  | fuel + 1, cs =>
    match skipWs cs with
    | '"' :: rest => (parseStrBody rest).map fun (s, r) => (Json.str ⟨s⟩, r)
    | '[' :: rest =>
      (match skipWs rest with
       | ']' :: r2 => some (Json.arr [], r2)
       | _ => (parseElems fuel rest).map fun (es, r) => (Json.arr es, r))
    | '\x7b' :: rest =>
      (match skipWs rest with
       | '\x7d' :: r2 => some (Json.obj [], r2)
       | _ => (parseMembers fuel rest).map fun (kvs, r) => (Json.obj kvs, r))
    | other =>
      let l := other.takeWhile isLitChar
      if l.isEmpty then none else some (Json.lit ⟨l⟩, other.drop l.length)

def parseElems : Nat → List Char → Option (List Json × List Char)
  | 0, _ => none
  | fuel + 1, cs =>
    (parseVal fuel cs).bind fun (v, r) =>
      match skipWs r with
      | ',' :: r2 => (parseElems fuel r2).map fun (es, r3) => (v :: es, r3)
      | ']' :: r2 => some ([v], r2)
      | _ => none

def parseMembers : Nat → List Char → Option (List (String × Json) × List Char)
  | 0, _ => none
  | fuel + 1, cs =>
    match skipWs cs with
    | '"' :: rest =>
      (parseStrBody rest).bind fun (k, r) =>
        match skipWs r with
        | ':' :: r2 =>
          (parseVal fuel r2).bind fun (v, r3) =>
            match skipWs r3 with
            | ',' :: r4 =>
              (parseMembers fuel r4).map fun (kvs, r5) => ((⟨k⟩, v) :: kvs, r5)
            | '\x7d' :: r4 => some ([(⟨k⟩, v)], r4)
            | _ => none
        | _ => none
    | _ => none

end

/-- Embeds `JSON.parse` of a whole document: a value followed by nothing but
whitespace. -/
def parseJson (content : String) : Option Json :=
  match parseVal (content.length + 1) content.data with
  | some (j, rest) => if (skipWs rest).isEmpty then some j else none
  | none => none

/-- JS property assignment on a parsed object: an existing key keeps its
position and gets the new value; a missing key is appended. -/
def setKey : List (String × Json) → String → Json → List (String × Json)
  | [], k, v => [(k, v)]
  | (k', v') :: rest, k, v =>
    if k' = k then (k', v) :: rest else (k', v') :: setKey rest k v

/-- Embeds `packageJson.version = version` on the parsed manifest.  Assigning a
property of a non-object primitive is a silent no-op in non-strict JS. -/
def setVersion : Json → String → Json
  | .obj kvs, v => .obj (setKey kvs "version" (.str v))
  | j, _ => j

/-- The whole `package.json` rewrite performed per manifest by
`updatePackageVersions`: parse, assign `version`, re-serialise with
2-space indentation and a trailing newline.  `none` signals the
`JSON.parse` exception. -/
def updatePackageFile (content v : String) : Option String :=
  (parseJson content).map fun j => stringifyVal (setVersion j v) 0 ++ "\n"

example :
    updatePackageFile "\x7b\"name\":\"a\",\"version\":\"1.1.9\"\x7d" "1.2.0"
      = some "\x7b\n  \"name\": \"a\",\n  \"version\": \"1.2.0\"\n\x7d\n" := by
  decide

/-! ### Effects: events, environment oracle, and the script monad

Running either script produces an ordered trace of externally visible
events.  All information flowing *into* the script from the outside world
is provided by a static oracle `Env`: the exit status and captured output
of each external command (keyed by working directory and command line),
the filesystem predicates the script queries, the host platform and the
NDK probe.  The scripts never re-read a file they have written in the
same run, so a static read oracle is faithful. -/

inductive Event where
  /-- Event of `execSync(command, cwd)`: an external command was spawned. -/
  | exec : String → String → Event
  /-- Event of `fs.writeFileSync(path, content)`. -/
  | write : String → String → Event
  /-- Event of `fs.copyFileSync(src, dest)`. -/
  | copy : String → String → Event
  /-- Event of `fs.unlinkSync(path)`. -/
  | unlink : String → Event
  /-- Event of recursive `fs.mkdirSync(dir)`. -/
  | mkdir : String → Event
  /-- Event of `console.log`. -/
  | info : String → Event
  /-- Event of `console.warn`. -/
  | warn : String → Event
  /-- Event of `console.error`. -/
  | err : String → Event
  /-- Event of `await new Promise(resolve => setTimeout(resolve, ms))`. -/
  | sleep : Nat → Event
  deriving Repr, DecidableEq

/-- The oracle answering every query the scripts make of the outside
world. -/
structure Env where
  /-- Reads `process.platform`. -/
  platform : String
  /-- is `ANDROID_NDK_ROOT` or `NDK_HOME` set? -/
  ndk : Bool
  /-- does `execSync(cmd, { cwd })` exit 0? -/
  cmdOk : String → String → Bool
  /-- captured stdout of a (successful, piped) `execSync(cmd, { cwd })`. -/
  cmdOut : String → String → String
  /-- Answers `fs.existsSync`. -/
  fileExists : String → Bool
  /-- Answers `fs.readFileSync(path, "utf8")`. -/
  readFile : String → String
  /-- Answers `fs.readdirSync`. -/
  readDir : String → List String

/-- Outcome of running a piece of script: a value, a propagating JS
exception, or a `process.exit` (which no `catch` intercepts). -/
inductive Outcome (α : Type) where
  | ok : α → Outcome α
  | thrown : String → Outcome α
  | exited : Nat → Outcome α
  deriving Repr, DecidableEq

/-- The script monad: an environment-indexed event trace plus outcome. -/
def M (α : Type) : Type := Env → List Event × Outcome α

instance : Monad M where
  pure a := fun _ => ([], .ok a)
  bind x f := fun env =>
    match x env with
    | (t, .ok a) =>
      let r := f a env
      (t ++ r.1, r.2)
    | (t, .thrown m) => (t, .thrown m)
    | (t, .exited c) => (t, .exited c)

theorem M.bind_apply {α β : Type} (x : M α) (f : α → M β) (env : Env) :
    (x >>= f) env =
      match x env with
      | (t, .ok a) => (t ++ (f a env).1, (f a env).2)
      | (t, .thrown m) => (t, .thrown m)
      | (t, .exited c) => (t, .exited c) := rfl

theorem M.pure_apply {α : Type} (a : α) (env : Env) :
    (pure a : M α) env = ([], .ok a) := rfl

/-- Emit one trace event. -/
def emit (e : Event) : M Unit := fun _ => ([e], .ok ())

/-- Logs via `console.log`. -/
def info (s : String) : M Unit := emit (.info s)

/-- Logs via `console.warn`. -/
def warnLog (s : String) : M Unit := emit (.warn s)

/-- Logs via `console.error`. -/
def errLog (s : String) : M Unit := emit (.err s)

/-- A JS `throw` of an `Error` with the given message. -/
def throwJs {α : Type} (msg : String) : M α := fun _ => ([], .thrown msg)

/-- Models `process.exit(code)`: terminates the process, bypassing `catch`. -/
def exitProc {α : Type} (code : Nat) : M α := fun _ => ([], .exited code)

/-- Models `try x catch (e) h`: a thrown exception is handed to the handler;
`process.exit` and normal values pass through. -/
def tryCatch {α : Type} (x : M α) (h : String → M α) : M α := fun env =>
  match x env with
  | (t, .thrown m) =>
    let r := h m env
    (t ++ r.1, r.2)
  | other => other

theorem tryCatch_apply {α : Type} (x : M α) (h : String → M α) (env : Env) :
    tryCatch x h env =
      match x env with
      | (t, .thrown m) => (t ++ (h m env).1, (h m env).2)
      | other => other := rfl

/-- Read the platform oracle. -/
def getPlatform : M String := fun env => ([], .ok env.platform)

/-- Read the NDK probe. -/
def getNdk : M Bool := fun env => ([], .ok env.ndk)

/-- Queries `fs.existsSync`. -/
def fileExistsM (p : String) : M Bool := fun env => ([], .ok (env.fileExists p))

/-- Queries `fs.readFileSync(p, "utf8")`. -/
def readFileM (p : String) : M String := fun env => ([], .ok (env.readFile p))

/-- Queries `fs.readdirSync(p)`. -/
def readDirM (p : String) : M (List String) := fun env => ([], .ok (env.readDir p))

/-! ### Paths

`unified-release.js` computes its roots with `path.join(__dirname, "..")`;
we name the checkout root `"."` and model `path.join` on the relative
POSIX segments the scripts use. -/

def pathJoin (a b : String) : String := a ++ "/" ++ b

def projectRoot : String := "."
def ddkFfiRoot : String := pathJoin projectRoot "ddk-ffi"
def ddkRnRoot : String := pathJoin projectRoot "ddk-rn"
def ddkTsRoot : String := pathJoin projectRoot "ddk-ts"
def archiveDir : String := pathJoin projectRoot "release-archives"

/-- Models `path.basename`. -/
def pathBasename (p : String) : String := (p.splitOn "/").getLastD p

/-- Models `path.dirname`. -/
def pathDirname (p : String) : String :=
  String.intercalate "/" (p.splitOn "/").dropLast

/-! ### `runCommand` and `ensureDir` (unified-release.js lines 62-89) -/

/-- Models `runCommand(command, cwd, options)`: optionally log
the description and the command line, spawn the command, and either
return its captured output or log the failure and rethrow. -/
def runCommand (command cwd : String) (descr : Option String)
    (silent : Bool) : M String := fun env =>
  let logs : List Event :=
    if silent then []
    else
      (match descr with
       | some d => [.info ("📋 " ++ d)]
       | none => []) ++ [.info ("   $ " ++ command)]
  if env.cmdOk cwd command then
    (logs ++ [.exec cwd command], .ok (env.cmdOut cwd command))
  else
    (logs ++ [.exec cwd command, .err ("❌ Command failed: " ++ command)],
      .thrown ("Command failed: " ++ command))

/-- Models `ensureDir`: create the directory (recursively) when absent. -/
def ensureDir (dir : String) : M Unit := fun env =>
  if env.fileExists dir then ([], .ok ()) else ([.mkdir dir], .ok ())

/-! ### Step 1: `checkGitStatus` (lines 91-108) -/

def checkGitStatus : M Unit := do
  info "🔍 Checking git status..."
  let status ← runCommand "git status --porcelain" projectRoot none true
  if jsTrim status ≠ "" then do
    errLog "❌ Git working directory is not clean. Please commit or stash changes first."
    errLog "Uncommitted changes:"
    errLog status
    exitProc 1
  else
    info "✅ Git working directory is clean\n"

/-! ### Step 2: `runTests` (lines 110-134) -/

def runTests : M Unit := do
  info "🧪 Running tests...\n"
  info "   Testing ddk-ffi (Rust)..."
  let _ ← runCommand "cargo test" ddkFfiRoot (some "Rust tests") false
  tryCatch
    (do
      info "\n   Testing ddk-rn (React Native)..."
      let _ ← runCommand "pnpm test" ddkRnRoot (some "React Native tests") true
      pure ())
    (fun _ => info "   ⚠️  No React Native tests found or tests skipped")
  info "\n   Testing ddk-ts (TypeScript)..."
  let _ ← runCommand "pnpm test" ddkTsRoot (some "TypeScript tests") false
  info "\n✅ All tests passed\n"

/-! ### Step 3: `updateRustVersions` (lines 136-157) -/

/-- One iteration of the `cargoPaths.forEach` body. -/
def updateCargoAt (version p : String) : M Unit := do
  if (← fileExistsM p) then do
    let content ← readFileM p
    emit (.write p (replaceVersionLine version content))
    info ("   ✅ Updated " ++ pathBasename (pathDirname p) ++ "/Cargo.toml")
  else pure ()

def updateRustVersions (version : String) : M Unit := do
  info "📝 Updating Rust crate versions..."
  updateCargoAt version (pathJoin ddkFfiRoot "Cargo.toml")
  updateCargoAt version (pathJoin ddkTsRoot "Cargo.toml")
  info ""

/-! ### Step 4: `updatePackageVersions` (lines 159-175) -/

/-- One iteration of the `[ddkRnRoot, ddkTsRoot].forEach` body:
`JSON.parse` the manifest (a parse error throws), assign `version`, and
write the re-serialised text back. -/
def updatePackageAt (version root : String) : M Unit := do
  let p := pathJoin root "package.json"
  let content ← readFileM p
  match updatePackageFile content version with
  | none => throwJs "Unexpected token in JSON"
  | some out => do
    emit (.write p out)
    info ("   ✅ Updated " ++ pathBasename root ++ "/package.json")

def updatePackageVersions (version : String) : M Unit := do
  info "📝 Updating package.json versions..."
  updatePackageAt version ddkRnRoot
  updatePackageAt version ddkTsRoot
  info ""

/-! ### Step 5: `generateReactNativeBindings` (lines 177-214) -/

def generateReactNativeBindings : M Unit := do
  info "🔧 Generating React Native bindings..."
  let _ ← runCommand "just uniffi-jsi" projectRoot (some "Generating JSI bindings") false
  let _ ← runCommand "just uniffi-turbo" projectRoot (some "Generating Turbo Module") false
  let platform ← getPlatform
  if platform = "darwin" then do
    let _ ← runCommand "just build-ios" projectRoot (some "Building iOS libraries") false
    pure ()
  else
    info "   ⚠️  Skipping iOS build (not on macOS)"
  let ndk ← getNdk
  if ndk then
    tryCatch
      (do
        let _ ← runCommand "just build-android" projectRoot
          (some "Building Android libraries") false
        pure ())
      (fun _ => info "   ⚠️  Android build failed (may be missing toolchain)")
  else
    info "   ⚠️  Skipping Android build (NDK not configured)"
  info ""

/-! ### Step 6: the hot fixes (ddk-rn/scripts/apply-hotfix.js) -/

def ddkRnCppFile : String := pathJoin ddkRnRoot "cpp/bennyblader-ddk-rn.cpp"
def ddkRnPodspecFile : String := pathJoin ddkRnRoot "DdkRn.podspec"

/-- The malformed include emitted by the generator. -/
def defectiveInclude : String := "#include \"/ddk_ffi.hpp\""

/-- Its corrected form. -/
def fixedInclude : String := "#include \"ddk_ffi.hpp\""

/-- First marker checked before re-adding the xcconfig block. -/
def xcconfigMarker : String := "s.xcconfig = \x7b"

/-- Second marker checked before re-adding the xcconfig block. -/
def librarySearchMarker : String := "LIBRARY_SEARCH_PATHS"

/-- The anchor line after which the xcconfig block is inserted. -/
def vendoredFrameworksLine : String :=
  "s.vendored_frameworks = \"ios/DdkRn.xcframework\""

/-- The xcconfig block that the uniffi build removes and the hotfix adds
back. -/
def xcconfigBlock : String :=
  "  s.xcconfig = \x7b\n    \x27LIBRARY_SEARCH_PATHS\x27 => \x27$(SRCROOT)/../node_modules/@bennyblader/ddk-rn/ios/DdkRn.xcframework/ios-arm64-simulator $(SRCROOT)/../node_modules/@bennyblader/ddk-rn/ios/DdkRn.xcframework/ios-arm64 $(SRCROOT)/../node_modules/@bennyblader/ddk-rn/ios/DdkRn.xcframework/ios-x86_64-simulator $(SRCROOT)/../node_modules/@bennyblader/ddk-rn/ios/DdkRn.xcframework/ios-x86_64\x27\n  \x7d"

/-- Fix 1 of `applyHotFix` as a pure text transformation: replace the
first occurrence of the defective include if present, otherwise leave the
text unchanged. -/
def patchCppText (x : String) : String :=
  if jsIncludes x defectiveInclude then
    jsReplaceFirst x defectiveInclude fixedInclude
  else x

/-- Fix 2 of `applyHotFix` as a pure text transformation: when neither
xcconfig marker is present, insert the xcconfig block after the
`vendored_frameworks` line (a no-op when that line is missing too). -/
def patchPodspecText (x : String) : String :=
  if !jsIncludes x xcconfigMarker && !jsIncludes x librarySearchMarker then
    if jsIncludes x vendoredFrameworksLine then
      jsReplaceFirst x vendoredFrameworksLine
        (vendoredFrameworksLine ++ "\n" ++ xcconfigBlock)
    else x
  else x

/-- Models `applyHotFix` (apply-hotfix.js lines 27-86). -/
def applyHotFix : M Unit := do
  info "🔧 Applying post-build hot fixes..."
  if (← fileExistsM ddkRnCppFile) then do
    let cppContent ← readFileM ddkRnCppFile
    if jsIncludes cppContent defectiveInclude then do
      emit (.write ddkRnCppFile
        (jsReplaceFirst cppContent defectiveInclude fixedInclude))
      info "   ✅ Fixed include path in bennyblader-ddk-rn.cpp"
    else
      info "   ✅ Include path already correct"
  else pure ()
  if (← fileExistsM ddkRnPodspecFile) then do
    let podspecContent ← readFileM ddkRnPodspecFile
    if !jsIncludes podspecContent xcconfigMarker &&
        !jsIncludes podspecContent librarySearchMarker then
      if jsIncludes podspecContent vendoredFrameworksLine then do
        emit (.write ddkRnPodspecFile
          (jsReplaceFirst podspecContent vendoredFrameworksLine
            (vendoredFrameworksLine ++ "\n" ++ xcconfigBlock)))
        info "   ✅ Added back xcconfig LIBRARY_SEARCH_PATHS to DdkRn.podspec"
      else
        info "   ⚠️  Could not find vendored_frameworks line in podspec"
    else
      info "   ✅ DdkRn.podspec already has xcconfig"
  else pure ()
  info "   ✅ Hot fixes applied and files unstaged"
  info ""

/-! ### Step 7: `generateTypeScriptBindings` (lines 219-245) -/

def generateTypeScriptBindings : M Unit := do
  info "🔧 Building TypeScript/Node.js bindings..."
  let platform ← getPlatform
  if platform = "darwin" then do
    let _ ← runCommand "pnpm build:darwin-arm64" ddkTsRoot
      (some "Building for Darwin ARM64") false
    let _ ← runCommand "pnpm build:linux-x64" ddkTsRoot
      (some "Building for Linux x64") false
    pure ()
  else pure ()
  let _ ← runCommand "pnpm build" ddkTsRoot
    (some "Building for current platform") false
  let _ ← runCommand "pnpm prepublish" ddkTsRoot
    (some "Running napi prepublish to update optionalDependencies") false
  pure ()
  info ""

/-! ### Steps 8-9: `prepareRustSource`, `buildReactNativePackage`
(lines 247-262) -/

def prepareRustSource : M Unit := do
  info "📦 Preparing Rust source for React Native package..."
  let _ ← runCommand "node scripts/prepare-rust-src.js" ddkRnRoot none true
  info "   ✅ Rust source prepared"
  info ""

def buildReactNativePackage : M Unit := do
  info "🔨 Building React Native package..."
  let _ ← runCommand "pnpm prepare" ddkRnRoot
    (some "Building with react-native-builder-bob") false
  info ""

/-! ### Step 10: `createReleaseArtifacts` (lines 264-357) -/

def iosDir : String := pathJoin ddkRnRoot "ios"
def androidLibsDir : String :=
  pathJoin (pathJoin (pathJoin (pathJoin ddkRnRoot "android") "src") "main") "jniLibs"
def tsDistDir : String := pathJoin ddkTsRoot "dist"
def tempIosDir : String := pathJoin archiveDir "temp-ios"

/-- The `xcframeworks.forEach` copy loop into the staging directory. -/
def copyFrameworks : List String → M Unit
  | [] => pure ()
  | fw :: fws => do
    let _ ← runCommand
      ("cp -R \"" ++ pathJoin iosDir fw ++ "\" \"" ++ tempIosDir ++ "\"")
      projectRoot none true
    copyFrameworks fws

/-- The iOS XCFramework packaging branch. -/
def packageIos (version : String) : M (List String) := do
  if (← fileExistsM iosDir) then do
    let xcframeworks := (← readDirM iosDir).filter (fun f => jsEndsWith f ".xcframework")
    if xcframeworks.length > 0 then do
      let iosArchive := pathJoin archiveDir
        ("react-native-ios-xcframeworks-" ++ version ++ ".tar.gz")
      ensureDir tempIosDir
      copyFrameworks xcframeworks
      let _ ← runCommand
        ("tar -czf \"" ++ iosArchive ++ "\" -C \"" ++ tempIosDir ++ "\" .")
        projectRoot none true
      let _ ← runCommand ("rm -rf \"" ++ tempIosDir ++ "\"") projectRoot none true
      info ("   ✅ Created react-native-ios-xcframeworks-" ++ version ++ ".tar.gz")
      pure [iosArchive]
    else pure []
  else pure []

/-- The Android JNI packaging branch. -/
def packageAndroid (version : String) : M (List String) := do
  if (← fileExistsM androidLibsDir) then do
    let androidArchive := pathJoin archiveDir
      ("react-native-android-jni-" ++ version ++ ".tar.gz")
    let _ ← runCommand
      ("tar -czf \"" ++ androidArchive ++ "\" -C \"" ++ androidLibsDir ++ "\" .")
      projectRoot none true
    info ("   ✅ Created react-native-android-jni-" ++ version ++ ".tar.gz")
    pure [androidArchive]
  else pure []

/-- Platform classification of a `.node` file from its name. -/
def nodePlatform (nodeFile : String) : String :=
  if jsIncludes nodeFile "darwin" then "darwin-arm64"
  else if jsIncludes nodeFile "linux" then "linux-x64"
  else "unknown"

/-- The deterministic artifact name of a `.node` file. -/
def tsArtifactName (version nodeFile : String) : String :=
  "typescript-" ++ nodePlatform nodeFile ++ "-" ++ version ++ ".node"

/-- The `nodeFiles.forEach` body: classify the platform from the file
name and copy the `.node` file to its deterministic artifact name. -/
def packNodeFiles (version : String) : List String → M (List String)
  | [] => pure []
  | nodeFile :: rest => do
    let artifactName := tsArtifactName version nodeFile
    emit (.copy (pathJoin tsDistDir nodeFile) (pathJoin archiveDir artifactName))
    info ("   ✅ Created " ++ artifactName)
    let rest' ← packNodeFiles version rest
    pure (pathJoin archiveDir artifactName :: rest')

/-- The TypeScript `.node` packaging branch. -/
def packageTs (version : String) : M (List String) := do
  if (← fileExistsM tsDistDir) then do
    let nodeFiles := (← readDirM tsDistDir).filter (fun f => jsEndsWith f ".node")
    packNodeFiles version nodeFiles
  else pure []

def createReleaseArtifacts (version : String) : M (List String × List String) := do
  info "📦 Creating release artifacts..."
  ensureDir archiveDir
  let rnArtifacts ← packageIos version
  let androidArtifacts ← packageAndroid version
  let tsArtifacts ← packageTs version
  info ("\n📁 Artifacts created in: " ++ archiveDir ++ "\n")
  pure (rnArtifacts ++ androidArtifacts, tsArtifacts)

/-! ### Steps 11-13: `commitChanges`, `createTag`, `pushToGitHub`
(lines 359-394) -/

def commitChanges (version : String) : M Unit := do
  info "📝 Committing changes..."
  let _ ← runCommand "git add ." projectRoot none true
  let _ ← runCommand ("git commit -m \"chore: release " ++ version ++ "\"")
    projectRoot (some "Creating commit") false
  info ""

def createTag (version : String) : M Unit := do
  info "🏷️  Creating git tag..."
  let _ ← runCommand
    ("git tag -a v" ++ version ++ " -m \"Release v" ++ version ++ "\"")
    projectRoot (some ("Creating tag v" ++ version)) false
  info ""

def pushToGitHub (version : String) : M Unit := do
  info "📤 Pushing to GitHub..."
  let _ ← runCommand "git push origin master" projectRoot (some "Pushing commits") false
  let _ ← runCommand ("git push origin v" ++ version) projectRoot (some "Pushing tag") false
  info ""

/-! ### Step 14: `createGitHubRelease` (lines 396-467) -/

/-- The templated release notes (lines 404-437). -/
def releaseNotes (version : String) : String :=
  "## Release v" ++ version ++ "\n\n### 📦 Packages Released\n- **@bennyblader/ddk-rn**: v" ++
    version ++ " - React Native bindings\n- **@bennyblader/ddk-ts**: v" ++ version ++
    " - TypeScript/Node.js bindings\n\n### 🎯 Release Artifacts\n- React Native iOS XCFrameworks\n- React Native Android JNI libraries  \n- TypeScript Node.js native modules (Darwin ARM64, Linux x64)\n\n### 📝 Changelog\n- Updated to ddk-ffi v" ++
    version ++
    "\n- Synchronized all package versions\n- Generated fresh bindings for all platforms\n\n### 📚 Installation\n\n#### React Native\n```bash\nnpm install @bennyblader/ddk-rn@" ++
    version ++ "\n# or\nyarn add @bennyblader/ddk-rn@" ++ version ++
    "\n```\n\n#### TypeScript/Node.js\n```bash\nnpm install @bennyblader/ddk-ts@" ++
    version ++ "\n# or\nyarn add @bennyblader/ddk-ts@" ++ version ++
    "\n```\n\n---\n🤖 Generated with [Claude Code](https://claude.ai/code)"

def releaseNotesFile : String := pathJoin archiveDir "release-notes.md"

/-- Display label of a React Native artifact: filename with `.tar.gz`
and the `-{version}` suffix stripped. -/
def rnArtifactLabel (version artifact : String) : String :=
  jsReplaceFirst (jsReplaceFirst (pathBasename artifact) ".tar.gz" "")
    ("-" ++ version) ""

/-- Display label of a TypeScript artifact: filename with `.node` and the
`-{version}` suffix stripped. -/
def tsArtifactLabel (version artifact : String) : String :=
  jsReplaceFirst (jsReplaceFirst (pathBasename artifact) ".node" "")
    ("-" ++ version) ""

/-- The `gh release create` command line, extended with one
`"file#label"` asset argument per artifact. -/
def ghReleaseCommand (version : String) (rnArtifacts tsArtifacts : List String) :
    String :=
  let base := "gh release create v" ++ version ++ " --title \"v" ++ version ++
    "\" --notes-file \"" ++ releaseNotesFile ++ "\""
  let withRn := rnArtifacts.foldl
    (fun cmd a => cmd ++ " \"" ++ a ++ "#" ++ rnArtifactLabel version a ++ "\"") base
  tsArtifacts.foldl
    (fun cmd a => cmd ++ " \"" ++ a ++ "#" ++ tsArtifactLabel version a ++ "\"") withRn

def createGitHubRelease (version : String)
    (artifacts : List String × List String) : M Unit := do
  info "🚀 Creating GitHub release..."
  emit (.write releaseNotesFile (releaseNotes version))
  let _ ← runCommand (ghReleaseCommand version artifacts.1 artifacts.2)
    projectRoot (some "Creating GitHub release with artifacts") false
  emit (.unlink releaseNotesFile)
  info ""

/-! ### Step 15: `publishNpmPackages` (lines 469-531) -/

def publishNpmPackages (version : String) : M Unit := do
  info "📦 Publishing npm packages...\n"
  tryCatch
    (do
      let _ ← runCommand "npm whoami" projectRoot none true
      pure ())
    (fun _ => do
      errLog "❌ You are not authenticated with npm. Please run: npm login"
      exitProc 1)
  info "   Publishing @bennyblader/ddk-rn..."
  let _ ← runCommand "npm publish --access public" ddkRnRoot (some "Publishing ddk-rn") false
  info "\n   Publishing @bennyblader/ddk-ts..."
  let _ ← runCommand "npm publish --access public" ddkTsRoot (some "Publishing ddk-ts") false
  info ""
  info "🔍 Verifying published versions..."
  emit (.sleep 3000)
  tryCatch
    (do
      let rnVersion ← runCommand "npm view @bennyblader/ddk-rn version" projectRoot none true
      let tsVersion ← runCommand "npm view @bennyblader/ddk-ts version" projectRoot none true
      if jsTrim rnVersion = version ∧ jsTrim tsVersion = version then
        info ("   ✅ Both packages published successfully at version " ++ version)
      else do
        warnLog "   ⚠️  Version mismatch detected:"
        warnLog ("      ddk-rn: " ++ jsTrim rnVersion)
        warnLog ("      ddk-ts: " ++ jsTrim tsVersion))
    (fun _ =>
      warnLog "   ⚠️  Could not verify published versions (registry may be updating)")
  info ""

/-! ### `main` (lines 533-598) and the CLI entry (lines 8-60)

`main` is the `try`-wrapped composition of the stages; the `catch`
prints the recovery checklist and exits 1.  We group the stages before
the git operations into `stagesBeforeGit` and the rest into
`gitAndPublish` purely for proof modularity — the sequencing is exactly
that of the source. -/

def stagesBeforeGit (version : String) : M (List String × List String) := do
  checkGitStatus
  runTests
  updateRustVersions version
  updatePackageVersions version
  generateReactNativeBindings
  applyHotFix
  generateTypeScriptBindings
  prepareRustSource
  buildReactNativePackage
  createReleaseArtifacts version

def successLogs (version : String) : M Unit := do
  info "🎉 Release completed successfully!\n"
  info "📦 Released packages:"
  info ("   - @bennyblader/ddk-rn@" ++ version)
  info ("   - @bennyblader/ddk-ts@" ++ version)
  info "\n🔗 Links:"
  info ("   - GitHub Release: https://github.com/bennyhodl/ddk-ffi/releases/tag/v" ++ version)
  info ("   - ddk-rn on npm: https://www.npmjs.com/package/@bennyblader/ddk-rn/v/" ++ version)
  info ("   - ddk-ts on npm: https://www.npmjs.com/package/@bennyblader/ddk-ts/v/" ++ version)

def gitAndPublish (version : String)
    (artifacts : List String × List String) : M Unit := do
  commitChanges version
  createTag version
  pushToGitHub version
  createGitHubRelease version artifacts
  publishNpmPackages version
  successLogs version

def releaseBody (version : String) : M Unit := do
  let artifacts ← stagesBeforeGit version
  gitAndPublish version artifacts

def recoveryLogs (msg : String) : M Unit := do
  errLog ("\n❌ Release failed: " ++ msg)
  errLog "\n🔧 You may need to:"
  errLog "   1. Check git status and clean up any partial commits"
  errLog "   2. Delete any tags that were created"
  errLog "   3. Check npm and GitHub for any partial releases"

def mainRelease (version : String) : M Unit :=
  tryCatch (releaseBody version)
    (fun msg => do
      recoveryLogs msg
      exitProc 1)

/-- The usage text printed for `--help`/`-h` or a missing version
argument (lines 13-44). -/
def usageText : String :=
  "\n🚀 Unified Release Script for DDK-FFI\n\nUsage:\n  node scripts/unified-release.js <version>\n  just release <version>\n\nExample:\n  just release 0.3.0\n  node scripts/unified-release.js 0.3.0\n\nThis script performs a unified release for both ddk-rn and ddk-ts packages:\n  1. Check git status is clean\n  2. Run tests in all packages (ddk-ffi, ddk-rn, ddk-ts)\n  3. Update Rust crate versions\n  4. Update package.json versions\n  5. Generate bindings for both React Native and TypeScript\n  6. Fix C++ include path issue\n  7. Commit all changes\n  8. Create git tag\n  9. Create GitHub release with artifacts\n  10. Publish both npm packages\n\nPrerequisites:\n  - Clean git working directory\n  - npm authentication (npm login)\n  - GitHub CLI authentication (gh auth login)\n  - uniffi-bindgen-react-native installed globally\n  - napi-rs CLI installed (@napi-rs/cli)\n  - Android NDK configured (for Android builds)\n  - Rust toolchain installed\n"

/-- The whole process: argument handling and validation at module top
level, then `main()`; the result is the final trace and the process exit
code.  A missing `args[0]` is the falsy `undefined`, modelled as `""`. -/
def script (args : List String) : Env → List Event × Nat := fun env =>
  let version := args.headD ""
  if version = "" || args.contains "--help" || args.contains "-h" then
    ([.info usageText],
      if args.contains "--help" || args.contains "-h" then 0 else 1)
  else if !isValidVersion version then
    ([.err "❌ Invalid version format. Expected: X.Y.Z or X.Y.Z-tag"], 1)
  else
    let r :=
      (do
        info ("🚀 Starting unified release for version " ++ version ++ "...\n")
        mainRelease version) env
    match r.2 with
    | .ok _ => (r.1, 0)
    | .exited c => (r.1, c)
    | .thrown m => (r.1 ++ [.err ("❌ Unexpected error: " ++ m)], 1)

/-! ### Concrete environments used to instantiate the theorems -/

/-- A minimal well-formed `package.json` text. -/
def samplePackageJson : String := "\x7b\"name\":\"sample\",\"version\":\"1.1.9\"\x7d"

/-- An environment in which every command succeeds, the git tree is
clean, the registry reports the released version, no optional build
output exists on disk, and both `package.json` manifests hold
`samplePackageJson`. -/
def happyEnv : Env where
  platform := "linux"
  ndk := false
  cmdOk := fun _ _ => true
  cmdOut := fun _ cmd => if cmd = "git status --porcelain" then "" else "1.2.0"
  fileExists := fun _ => false
  readFile := fun _ => samplePackageJson
  readDir := fun _ => []

example : (script ["1.2.0"] happyEnv).2 = 0 := by decide

/-! ### Classifying trace events

The ordering and frame claims are stated over the event trace: which
events are filesystem mutations, which commands belong to the publishing
sequence, and which events would remove the scratch archive directory. -/

/-- JS `String.prototype.startsWith`. -/
def strStartsWith (p s : String) : Bool := p.data.isPrefixOf s.data

theorem isPrefixOf_append_of_le (p : List Char) :
    ∀ (a x : List Char), p.length ≤ a.length →
      p.isPrefixOf (a ++ x) = p.isPrefixOf a := by
  induction p with
  | nil => intro a x _; simp [List.isPrefixOf]
  | cons c cs ih =>
    intro a x h
    cases a with
    | nil => simp at h
    | cons d ds =>
      simp only [List.cons_append, List.isPrefixOf, List.append_eq]
      rw [ih ds x (by simpa using h)]

theorem isPrefixOf_append_of_isPrefixOf {p a : List Char} (x : List Char)
    (h : p.isPrefixOf a = true) : p.isPrefixOf (a ++ x) = true := by
  induction p generalizing a with
  | nil => simp [List.isPrefixOf]
  | cons c cs ih =>
    cases a with
    | nil => simp [List.isPrefixOf] at h
    | cons d ds =>
      simp only [List.isPrefixOf, Bool.and_eq_true] at h ⊢
      exact ⟨h.1, ih h.2⟩

theorem strStartsWith_append_of_le (p a x : String)
    (h : p.length ≤ a.length) :
    strStartsWith p (a ++ x) = strStartsWith p a := by
  unfold strStartsWith
  rw [String.data_append]
  exact isPrefixOf_append_of_le p.data a.data x.data h

theorem strStartsWith_append_of (p a : String) (x : String)
    (h : strStartsWith p a = true) : strStartsWith p (a ++ x) = true := by
  unfold strStartsWith at h ⊢
  rw [String.data_append]
  exact isPrefixOf_append_of_isPrefixOf x.data h

/-- Is this event one of the externally visible release/publish commands
of `ReleasePublisher` (commit, tag, push, host release, registry
publish)? -/
def isReleaseExec (e : Event) : Bool :=
  match e with
  | .exec _ cmd =>
    strStartsWith "git commit" cmd || strStartsWith "git tag" cmd ||
      strStartsWith "git push" cmd || strStartsWith "gh release" cmd ||
      strStartsWith "npm publish" cmd
  | _ => false

/-- Is this event a filesystem mutation performed by the script itself
(file write, copy, unlink or directory creation)? -/
def isFsMutation (e : Event) : Bool :=
  match e with
  | .write _ _ => true
  | .copy _ _ => true
  | .unlink _ => true
  | .mkdir _ => true
  | _ => false

/-- Is this event an external-command spawn? -/
def isExecEvent (e : Event) : Bool :=
  match e with
  | .exec _ _ => true
  | _ => false

/-- Would this event remove the directory `dir` itself: a spawned
`rm -rf "<dir>"` or an `unlinkSync(dir)`? -/
def removesDir (dir : String) (e : Event) : Bool :=
  match e with
  | .exec _ cmd => cmd = "rm -rf \"" ++ dir ++ "\""
  | .unlink p => p = dir
  | _ => false

/-! ### Reduction lemmas for the individual stages

Each lemma fixes the oracle answers a stage consumes and computes the
trace and outcome of the stage. -/

theorem checkGitStatus_clean (env : Env)
    (hok : env.cmdOk projectRoot "git status --porcelain" = true)
    (h : jsTrim (env.cmdOut projectRoot "git status --porcelain") = "") :
    checkGitStatus env =
      ([.info "🔍 Checking git status...",
        .exec projectRoot "git status --porcelain",
        .info "✅ Git working directory is clean\n"], .ok ()) := by
  simp [checkGitStatus, M.bind_apply, runCommand, info, errLog, emit,
    exitProc, hok, h]

theorem checkGitStatus_dirty (env : Env)
    (hok : env.cmdOk projectRoot "git status --porcelain" = true)
    (h : jsTrim (env.cmdOut projectRoot "git status --porcelain") ≠ "") :
    checkGitStatus env =
      ([.info "🔍 Checking git status...",
        .exec projectRoot "git status --porcelain",
        .err "❌ Git working directory is not clean. Please commit or stash changes first.",
        .err "Uncommitted changes:",
        .err (env.cmdOut projectRoot "git status --porcelain")], .exited 1) := by
  simp [checkGitStatus, M.bind_apply, runCommand, info, errLog, emit,
    exitProc, hok, h]

/-- Trace of a fully successful `runTests`, parameterised by whether the
optional ddk-rn suite succeeded. -/
def runTestsTraceCommon : List Event :=
  [.info "🧪 Running tests...\n",
   .info "   Testing ddk-ffi (Rust)...",
   .info "📋 Rust tests",
   .info "   $ cargo test",
   .exec ddkFfiRoot "cargo test",
   .info "\n   Testing ddk-rn (React Native)...",
   .exec ddkRnRoot "pnpm test"]

def runTestsTraceTail : List Event :=
  [.info "\n   Testing ddk-ts (TypeScript)...",
   .info "📋 TypeScript tests",
   .info "   $ pnpm test",
   .exec ddkTsRoot "pnpm test",
   .info "\n✅ All tests passed\n"]

theorem runTests_ok (env : Env)
    (hffi : env.cmdOk ddkFfiRoot "cargo test" = true)
    (hrn : env.cmdOk ddkRnRoot "pnpm test" = true)
    (hts : env.cmdOk ddkTsRoot "pnpm test" = true) :
    runTests env = (runTestsTraceCommon ++ runTestsTraceTail, .ok ()) := by
  simp [runTests, M.bind_apply, M.pure_apply, tryCatch_apply, runCommand,
    info, emit, hffi, hrn, hts, runTestsTraceCommon, runTestsTraceTail]

theorem runTests_rnFail (env : Env)
    (hffi : env.cmdOk ddkFfiRoot "cargo test" = true)
    (hrn : env.cmdOk ddkRnRoot "pnpm test" = false)
    (hts : env.cmdOk ddkTsRoot "pnpm test" = true) :
    runTests env =
      (runTestsTraceCommon ++
        [.err "❌ Command failed: pnpm test",
         .info "   ⚠️  No React Native tests found or tests skipped"] ++
        runTestsTraceTail, .ok ()) := by
  simp [runTests, M.bind_apply, M.pure_apply, tryCatch_apply, runCommand,
    info, emit, hffi, hrn, hts, runTestsTraceCommon, runTestsTraceTail]

theorem runTests_cargoFail (env : Env)
    (hffi : env.cmdOk ddkFfiRoot "cargo test" = false) :
    runTests env =
      ([.info "🧪 Running tests...\n",
        .info "   Testing ddk-ffi (Rust)...",
        .info "📋 Rust tests",
        .info "   $ cargo test",
        .exec ddkFfiRoot "cargo test",
        .err "❌ Command failed: cargo test"],
        .thrown "Command failed: cargo test") := by
  simp [runTests, M.bind_apply, tryCatch_apply, runCommand, info, emit, hffi]

theorem updateRustVersions_skip (env : Env) (v : String)
    (h1 : env.fileExists (pathJoin ddkFfiRoot "Cargo.toml") = false)
    (h2 : env.fileExists (pathJoin ddkTsRoot "Cargo.toml") = false) :
    updateRustVersions v env =
      ([.info "📝 Updating Rust crate versions...", .info ""], .ok ()) := by
  simp [updateRustVersions, updateCargoAt, M.bind_apply, M.pure_apply,
    fileExistsM, info, emit, h1, h2]

theorem updatePackageVersions_ok (env : Env) (v orn ots : String)
    (hrn : updatePackageFile (env.readFile (pathJoin ddkRnRoot "package.json")) v
      = some orn)
    (hts : updatePackageFile (env.readFile (pathJoin ddkTsRoot "package.json")) v
      = some ots) :
    updatePackageVersions v env =
      ([.info "📝 Updating package.json versions...",
        .write (pathJoin ddkRnRoot "package.json") orn,
        .info ("   ✅ Updated " ++ pathBasename ddkRnRoot ++ "/package.json"),
        .write (pathJoin ddkTsRoot "package.json") ots,
        .info ("   ✅ Updated " ++ pathBasename ddkTsRoot ++ "/package.json"),
        .info ""], .ok ()) := by
  simp [updatePackageVersions, updatePackageAt, M.bind_apply, M.pure_apply,
    readFileM, info, emit, hrn, hts]

theorem generateReactNativeBindings_linux (env : Env)
    (hplat : env.platform = "linux") (hndk : env.ndk = false)
    (hjsi : env.cmdOk projectRoot "just uniffi-jsi" = true)
    (hturbo : env.cmdOk projectRoot "just uniffi-turbo" = true) :
    generateReactNativeBindings env =
      ([.info "🔧 Generating React Native bindings...",
        .info "📋 Generating JSI bindings", .info "   $ just uniffi-jsi",
        .exec projectRoot "just uniffi-jsi",
        .info "📋 Generating Turbo Module", .info "   $ just uniffi-turbo",
        .exec projectRoot "just uniffi-turbo",
        .info "   ⚠️  Skipping iOS build (not on macOS)",
        .info "   ⚠️  Skipping Android build (NDK not configured)",
        .info ""], .ok ()) := by
  simp [generateReactNativeBindings, M.bind_apply, M.pure_apply, tryCatch_apply,
    runCommand, info, emit, getPlatform, getNdk, hplat, hndk, hjsi, hturbo]

theorem applyHotFix_skip (env : Env)
    (hcpp : env.fileExists ddkRnCppFile = false)
    (hpod : env.fileExists ddkRnPodspecFile = false) :
    applyHotFix env =
      ([.info "🔧 Applying post-build hot fixes...",
        .info "   ✅ Hot fixes applied and files unstaged",
        .info ""], .ok ()) := by
  simp [applyHotFix, M.bind_apply, M.pure_apply, fileExistsM, info, emit,
    hcpp, hpod]

theorem generateTypeScriptBindings_linux (env : Env)
    (hplat : env.platform = "linux")
    (hbuild : env.cmdOk ddkTsRoot "pnpm build" = true)
    (hprepub : env.cmdOk ddkTsRoot "pnpm prepublish" = true) :
    generateTypeScriptBindings env =
      ([.info "🔧 Building TypeScript/Node.js bindings...",
        .info "📋 Building for current platform", .info "   $ pnpm build",
        .exec ddkTsRoot "pnpm build",
        .info "📋 Running napi prepublish to update optionalDependencies",
        .info "   $ pnpm prepublish",
        .exec ddkTsRoot "pnpm prepublish",
        .info ""], .ok ()) := by
  simp [generateTypeScriptBindings, M.bind_apply, M.pure_apply, runCommand,
    info, emit, getPlatform, hplat, hbuild, hprepub]

theorem prepareRustSource_ok (env : Env)
    (h : env.cmdOk ddkRnRoot "node scripts/prepare-rust-src.js" = true) :
    prepareRustSource env =
      ([.info "📦 Preparing Rust source for React Native package...",
        .exec ddkRnRoot "node scripts/prepare-rust-src.js",
        .info "   ✅ Rust source prepared",
        .info ""], .ok ()) := by
  simp [prepareRustSource, M.bind_apply, M.pure_apply, runCommand, info, emit, h]

theorem buildReactNativePackage_ok (env : Env)
    (h : env.cmdOk ddkRnRoot "pnpm prepare" = true) :
    buildReactNativePackage env =
      ([.info "🔨 Building React Native package...",
        .info "📋 Building with react-native-builder-bob",
        .info "   $ pnpm prepare",
        .exec ddkRnRoot "pnpm prepare",
        .info ""], .ok ()) := by
  simp [buildReactNativePackage, M.bind_apply, M.pure_apply, runCommand,
    info, emit, h]

theorem createReleaseArtifacts_none (env : Env) (v : String)
    (harc : env.fileExists archiveDir = false)
    (hios : env.fileExists iosDir = false)
    (hand : env.fileExists androidLibsDir = false)
    (hdist : env.fileExists tsDistDir = false) :
    createReleaseArtifacts v env =
      ([.info "📦 Creating release artifacts...",
        .mkdir archiveDir,
        .info ("\n📁 Artifacts created in: " ++ archiveDir ++ "\n")],
        .ok ([], [])) := by
  simp [createReleaseArtifacts, packageIos, packageAndroid, packageTs,
    ensureDir, M.bind_apply, M.pure_apply, fileExistsM, info, emit,
    harc, hios, hand, hdist]

theorem runTests_tsFail (env : Env)
    (hffi : env.cmdOk ddkFfiRoot "cargo test" = true)
    (hrn : env.cmdOk ddkRnRoot "pnpm test" = true)
    (hts : env.cmdOk ddkTsRoot "pnpm test" = false) :
    runTests env =
      (runTestsTraceCommon ++
        [.info "\n   Testing ddk-ts (TypeScript)...",
         .info "📋 TypeScript tests",
         .info "   $ pnpm test",
         .exec ddkTsRoot "pnpm test",
         .err "❌ Command failed: pnpm test"],
        .thrown "Command failed: pnpm test") := by
  simp [runTests, M.bind_apply, M.pure_apply, tryCatch_apply, runCommand,
    info, emit, hffi, hrn, hts, runTestsTraceCommon]

/-- The commit command line embedding the version. -/
def commitCmd (v : String) : String :=
  "git commit -m \"chore: release " ++ v ++ "\""

/-- The annotated-tag command line. -/
def tagCmd (v : String) : String :=
  "git tag -a v" ++ v ++ " -m \"Release v" ++ v ++ "\""

/-- The tag-push command line. -/
def pushTagCmd (v : String) : String := "git push origin v" ++ v

theorem commitChanges_ok (env : Env) (v : String)
    (hadd : env.cmdOk projectRoot "git add ." = true)
    (hcommit : env.cmdOk projectRoot (commitCmd v) = true) :
    commitChanges v env =
      ([.info "📝 Committing changes...",
        .exec projectRoot "git add .",
        .info "📋 Creating commit",
        .info ("   $ " ++ commitCmd v),
        .exec projectRoot (commitCmd v),
        .info ""], .ok ()) := by
  simp [commitChanges, commitCmd, M.bind_apply, M.pure_apply, runCommand,
    info, emit, hadd] at *
  simp [hcommit]

theorem commitChanges_fail (env : Env) (v : String)
    (hadd : env.cmdOk projectRoot "git add ." = true)
    (hcommit : env.cmdOk projectRoot (commitCmd v) = false) :
    commitChanges v env =
      ([.info "📝 Committing changes...",
        .exec projectRoot "git add .",
        .info "📋 Creating commit",
        .info ("   $ " ++ commitCmd v),
        .exec projectRoot (commitCmd v),
        .err ("❌ Command failed: " ++ commitCmd v)],
        .thrown ("Command failed: " ++ commitCmd v)) := by
  simp [commitChanges, commitCmd, M.bind_apply, M.pure_apply, runCommand,
    info, emit, hadd] at *
  simp [hcommit]

theorem createTag_ok (env : Env) (v : String)
    (htag : env.cmdOk projectRoot (tagCmd v) = true) :
    createTag v env =
      ([.info "🏷️  Creating git tag...",
        .info ("📋 " ++ ("Creating tag v" ++ v)),
        .info ("   $ " ++ tagCmd v),
        .exec projectRoot (tagCmd v),
        .info ""], .ok ()) := by
  simp [createTag, tagCmd, M.bind_apply, M.pure_apply, runCommand,
    info, emit] at *
  simp [htag]

theorem createTag_fail (env : Env) (v : String)
    (htag : env.cmdOk projectRoot (tagCmd v) = false) :
    createTag v env =
      ([.info "🏷️  Creating git tag...",
        .info ("📋 " ++ ("Creating tag v" ++ v)),
        .info ("   $ " ++ tagCmd v),
        .exec projectRoot (tagCmd v),
        .err ("❌ Command failed: " ++ tagCmd v)],
        .thrown ("Command failed: " ++ tagCmd v)) := by
  simp [createTag, tagCmd, M.bind_apply, M.pure_apply, runCommand,
    info, emit] at *
  simp [htag]

theorem pushToGitHub_ok (env : Env) (v : String)
    (hbr : env.cmdOk projectRoot "git push origin master" = true)
    (htg : env.cmdOk projectRoot (pushTagCmd v) = true) :
    pushToGitHub v env =
      ([.info "📤 Pushing to GitHub...",
        .info "📋 Pushing commits",
        .info "   $ git push origin master",
        .exec projectRoot "git push origin master",
        .info "📋 Pushing tag",
        .info ("   $ " ++ pushTagCmd v),
        .exec projectRoot (pushTagCmd v),
        .info ""], .ok ()) := by
  simp [pushToGitHub, pushTagCmd, M.bind_apply, M.pure_apply, runCommand,
    info, emit, hbr] at *
  simp [htg]

theorem pushToGitHub_failBranch (env : Env) (v : String)
    (hbr : env.cmdOk projectRoot "git push origin master" = false) :
    pushToGitHub v env =
      ([.info "📤 Pushing to GitHub...",
        .info "📋 Pushing commits",
        .info "   $ git push origin master",
        .exec projectRoot "git push origin master",
        .err "❌ Command failed: git push origin master"],
        .thrown "Command failed: git push origin master") := by
  simp [pushToGitHub, M.bind_apply, M.pure_apply, runCommand, info, emit, hbr]

theorem pushToGitHub_failTag (env : Env) (v : String)
    (hbr : env.cmdOk projectRoot "git push origin master" = true)
    (htg : env.cmdOk projectRoot (pushTagCmd v) = false) :
    pushToGitHub v env =
      ([.info "📤 Pushing to GitHub...",
        .info "📋 Pushing commits",
        .info "   $ git push origin master",
        .exec projectRoot "git push origin master",
        .info "📋 Pushing tag",
        .info ("   $ " ++ pushTagCmd v),
        .exec projectRoot (pushTagCmd v),
        .err ("❌ Command failed: " ++ pushTagCmd v)],
        .thrown ("Command failed: " ++ pushTagCmd v)) := by
  simp [pushToGitHub, pushTagCmd, M.bind_apply, M.pure_apply, runCommand,
    info, emit, hbr] at *
  simp [htg]

theorem createGitHubRelease_ok (env : Env) (v : String)
    (arts : List String × List String)
    (hgh : env.cmdOk projectRoot (ghReleaseCommand v arts.1 arts.2) = true) :
    createGitHubRelease v arts env =
      ([.info "🚀 Creating GitHub release...",
        .write releaseNotesFile (releaseNotes v),
        .info "📋 Creating GitHub release with artifacts",
        .info ("   $ " ++ ghReleaseCommand v arts.1 arts.2),
        .exec projectRoot (ghReleaseCommand v arts.1 arts.2),
        .unlink releaseNotesFile,
        .info ""], .ok ()) := by
  simp [createGitHubRelease, M.bind_apply, M.pure_apply, runCommand,
    info, emit] at *
  simp [hgh]

theorem createGitHubRelease_fail (env : Env) (v : String)
    (arts : List String × List String)
    (hgh : env.cmdOk projectRoot (ghReleaseCommand v arts.1 arts.2) = false) :
    createGitHubRelease v arts env =
      ([.info "🚀 Creating GitHub release...",
        .write releaseNotesFile (releaseNotes v),
        .info "📋 Creating GitHub release with artifacts",
        .info ("   $ " ++ ghReleaseCommand v arts.1 arts.2),
        .exec projectRoot (ghReleaseCommand v arts.1 arts.2),
        .err ("❌ Command failed: " ++ ghReleaseCommand v arts.1 arts.2)],
        .thrown ("Command failed: " ++ ghReleaseCommand v arts.1 arts.2)) := by
  simp [createGitHubRelease, M.bind_apply, M.pure_apply, runCommand,
    info, emit] at *
  simp [hgh]

/-- Events of `publishNpmPackages` up to and including the fixed
registry-propagation delay. -/
def publishTraceHead : List Event :=
  [.info "📦 Publishing npm packages...\n",
   .exec projectRoot "npm whoami",
   .info "   Publishing @bennyblader/ddk-rn...",
   .info "📋 Publishing ddk-rn",
   .info "   $ npm publish --access public",
   .exec ddkRnRoot "npm publish --access public",
   .info "\n   Publishing @bennyblader/ddk-ts...",
   .info "📋 Publishing ddk-ts",
   .info "   $ npm publish --access public",
   .exec ddkTsRoot "npm publish --access public",
   .info "",
   .info "🔍 Verifying published versions...",
   .sleep 3000]

def viewRnCmd : String := "npm view @bennyblader/ddk-rn version"
def viewTsCmd : String := "npm view @bennyblader/ddk-ts version"

theorem publishNpm_verified (env : Env) (v : String)
    (hwho : env.cmdOk projectRoot "npm whoami" = true)
    (hprn : env.cmdOk ddkRnRoot "npm publish --access public" = true)
    (hpts : env.cmdOk ddkTsRoot "npm publish --access public" = true)
    (hvrn : env.cmdOk projectRoot viewRnCmd = true)
    (hvts : env.cmdOk projectRoot viewTsCmd = true)
    (horn : jsTrim (env.cmdOut projectRoot viewRnCmd) = v)
    (hots : jsTrim (env.cmdOut projectRoot viewTsCmd) = v) :
    publishNpmPackages v env =
      (publishTraceHead ++
        [.exec projectRoot viewRnCmd,
         .exec projectRoot viewTsCmd,
         .info ("   ✅ Both packages published successfully at version " ++ v),
         .info ""], .ok ()) := by
  simp only [viewRnCmd, viewTsCmd] at hvrn hvts horn hots
  simp [publishNpmPackages, publishTraceHead, viewRnCmd, viewTsCmd,
    M.bind_apply, M.pure_apply, tryCatch_apply, runCommand, info, warnLog,
    errLog, emit, exitProc, hwho, hprn, hpts, hvrn, hvts, horn, hots]

theorem publishNpm_mismatch (env : Env) (v o1 o2 : String)
    (hwho : env.cmdOk projectRoot "npm whoami" = true)
    (hprn : env.cmdOk ddkRnRoot "npm publish --access public" = true)
    (hpts : env.cmdOk ddkTsRoot "npm publish --access public" = true)
    (hvrn : env.cmdOk projectRoot viewRnCmd = true)
    (hvts : env.cmdOk projectRoot viewTsCmd = true)
    (horn : jsTrim (env.cmdOut projectRoot viewRnCmd) = o1)
    (hots : jsTrim (env.cmdOut projectRoot viewTsCmd) = o2)
    (hne : ¬(o1 = v ∧ o2 = v)) :
    publishNpmPackages v env =
      (publishTraceHead ++
        [.exec projectRoot viewRnCmd,
         .exec projectRoot viewTsCmd,
         .warn "   ⚠️  Version mismatch detected:",
         .warn ("      ddk-rn: " ++ o1),
         .warn ("      ddk-ts: " ++ o2),
         .info ""], .ok ()) := by
  simp only [viewRnCmd, viewTsCmd] at hvrn hvts horn hots
  simp [publishNpmPackages, publishTraceHead, viewRnCmd, viewTsCmd,
    M.bind_apply, M.pure_apply, tryCatch_apply, runCommand, info, warnLog,
    errLog, emit, exitProc, hwho, hprn, hpts, hvrn, hvts, horn, hots, hne]

theorem publishNpm_viewFail (env : Env) (v : String)
    (hwho : env.cmdOk projectRoot "npm whoami" = true)
    (hprn : env.cmdOk ddkRnRoot "npm publish --access public" = true)
    (hpts : env.cmdOk ddkTsRoot "npm publish --access public" = true)
    (hvrn : env.cmdOk projectRoot viewRnCmd = false) :
    publishNpmPackages v env =
      (publishTraceHead ++
        [.exec projectRoot viewRnCmd,
         .err ("❌ Command failed: " ++ viewRnCmd),
         .warn "   ⚠️  Could not verify published versions (registry may be updating)",
         .info ""], .ok ()) := by
  simp only [viewRnCmd] at hvrn
  simp [publishNpmPackages, publishTraceHead, viewRnCmd, viewTsCmd,
    M.bind_apply, M.pure_apply, tryCatch_apply, runCommand, info, warnLog,
    errLog, emit, exitProc, hwho, hprn, hpts, hvrn]

theorem publishNpm_authFail (env : Env) (v : String)
    (hwho : env.cmdOk projectRoot "npm whoami" = false) :
    publishNpmPackages v env =
      ([.info "📦 Publishing npm packages...\n",
        .exec projectRoot "npm whoami",
        .err "❌ Command failed: npm whoami",
        .err "❌ You are not authenticated with npm. Please run: npm login"],
        .exited 1) := by
  simp [publishNpmPackages, M.bind_apply, M.pure_apply, tryCatch_apply,
    runCommand, info, warnLog, errLog, emit, exitProc, hwho]

/-! ### Composing the stages

`PreEnvOk` bundles the oracle facts that make every stage before the git
operations succeed (on a Linux host without an NDK, with no optional
build-output directories on disk, and with parseable `package.json`
manifests whose rewritten texts are `orn`/`ots`).  The required ddk-ffi
and ddk-ts gates succeed; the optional ddk-rn gate is kept separate so
that both its outcomes can be studied. -/

structure PreEnvOk (env : Env) (v orn ots : String) : Prop where
  gitok : env.cmdOk projectRoot "git status --porcelain" = true
  clean : jsTrim (env.cmdOut projectRoot "git status --porcelain") = ""
  cargo : env.cmdOk ddkFfiRoot "cargo test" = true
  tstest : env.cmdOk ddkTsRoot "pnpm test" = true
  plat : env.platform = "linux"
  nondk : env.ndk = false
  jsi : env.cmdOk projectRoot "just uniffi-jsi" = true
  turbo : env.cmdOk projectRoot "just uniffi-turbo" = true
  tsbuild : env.cmdOk ddkTsRoot "pnpm build" = true
  tsprepub : env.cmdOk ddkTsRoot "pnpm prepublish" = true
  preparerust : env.cmdOk ddkRnRoot "node scripts/prepare-rust-src.js" = true
  rnprepare : env.cmdOk ddkRnRoot "pnpm prepare" = true
  cargoFfiAbsent : env.fileExists (pathJoin ddkFfiRoot "Cargo.toml") = false
  cargoTsAbsent : env.fileExists (pathJoin ddkTsRoot "Cargo.toml") = false
  cppAbsent : env.fileExists ddkRnCppFile = false
  podAbsent : env.fileExists ddkRnPodspecFile = false
  arcAbsent : env.fileExists archiveDir = false
  iosAbsent : env.fileExists iosDir = false
  androidAbsent : env.fileExists androidLibsDir = false
  distAbsent : env.fileExists tsDistDir = false
  parseRn : updatePackageFile (env.readFile (pathJoin ddkRnRoot "package.json")) v
    = some orn
  parseTs : updatePackageFile (env.readFile (pathJoin ddkTsRoot "package.json")) v
    = some ots

/-- Trace of the stages before the git operations, parameterised over the
trace produced by `runTests`. -/
def preTraceWith (testsTrace : List Event) (orn ots : String) : List Event :=
  [.info "🔍 Checking git status...",
   .exec projectRoot "git status --porcelain",
   .info "✅ Git working directory is clean\n"] ++
  testsTrace ++
  [.info "📝 Updating Rust crate versions...", .info ""] ++
  [.info "📝 Updating package.json versions...",
   .write (pathJoin ddkRnRoot "package.json") orn,
   .info ("   ✅ Updated " ++ pathBasename ddkRnRoot ++ "/package.json"),
   .write (pathJoin ddkTsRoot "package.json") ots,
   .info ("   ✅ Updated " ++ pathBasename ddkTsRoot ++ "/package.json"),
   .info ""] ++
  [.info "🔧 Generating React Native bindings...",
   .info "📋 Generating JSI bindings", .info "   $ just uniffi-jsi",
   .exec projectRoot "just uniffi-jsi",
   .info "📋 Generating Turbo Module", .info "   $ just uniffi-turbo",
   .exec projectRoot "just uniffi-turbo",
   .info "   ⚠️  Skipping iOS build (not on macOS)",
   .info "   ⚠️  Skipping Android build (NDK not configured)",
   .info ""] ++
  [.info "🔧 Applying post-build hot fixes...",
   .info "   ✅ Hot fixes applied and files unstaged",
   .info ""] ++
  [.info "🔧 Building TypeScript/Node.js bindings...",
   .info "📋 Building for current platform", .info "   $ pnpm build",
   .exec ddkTsRoot "pnpm build",
   .info "📋 Running napi prepublish to update optionalDependencies",
   .info "   $ pnpm prepublish",
   .exec ddkTsRoot "pnpm prepublish",
   .info ""] ++
  [.info "📦 Preparing Rust source for React Native package...",
   .exec ddkRnRoot "node scripts/prepare-rust-src.js",
   .info "   ✅ Rust source prepared",
   .info ""] ++
  [.info "🔨 Building React Native package...",
   .info "📋 Building with react-native-builder-bob",
   .info "   $ pnpm prepare",
   .exec ddkRnRoot "pnpm prepare",
   .info ""] ++
  [.info "📦 Creating release artifacts...",
   .mkdir archiveDir,
   .info ("\n📁 Artifacts created in: " ++ archiveDir ++ "\n")]

theorem stagesBeforeGit_ok (env : Env) (v orn ots : String)
    (H : PreEnvOk env v orn ots)
    (hrn : env.cmdOk ddkRnRoot "pnpm test" = true) :
    stagesBeforeGit v env =
      (preTraceWith (runTestsTraceCommon ++ runTestsTraceTail) orn ots,
        .ok ([], [])) := by
  simp [stagesBeforeGit, M.bind_apply,
    checkGitStatus_clean env H.gitok H.clean,
    runTests_ok env H.cargo hrn H.tstest,
    updateRustVersions_skip env v H.cargoFfiAbsent H.cargoTsAbsent,
    updatePackageVersions_ok env v orn ots H.parseRn H.parseTs,
    generateReactNativeBindings_linux env H.plat H.nondk H.jsi H.turbo,
    applyHotFix_skip env H.cppAbsent H.podAbsent,
    generateTypeScriptBindings_linux env H.plat H.tsbuild H.tsprepub,
    prepareRustSource_ok env H.preparerust,
    buildReactNativePackage_ok env H.rnprepare,
    createReleaseArtifacts_none env v H.arcAbsent H.iosAbsent
      H.androidAbsent H.distAbsent,
    preTraceWith, runTestsTraceCommon, runTestsTraceTail]

theorem stagesBeforeGit_rnFail (env : Env) (v orn ots : String)
    (H : PreEnvOk env v orn ots)
    (hrn : env.cmdOk ddkRnRoot "pnpm test" = false) :
    stagesBeforeGit v env =
      (preTraceWith
        (runTestsTraceCommon ++
          [.err "❌ Command failed: pnpm test",
           .info "   ⚠️  No React Native tests found or tests skipped"] ++
          runTestsTraceTail) orn ots,
        .ok ([], [])) := by
  simp [stagesBeforeGit, M.bind_apply,
    checkGitStatus_clean env H.gitok H.clean,
    runTests_rnFail env H.cargo hrn H.tstest,
    updateRustVersions_skip env v H.cargoFfiAbsent H.cargoTsAbsent,
    updatePackageVersions_ok env v orn ots H.parseRn H.parseTs,
    generateReactNativeBindings_linux env H.plat H.nondk H.jsi H.turbo,
    applyHotFix_skip env H.cppAbsent H.podAbsent,
    generateTypeScriptBindings_linux env H.plat H.tsbuild H.tsprepub,
    prepareRustSource_ok env H.preparerust,
    buildReactNativePackage_ok env H.rnprepare,
    createReleaseArtifacts_none env v H.arcAbsent H.iosAbsent
      H.androidAbsent H.distAbsent,
    preTraceWith, runTestsTraceCommon, runTestsTraceTail]

/-- Oracle facts making every step of the publishing sequence succeed
(the `gh release` command is parameterised by the artifact list and kept
as a separate hypothesis). -/
structure PublishEnvOk (env : Env) (v : String) : Prop where
  add : env.cmdOk projectRoot "git add ." = true
  commit : env.cmdOk projectRoot (commitCmd v) = true
  tag : env.cmdOk projectRoot (tagCmd v) = true
  pushbr : env.cmdOk projectRoot "git push origin master" = true
  pushtg : env.cmdOk projectRoot (pushTagCmd v) = true
  whoami : env.cmdOk projectRoot "npm whoami" = true
  pubrn : env.cmdOk ddkRnRoot "npm publish --access public" = true
  pubts : env.cmdOk ddkTsRoot "npm publish --access public" = true
  viewrn : env.cmdOk projectRoot viewRnCmd = true
  viewts : env.cmdOk projectRoot viewTsCmd = true

/-- Events of commit, tag, push and host-release creation on the success
path. -/
def gitReleaseHead (v : String) (rn ts : List String) : List Event :=
  [.info "📝 Committing changes...",
   .exec projectRoot "git add .",
   .info "📋 Creating commit",
   .info ("   $ " ++ commitCmd v),
   .exec projectRoot (commitCmd v),
   .info ""] ++
  [.info "🏷️  Creating git tag...",
   .info ("📋 " ++ ("Creating tag v" ++ v)),
   .info ("   $ " ++ tagCmd v),
   .exec projectRoot (tagCmd v),
   .info ""] ++
  [.info "📤 Pushing to GitHub...",
   .info "📋 Pushing commits",
   .info "   $ git push origin master",
   .exec projectRoot "git push origin master",
   .info "📋 Pushing tag",
   .info ("   $ " ++ pushTagCmd v),
   .exec projectRoot (pushTagCmd v),
   .info ""] ++
  [.info "🚀 Creating GitHub release...",
   .write releaseNotesFile (releaseNotes v),
   .info "📋 Creating GitHub release with artifacts",
   .info ("   $ " ++ ghReleaseCommand v rn ts),
   .exec projectRoot (ghReleaseCommand v rn ts),
   .unlink releaseNotesFile,
   .info ""]

/-- The final success banner of `main`. -/
def successTrace (v : String) : List Event :=
  [.info "🎉 Release completed successfully!\n",
   .info "📦 Released packages:",
   .info ("   - @bennyblader/ddk-rn@" ++ v),
   .info ("   - @bennyblader/ddk-ts@" ++ v),
   .info "\n🔗 Links:",
   .info ("   - GitHub Release: https://github.com/bennyhodl/ddk-ffi/releases/tag/v" ++ v),
   .info ("   - ddk-rn on npm: https://www.npmjs.com/package/@bennyblader/ddk-rn/v/" ++ v),
   .info ("   - ddk-ts on npm: https://www.npmjs.com/package/@bennyblader/ddk-ts/v/" ++ v)]

theorem gitAndPublish_verified (env : Env) (v : String)
    (arts : List String × List String)
    (P : PublishEnvOk env v)
    (hgh : env.cmdOk projectRoot (ghReleaseCommand v arts.1 arts.2) = true)
    (horn : jsTrim (env.cmdOut projectRoot viewRnCmd) = v)
    (hots : jsTrim (env.cmdOut projectRoot viewTsCmd) = v) :
    gitAndPublish v arts env =
      (gitReleaseHead v arts.1 arts.2 ++ publishTraceHead ++
        [.exec projectRoot viewRnCmd,
         .exec projectRoot viewTsCmd,
         .info ("   ✅ Both packages published successfully at version " ++ v),
         .info ""] ++ successTrace v, .ok ()) := by
  simp [gitAndPublish, successLogs, M.bind_apply, M.pure_apply,
    commitChanges_ok env v P.add P.commit,
    createTag_ok env v P.tag,
    pushToGitHub_ok env v P.pushbr P.pushtg,
    createGitHubRelease_ok env v arts hgh,
    publishNpm_verified env v P.whoami P.pubrn P.pubts P.viewrn P.viewts horn hots,
    gitReleaseHead, publishTraceHead, successTrace, info, emit]

theorem gitAndPublish_mismatch (env : Env) (v o1 o2 : String)
    (arts : List String × List String)
    (P : PublishEnvOk env v)
    (hgh : env.cmdOk projectRoot (ghReleaseCommand v arts.1 arts.2) = true)
    (horn : jsTrim (env.cmdOut projectRoot viewRnCmd) = o1)
    (hots : jsTrim (env.cmdOut projectRoot viewTsCmd) = o2)
    (hne : ¬(o1 = v ∧ o2 = v)) :
    gitAndPublish v arts env =
      (gitReleaseHead v arts.1 arts.2 ++ publishTraceHead ++
        [.exec projectRoot viewRnCmd,
         .exec projectRoot viewTsCmd,
         .warn "   ⚠️  Version mismatch detected:",
         .warn ("      ddk-rn: " ++ o1),
         .warn ("      ddk-ts: " ++ o2),
         .info ""] ++ successTrace v, .ok ()) := by
  simp [gitAndPublish, successLogs, M.bind_apply, M.pure_apply,
    commitChanges_ok env v P.add P.commit,
    createTag_ok env v P.tag,
    pushToGitHub_ok env v P.pushbr P.pushtg,
    createGitHubRelease_ok env v arts hgh,
    publishNpm_mismatch env v o1 o2 P.whoami P.pubrn P.pubts P.viewrn P.viewts
      horn hots hne,
    gitReleaseHead, publishTraceHead, successTrace, info, emit]

/-! ### `releaseBody`, `mainRelease` and `script` reduction -/

theorem releaseBody_of_ok (env : Env) (v : String) (t : List Event)
    (arts : List String × List String)
    (h : stagesBeforeGit v env = (t, .ok arts)) :
    releaseBody v env =
      (t ++ (gitAndPublish v arts env).1, (gitAndPublish v arts env).2) := by
  simp [releaseBody, M.bind_apply, h]

/-- The recovery checklist printed by the `catch` in `main`. -/
def recoveryTrace (m : String) : List Event :=
  [.err ("\n❌ Release failed: " ++ m),
   .err "\n🔧 You may need to:",
   .err "   1. Check git status and clean up any partial commits",
   .err "   2. Delete any tags that were created",
   .err "   3. Check npm and GitHub for any partial releases"]

theorem mainRelease_of_ok (env : Env) (v : String) (t : List Event)
    (h : releaseBody v env = (t, .ok ())) :
    mainRelease v env = (t, .ok ()) := by
  simp [mainRelease, tryCatch_apply, h]

theorem mainRelease_of_thrown (env : Env) (v : String) (t : List Event)
    (m : String) (h : releaseBody v env = (t, .thrown m)) :
    mainRelease v env = (t ++ recoveryTrace m, .exited 1) := by
  simp [mainRelease, tryCatch_apply, recoveryLogs, recoveryTrace,
    M.bind_apply, errLog, emit, exitProc, h]

theorem mainRelease_of_exited (env : Env) (v : String) (t : List Event)
    (c : Nat) (h : releaseBody v env = (t, .exited c)) :
    mainRelease v env = (t, .exited c) := by
  simp [mainRelease, tryCatch_apply, h]

theorem validVersion_ne (v : String) (hv : isValidVersion v = true) :
    v ≠ "" ∧ v ≠ "--help" ∧ v ≠ "-h" := by
  refine ⟨?_, ?_, ?_⟩ <;> rintro rfl <;> exact absurd hv (by decide)

theorem script_of_mainRelease (env : Env) (v : String)
    (hv : isValidVersion v = true) (t : List Event) (o : Outcome Unit)
    (h : mainRelease v env = (t, o)) :
    script [v] env =
      (Event.info ("🚀 Starting unified release for version " ++ v ++ "...\n") :: t ++
        (match o with
         | .thrown m => [Event.err ("❌ Unexpected error: " ++ m)]
         | _ => []),
       match o with
       | .ok _ => 0
       | .exited c => c
       | .thrown _ => 1) := by
  obtain ⟨h1, h2, h3⟩ := validVersion_ne v hv
  simp only [script, List.headD, List.contains, List.elem_cons, List.elem_nil,
    M.bind_apply, info, emit, h]
  rw [if_neg, if_neg]
  · cases o <;> simp
  · simp [hv]
  · have b1 : decide (v = "") = false := decide_eq_false h1
    have b2 : ("--help" == v) = false := beq_eq_false_iff_ne.mpr (Ne.symm h2)
    have b3 : ("-h" == v) = false := beq_eq_false_iff_ne.mpr (Ne.symm h3)
    simp [List.contains, List.elem, b1, b2, b3, h1]

/-! ### Substring machinery for the hotfix transformations -/

theorem isPrefixOf_eq_append {p : List Char} :
    ∀ {s : List Char}, p.isPrefixOf s = true → s = p ++ s.drop p.length := by
  induction p with
  | nil => intro s _; simp
  | cons c cs ih =>
    intro s h
    cases s with
    | nil => simp [List.isPrefixOf] at h
    | cons d ds =>
      simp only [List.isPrefixOf, Bool.and_eq_true, beq_iff_eq] at h
      obtain ⟨rfl, h2⟩ := h
      simpa using ih h2

theorem replaceFirst_decomp {pat : List Char} (repl : List Char)
    (hne : pat ≠ []) :
    ∀ {s : List Char}, hasSubstr pat s = true →
      ∃ p q, s = p ++ pat ++ q ∧ replaceFirstAux pat repl s = p ++ repl ++ q := by
  intro s
  induction s with
  | nil =>
    intro h
    simp [hasSubstr, List.isEmpty_iff] at h
    exact absurd h hne
  | cons c s ih =>
    intro h
    by_cases hp : pat.isPrefixOf (c :: s) = true
    · refine ⟨[], (c :: s).drop pat.length, ?_, ?_⟩
      · simpa using isPrefixOf_eq_append hp
      · simp [replaceFirstAux, hp]
    · have h' : hasSubstr pat s = true := by
        simp only [hasSubstr, Bool.or_eq_true] at h
        rcases h with h | h
        · exact absurd h hp
        · exact h
      obtain ⟨p, q, hs, hr⟩ := ih h'
      refine ⟨c :: p, q, by simp [hs], ?_⟩
      have hpb : pat.isPrefixOf (c :: s) = false := Bool.eq_false_iff.mpr hp
      simp only [replaceFirstAux, hpb, Bool.false_eq_true, if_false, hr]
      simp

theorem hasSubstr_append_left (sub : List Char) :
    ∀ (a b : List Char), hasSubstr sub b = true → hasSubstr sub (a ++ b) = true := by
  intro a
  induction a with
  | nil => intro b h; simpa using h
  | cons c a ih =>
    intro b h
    simp only [List.cons_append, hasSubstr, Bool.or_eq_true]
    exact Or.inr (ih b h)

theorem hasSubstr_append_right (sub : List Char) :
    ∀ (b q : List Char), hasSubstr sub b = true → hasSubstr sub (b ++ q) = true := by
  intro b
  induction b with
  | nil =>
    intro q h
    simp only [hasSubstr, List.isEmpty_iff] at h
    subst h
    cases q with
    | nil => simp [hasSubstr]
    | cons c q' => simp [hasSubstr, List.isPrefixOf]
  | cons c b' ih =>
    intro q h
    simp only [hasSubstr, Bool.or_eq_true] at h ⊢
    rcases h with h | h
    · exact Or.inl (by simpa [List.cons_append] using
        isPrefixOf_append_of_isPrefixOf q h)
    · exact Or.inr (ih q h)

/-- Replacing one occurrence of `pat` keeps any substring of the
replacement text present in the result. -/
theorem hasSubstr_replaceFirst {pat s sub repl : List Char}
    (hne : pat ≠ []) (hs : hasSubstr pat s = true)
    (hr : hasSubstr sub repl = true) :
    hasSubstr sub (replaceFirstAux pat repl s) = true := by
  obtain ⟨p, q, _, he⟩ := replaceFirst_decomp repl hne hs
  rw [he, List.append_assoc]
  exact hasSubstr_append_left sub p (repl ++ q)
    (hasSubstr_append_right sub repl q hr)

/-- String-level corollary for the podspec patch: inserting the xcconfig
block leaves the xcconfig marker present in the result. -/
theorem jsIncludes_patchPodspec_insert (x : String)
    (hv : jsIncludes x vendoredFrameworksLine = true) :
    jsIncludes
      (jsReplaceFirst x vendoredFrameworksLine
        (vendoredFrameworksLine ++ "\n" ++ xcconfigBlock))
      xcconfigMarker = true := by
  unfold jsIncludes jsReplaceFirst at *
  refine hasSubstr_replaceFirst (by decide) hv ?_
  have : hasSubstr xcconfigMarker.data
      ((vendoredFrameworksLine ++ "\n" ++ xcconfigBlock) : String).data = true := by
    decide
  simpa using this

/-! ### Claim C3: idempotence of the include-path patch -/

/-- A text containing the defective include literal twice: generated
bindings never look like this, but the claim quantifies over every input
text. -/
def doubleDefectText : String := defectiveInclude ++ defectiveInclude

/-- C3 counterexample: the include-path patch is NOT idempotent on every
input text.  On a text holding two occurrences of the defective literal,
one application replaces only the first occurrence (JS string `replace`),
so a second application changes the text again:
`patch(patch(x)) ≠ patch(x)`. -/
theorem c3_patch_not_idempotent_counterexample :
    patchCppText (patchCppText doubleDefectText) ≠ patchCppText doubleDefectText := by
  decide

/-- C3 amended: the include-path patch is a no-op when the defective
literal `#include "/ddk_ffi.hpp"` is absent (in particular it never
double-patches an already-fixed file), and it is idempotent on every text
in which one application removes all occurrences of the defective
literal — which is every text with at most one occurrence, the only shape
the generator emits.  Texts with two or more occurrences (see the
counterexample) are the only exception. -/
theorem c3_patch_noop_and_conditionally_idempotent (x : String) :
    (jsIncludes x defectiveInclude = false → patchCppText x = x) ∧
    (jsIncludes (patchCppText x) defectiveInclude = false →
      patchCppText (patchCppText x) = patchCppText x) := by
  have noop : ∀ y : String, jsIncludes y defectiveInclude = false →
      patchCppText y = y := by
    intro y hy
    simp [patchCppText, hy]
  exact ⟨noop x, fun h => noop (patchCppText x) h⟩

/-- Witness for C3: a defect-free text is untouched, and a text with one
occurrence is stable after one application. -/
theorem c3_patch_witness :
    patchCppText "int main() \x7b return 0; \x7d\n" = "int main() \x7b return 0; \x7d\n" ∧
    patchCppText (patchCppText defectiveInclude) = patchCppText defectiveInclude :=
  ⟨(c3_patch_noop_and_conditionally_idempotent "int main() \x7b return 0; \x7d\n").1
      (by decide),
   (c3_patch_noop_and_conditionally_idempotent defectiveInclude).2 (by decide)⟩

/-! ### Claim C10: the podspec hotfix -/

/-- An environment whose podspec exists with content `"hello\n"`:
no xcconfig marker, no `LIBRARY_SEARCH_PATHS`, but also no
`vendored_frameworks` line. -/
def noVendoredEnv : Env where
  platform := "linux"
  ndk := false
  cmdOk := fun _ _ => true
  cmdOut := fun _ _ => ""
  fileExists := fun p => p = ddkRnPodspecFile
  readFile := fun _ => "hello\n"
  readDir := fun _ => []

/-- C10 counterexample: a podspec that contains neither marker is NOT
always given the xcconfig block — when the `vendored_frameworks` anchor
line is missing, `applyHotFix` only logs a warning and writes nothing, and
the pure podspec transform returns its input unchanged. -/
theorem c10_podspec_counterexample :
    jsIncludes "hello\n" xcconfigMarker = false ∧
    jsIncludes "hello\n" librarySearchMarker = false ∧
    patchPodspecText "hello\n" = "hello\n" ∧
    (applyHotFix noVendoredEnv).1.filter isFsMutation = [] := by
  refine ⟨by decide, by decide, by decide, ?_⟩
  decide

/-- The filesystem mutations of `applyHotFix`, characterised: at most one
write to the C++ binding file (when it exists and holds the defective
include) and at most one write to the podspec (when it exists, has no
xcconfig marker, and has the anchor line). -/
theorem applyHotFix_mutation_filter (env : Env) :
    (applyHotFix env).1.filter isFsMutation =
      (if env.fileExists ddkRnCppFile = true ∧
          jsIncludes (env.readFile ddkRnCppFile) defectiveInclude = true then
        [Event.write ddkRnCppFile
          (jsReplaceFirst (env.readFile ddkRnCppFile) defectiveInclude
            fixedInclude)]
      else []) ++
      (if env.fileExists ddkRnPodspecFile = true ∧
          jsIncludes (env.readFile ddkRnPodspecFile) xcconfigMarker = false ∧
          jsIncludes (env.readFile ddkRnPodspecFile) librarySearchMarker = false ∧
          jsIncludes (env.readFile ddkRnPodspecFile) vendoredFrameworksLine = true
        then
        [Event.write ddkRnPodspecFile
          (jsReplaceFirst (env.readFile ddkRnPodspecFile) vendoredFrameworksLine
            (vendoredFrameworksLine ++ "\n" ++ xcconfigBlock))]
      else []) := by
  cases hcf : env.fileExists ddkRnCppFile <;>
  cases hinc : jsIncludes (env.readFile ddkRnCppFile) defectiveInclude <;>
  cases hpf : env.fileExists ddkRnPodspecFile <;>
  cases hm1 : jsIncludes (env.readFile ddkRnPodspecFile) xcconfigMarker <;>
  cases hm2 : jsIncludes (env.readFile ddkRnPodspecFile) librarySearchMarker <;>
  cases hv : jsIncludes (env.readFile ddkRnPodspecFile) vendoredFrameworksLine <;>
    simp [applyHotFix, M.bind_apply, M.pure_apply, fileExistsM, readFileM,
      info, emit, isFsMutation, hcf, hinc, hpf, hm1, hm2, hv]

/-- C10 amended: when the podspec contains neither `s.xcconfig = {` nor
`LIBRARY_SEARCH_PATHS` **and** contains the `vendored_frameworks` line,
the hotfix inserts the xcconfig block right after that line (first
occurrence), and the result then contains the xcconfig marker; when
either marker is already present the podspec is left unchanged (and it is
also left unchanged when the anchor line is absent, the case the original
claim missed); the transform is idempotent on every input; and
`applyHotFix` mutates no file other than the C++ binding file and the
podspec. -/
theorem c10_podspec_hotfix :
    (∀ x : String, jsIncludes x xcconfigMarker = false →
      jsIncludes x librarySearchMarker = false →
      jsIncludes x vendoredFrameworksLine = true →
      patchPodspecText x =
        jsReplaceFirst x vendoredFrameworksLine
          (vendoredFrameworksLine ++ "\n" ++ xcconfigBlock) ∧
      jsIncludes (patchPodspecText x) xcconfigMarker = true) ∧
    (∀ x : String,
      jsIncludes x xcconfigMarker = true ∨ jsIncludes x librarySearchMarker = true →
      patchPodspecText x = x) ∧
    (∀ x : String, jsIncludes x xcconfigMarker = false →
      jsIncludes x librarySearchMarker = false →
      jsIncludes x vendoredFrameworksLine = false →
      patchPodspecText x = x) ∧
    (∀ x : String, patchPodspecText (patchPodspecText x) = patchPodspecText x) ∧
    (∀ env : Env, ∀ e ∈ (applyHotFix env).1, isFsMutation e = true →
      (∃ c, e = Event.write ddkRnCppFile c) ∨
      (∃ c, e = Event.write ddkRnPodspecFile c)) := by
  have hins : ∀ x : String, jsIncludes x xcconfigMarker = false →
      jsIncludes x librarySearchMarker = false →
      jsIncludes x vendoredFrameworksLine = true →
      patchPodspecText x =
        jsReplaceFirst x vendoredFrameworksLine
          (vendoredFrameworksLine ++ "\n" ++ xcconfigBlock) ∧
      jsIncludes (patchPodspecText x) xcconfigMarker = true := by
    intro x h1 h2 hv
    have he : patchPodspecText x =
        jsReplaceFirst x vendoredFrameworksLine
          (vendoredFrameworksLine ++ "\n" ++ xcconfigBlock) := by
      simp [patchPodspecText, h1, h2, hv]
    exact ⟨he, he ▸ jsIncludes_patchPodspec_insert x hv⟩
  have hkeep : ∀ x : String,
      jsIncludes x xcconfigMarker = true ∨ jsIncludes x librarySearchMarker = true →
      patchPodspecText x = x := by
    intro x h
    rcases h with h | h <;> simp [patchPodspecText, h]
  have hnoanchor : ∀ x : String, jsIncludes x xcconfigMarker = false →
      jsIncludes x librarySearchMarker = false →
      jsIncludes x vendoredFrameworksLine = false →
      patchPodspecText x = x := by
    intro x h1 h2 hv
    simp [patchPodspecText, h1, h2, hv]
  refine ⟨hins, hkeep, hnoanchor, ?_, ?_⟩
  · intro x
    cases h1 : jsIncludes x xcconfigMarker with
    | true => rw [hkeep x (Or.inl h1), hkeep x (Or.inl h1)]
    | false =>
      cases h2 : jsIncludes x librarySearchMarker with
      | true => rw [hkeep x (Or.inr h2), hkeep x (Or.inr h2)]
      | false =>
        cases hv : jsIncludes x vendoredFrameworksLine with
        | false => rw [hnoanchor x h1 h2 hv, hnoanchor x h1 h2 hv]
        | true => exact hkeep _ (Or.inl ((hins x h1 h2 hv).2))
  · intro env e he hmut
    have h2 : e ∈ (applyHotFix env).1.filter isFsMutation :=
      List.mem_filter.mpr ⟨he, hmut⟩
    rw [applyHotFix_mutation_filter env] at h2
    rcases List.mem_append.mp h2 with h3 | h3
    · left
      split at h3
      · exact ⟨_, List.mem_singleton.mp h3⟩
      · exact absurd h3 (List.not_mem_nil e)
    · right
      split at h3
      · exact ⟨_, List.mem_singleton.mp h3⟩
      · exact absurd h3 (List.not_mem_nil e)

/-- Witness for C10: on a podspec consisting of exactly the anchor line
the block is inserted; on the block itself (marker present) nothing
changes. -/
theorem c10_podspec_witness :
    patchPodspecText vendoredFrameworksLine =
      jsReplaceFirst vendoredFrameworksLine vendoredFrameworksLine
        (vendoredFrameworksLine ++ "\n" ++ xcconfigBlock) ∧
    patchPodspecText xcconfigBlock = xcconfigBlock :=
  ⟨(c10_podspec_hotfix.1 vendoredFrameworksLine (by decide) (by decide)
      (by decide)).1,
   c10_podspec_hotfix.2.1 xcconfigBlock (Or.inl (by decide))⟩

/-! ### Claim C1: the version-synchronisation rewrites -/

/-- Key lookup in a parsed JSON object. -/
def getKey : List (String × Json) → String → Option Json
  | [], _ => none
  | (k', v') :: rest, k => if k' = k then some v' else getKey rest k

theorem getKey_setKey_same (kvs : List (String × Json)) (k : String) (v : Json) :
    getKey (setKey kvs k v) k = some v := by
  induction kvs with
  | nil => simp [setKey, getKey]
  | cons kv rest ih =>
    obtain ⟨k', v'⟩ := kv
    by_cases h : k' = k
    · simp [setKey, getKey, h]
    · simp [setKey, getKey, h, ih]

theorem getKey_setKey_ne (kvs : List (String × Json)) (k : String) (v : Json)
    (k' : String) (h : k' ≠ k) :
    getKey (setKey kvs k v) k' = getKey kvs k' := by
  induction kvs with
  | nil =>
    simp only [setKey, getKey]
    rw [if_neg (fun hq : k = k' => h hq.symm)]
  | cons kv rest ih =>
    obtain ⟨k0, v0⟩ := kv
    by_cases h0 : k0 = k
    · subst h0
      simp only [setKey, if_pos rfl, getKey]
      rw [if_neg (fun hq : k0 = k' => h hq.symm),
        if_neg (fun hq : k0 = k' => h hq.symm)]
    · by_cases h1 : k0 = k'
      · simp [setKey, getKey, h0, h1, h]
      · simp [setKey, getKey, h0, h1, ih]

theorem setKey_keys (kvs : List (String × Json)) (k : String) (v : Json) :
    (setKey kvs k v).map Prod.fst =
      (if k ∈ kvs.map Prod.fst then kvs.map Prod.fst
       else kvs.map Prod.fst ++ [k]) := by
  induction kvs with
  | nil => simp [setKey]
  | cons kv rest ih =>
    obtain ⟨k0, v0⟩ := kv
    by_cases h0 : k0 = k
    · subst h0
      simp [setKey]
    · have hk : ¬k = k0 := fun hq => h0 hq.symm
      by_cases hmem : k ∈ rest.map Prod.fst <;>
        simp [setKey, h0, ih, hk, hmem]

/-- A compact, perfectly valid `package.json` text. -/
def compactManifest : String := "\x7b\"name\":\"x\",\"version\":\"1.1.9\"\x7d"

/-- What `updatePackageVersions` writes back for `compactManifest`. -/
def prettyManifest : String :=
  "\x7b\n  \"name\": \"x\",\n  \"version\": \"1.2.0\"\n\x7d\n"

/-- Does `output` arise from `input` by replacing one contiguous segment
with `newv`, all other bytes unchanged?  (The bounds saturate `take` and
`drop`, so searching `i, k ≤ |input|` is exhaustive.) -/
def versionOnlyRewriteB (input output newv : String) : Bool :=
  (List.range (input.data.length + 1)).any fun i =>
    (List.range (input.data.length + 1)).any fun k =>
      output.data == input.data.take i ++ newv.data ++ input.data.drop (i + k)

/-- C1 counterexample: `updatePackageVersions` does NOT leave every
non-version byte of a `package.json` intact.  On a compact manifest the
`JSON.parse`/`JSON.stringify(·, null, 2)` round trip re-indents the whole
file: the output is not the input with just one segment replaced by the
new version. -/
theorem c1_package_json_counterexample :
    updatePackageFile compactManifest "1.2.0" = some prettyManifest ∧
    versionOnlyRewriteB compactManifest prettyManifest "1.2.0" = false := by
  constructor
  · decide
  · decide

/-- C1 amended: (1) for `Cargo.toml`, the rewrite changes exactly the
matched span of the first line matching `^version = ".*"` into
`version = "<v>"` and preserves every other byte; (2) if no line matches,
the manifest is left byte-identical (and no version is written); (3) for
`package.json`, the `version` member of the parsed object is set to the input
version, every other member keeps its value and position, a missing
`version` member is appended last — but (4) the file is re-serialised as
2-space-indented JSON with a trailing newline, so non-version bytes
survive only when the input was already in that canonical form. -/
theorem c1_version_rewrite_amended :
    (∀ (v : String) (pre post : List (List Char)) (line : List Char),
      (∀ l ∈ pre, lineMatches l = false) → lineMatches line = true →
      (∀ l ∈ pre, '\n' ∉ l) → '\n' ∉ line → (∀ l ∈ post, '\n' ∉ l) →
      replaceVersionLine v ⟨joinLines (pre ++ line :: post)⟩ =
        ⟨joinLines (pre ++ patchVersionLine v line :: post)⟩) ∧
    (∀ (v content : String),
      (∀ l ∈ splitLines content.data, lineMatches l = false) →
      replaceVersionLine v content = content) ∧
    (∀ (kvs : List (String × Json)) (v : String),
      getKey (setKey kvs "version" (Json.str v)) "version" = some (Json.str v) ∧
      (∀ k, k ≠ "version" →
        getKey (setKey kvs "version" (Json.str v)) k = getKey kvs k) ∧
      (setKey kvs "version" (Json.str v)).map Prod.fst =
        (if "version" ∈ kvs.map Prod.fst then kvs.map Prod.fst
         else kvs.map Prod.fst ++ ["version"])) ∧
    (∀ (content v : String) (j : Json), parseJson content = some j →
      updatePackageFile content v = some (stringifyVal (setVersion j v) 0 ++ "\n")) := by
  refine ⟨?_, ?_, ?_, ?_⟩
  · intro v pre post line hm hl hn1 hn2 hn3
    have hfree : ∀ l ∈ pre ++ line :: post, '\n' ∉ l := by
      intro l hl'
      rcases List.mem_append.mp hl' with h | h
      · exact hn1 l h
      · rcases List.mem_cons.mp h with rfl | h
        · exact hn2
        · exact hn3 l h
    have hne : pre ++ line :: post ≠ [] := by simp
    show String.mk _ = String.mk _
    rw [show (String.mk (joinLines (pre ++ line :: post))).data
        = joinLines (pre ++ line :: post) from rfl]
    rw [splitLines_joinLines _ hfree hne, updateLines_frame v pre line post hm hl]
  · intro v content h
    exact replaceVersionLine_id v content h
  · intro kvs v
    exact ⟨getKey_setKey_same kvs "version" (Json.str v),
      fun k hk => getKey_setKey_ne kvs "version" (Json.str v) k hk,
      setKey_keys kvs "version" (Json.str v)⟩
  · intro content v j hj
    simp [updatePackageFile, hj]

/-- Witness for C1 (amended): the line rewrite on a three-line manifest
and the object update on a one-member object. -/
theorem c1_version_rewrite_witness :
    replaceVersionLine "1.2.0"
        ⟨joinLines (["[package]".data] ++ "version = \"1.1.9\"".data ::
          ["edition = \"2021\"".data])⟩ =
      ⟨joinLines (["[package]".data] ++
        patchVersionLine "1.2.0" ("version = \"1.1.9\"".data) ::
          ["edition = \"2021\"".data])⟩ ∧
    getKey (setKey [("name", Json.str "x")] "version" (Json.str "1.2.0"))
      "version" = some (Json.str "1.2.0") :=
  ⟨c1_version_rewrite_amended.1 "1.2.0" ["[package]".data]
      ["edition = \"2021\"".data] ("version = \"1.1.9\"".data)
      (by decide) (by decide) (by decide) (by decide) (by decide),
   (c1_version_rewrite_amended.2.2.1 [("name", Json.str "x")] "1.2.0").1⟩

/-! ### Claim C2: invalid versions are rejected before anything runs -/

/-- C2: invoked with a single version argument that fails the grammar
(and is not one of the help flags, which ask for usage instead of a
release), the process exits 1 having spawned no command and mutated no
filesystem state — validation happens at module top level before any
stage. -/
theorem c2_invalid_version_rejected (env : Env) (v : String)
    (hv : isValidVersion v = false) (h1 : v ≠ "--help") (h2 : v ≠ "-h") :
    (script [v] env).2 = 1 ∧
    (script [v] env).1.filter isFsMutation = [] ∧
    (script [v] env).1.filter isExecEvent = [] := by
  have b2 : ("--help" == v) = false := beq_eq_false_iff_ne.mpr (Ne.symm h1)
  have b3 : ("-h" == v) = false := beq_eq_false_iff_ne.mpr (Ne.symm h2)
  by_cases hz : v = ""
  · subst hz
    refine ⟨?_, ?_, ?_⟩ <;>
      simp [script, List.contains, List.elem, b2, b3, isFsMutation, isExecEvent]
  · have b1 : decide (v = "") = false := decide_eq_false hz
    refine ⟨?_, ?_, ?_⟩ <;>
      simp [script, List.contains, List.elem, b1, b2, b3, hz, hv,
        isFsMutation, isExecEvent]

/-- Witness for C2 at the example `"1.2"` given in the spec. -/
theorem c2_invalid_version_witness :
    (script ["1.2"] happyEnv).2 = 1 ∧
    (script ["1.2"] happyEnv).1.filter isFsMutation = [] ∧
    (script ["1.2"] happyEnv).1.filter isExecEvent = [] :=
  c2_invalid_version_rejected happyEnv "1.2" (by decide)
    (by decide) (by decide)

/-! ### Classifying the concrete commands of the pipeline

The publishing-order and scratch-directory claims inspect the command
strings in the trace; the commands that embed the version are reduced to
their literal prefixes with the lemmas below. -/

theorem isPrefixOf_trans {p q s : List Char} (h1 : p.isPrefixOf q = true)
    (h2 : q.isPrefixOf s = true) : p.isPrefixOf s = true := by
  induction p generalizing q s with
  | nil => simp [List.isPrefixOf]
  | cons c cs ih =>
    cases q with
    | nil => simp [List.isPrefixOf] at h1
    | cons d ds =>
      cases s with
      | nil => simp [List.isPrefixOf] at h2
      | cons e es =>
        simp only [List.isPrefixOf, Bool.and_eq_true, beq_iff_eq] at h1 h2 ⊢
        exact ⟨h1.1.trans h2.1, ih h1.2 h2.2⟩

theorem strStartsWith_mono {p q s : String} (hqp : strStartsWith q p = true)
    (hps : strStartsWith p s = true) : strStartsWith q s = true :=
  isPrefixOf_trans hqp hps

theorem strStartsWith_false_of_short (q p s : String)
    (hqp : strStartsWith q p = true) (hqs : strStartsWith q s = false) :
    strStartsWith p s = false := by
  cases h : strStartsWith p s with
  | false => rfl
  | true => rw [strStartsWith_mono hqp h] at hqs; cases hqs

/-- Reduce a prefix test on the commit command to its literal stem. -/
theorem sw_commit (p : String) (hp : p.length ≤ 30) (v : String) :
    strStartsWith p (commitCmd v) =
      strStartsWith p "git commit -m \"chore: release " := by
  unfold commitCmd
  have hl : String.length "git commit -m \"chore: release " = 30 := by decide
  rw [strStartsWith_append_of_le p _ "\""
      (by rw [String.length_append, hl]; omega),
    strStartsWith_append_of_le p _ v (by rw [hl]; omega)]

/-- Reduce a prefix test on the tag command to its literal stem. -/
theorem sw_tag (p : String) (hp : p.length ≤ 12) (v : String) :
    strStartsWith p (tagCmd v) = strStartsWith p "git tag -a v" := by
  unfold tagCmd
  have hl : String.length "git tag -a v" = 12 := by decide
  have hl2 : String.length " -m \"Release v" = 14 := by decide
  rw [strStartsWith_append_of_le p _ "\""
      (by rw [String.length_append, String.length_append,
        String.length_append, hl, hl2]; omega),
    strStartsWith_append_of_le p _ v
      (by rw [String.length_append, String.length_append, hl, hl2]; omega),
    strStartsWith_append_of_le p _ " -m \"Release v"
      (by rw [String.length_append, hl]; omega),
    strStartsWith_append_of_le p _ v (by rw [hl]; omega)]

/-- Reduce a prefix test on the tag-push command to its literal stem. -/
theorem sw_pushTag (p : String) (hp : p.length ≤ 17) (v : String) :
    strStartsWith p (pushTagCmd v) = strStartsWith p "git push origin v" := by
  unfold pushTagCmd
  have hl : String.length "git push origin v" = 17 := by decide
  rw [strStartsWith_append_of_le p _ v (by rw [hl]; omega)]

theorem foldl_label_ext (g : String → String) :
    ∀ (l : List String) (init : String),
      ∃ r, l.foldl (fun cmd a => cmd ++ " \"" ++ a ++ "#" ++ g a ++ "\"") init
        = init ++ r := by
  intro l
  induction l with
  | nil =>
    intro init
    exact ⟨"", (String.append_empty init).symm⟩
  | cons a as ih =>
    intro init
    obtain ⟨r, hr⟩ := ih (init ++ " \"" ++ a ++ "#" ++ g a ++ "\"")
    refine ⟨" \"" ++ (a ++ ("#" ++ (g a ++ ("\"" ++ r)))), ?_⟩
    rw [List.foldl_cons, hr]
    simp [String.append_assoc]

/-- The `gh release create` command is its versioned stem followed by the
title/notes options and the asset arguments. -/
theorem ghReleaseCommand_decomp (v : String) (rn ts : List String) :
    ∃ r, ghReleaseCommand v rn ts = ("gh release create v" ++ v) ++ r := by
  simp only [ghReleaseCommand]
  obtain ⟨r1, h1⟩ := foldl_label_ext (rnArtifactLabel v) rn
    ("gh release create v" ++ v ++ " --title \"v" ++ v ++
      "\" --notes-file \"" ++ releaseNotesFile ++ "\"")
  obtain ⟨r2, h2⟩ := foldl_label_ext (tsArtifactLabel v) ts
    (("gh release create v" ++ v ++ " --title \"v" ++ v ++
      "\" --notes-file \"" ++ releaseNotesFile ++ "\"") ++ r1)
  rw [h1, h2]
  refine ⟨" --title \"v" ++ (v ++ ("\" --notes-file \"" ++
    (releaseNotesFile ++ ("\"" ++ (r1 ++ r2))))), ?_⟩
  simp [String.append_assoc]

/-- Reduce a prefix test on the `gh release` command to its literal
stem. -/
theorem sw_gh (p : String) (hp : p.length ≤ 19) (v : String)
    (rn ts : List String) :
    strStartsWith p (ghReleaseCommand v rn ts) =
      strStartsWith p "gh release create v" := by
  obtain ⟨r, hr⟩ := ghReleaseCommand_decomp v rn ts
  have hl : String.length "gh release create v" = 19 := by decide
  rw [hr, String.append_assoc,
    strStartsWith_append_of_le p _ (v ++ r) (by rw [hl]; omega)]

/-- Reduce a prefix test on the iOS tar command to its literal stem. -/
theorem sw_tar (p : String) (hp : p.length ≤ 10) (archive : String) :
    strStartsWith p
        ("tar -czf \"" ++ archive ++ "\" -C \"" ++ tempIosDir ++ "\" .") =
      strStartsWith p "tar -czf \"" := by
  have hl : String.length "tar -czf \"" = 10 := by decide
  rw [strStartsWith_append_of_le p _ "\" ."
      (by simp only [String.length_append, hl]; omega),
    strStartsWith_append_of_le p _ tempIosDir
      (by simp only [String.length_append, hl]; omega),
    strStartsWith_append_of_le p _ "\" -C \""
      (by simp only [String.length_append, hl]; omega),
    strStartsWith_append_of_le p _ archive (by rw [hl]; omega)]

/-! ### Event-kind reduction lemmas -/

@[simp] theorem isReleaseExec_info (s : String) :
    isReleaseExec (.info s) = false := rfl
@[simp] theorem isReleaseExec_warn (s : String) :
    isReleaseExec (.warn s) = false := rfl
@[simp] theorem isReleaseExec_err (s : String) :
    isReleaseExec (.err s) = false := rfl
@[simp] theorem isReleaseExec_write (p c : String) :
    isReleaseExec (.write p c) = false := rfl
@[simp] theorem isReleaseExec_copy (p c : String) :
    isReleaseExec (.copy p c) = false := rfl
@[simp] theorem isReleaseExec_unlink (p : String) :
    isReleaseExec (.unlink p) = false := rfl
@[simp] theorem isReleaseExec_mkdir (p : String) :
    isReleaseExec (.mkdir p) = false := rfl
@[simp] theorem isReleaseExec_sleep (n : Nat) :
    isReleaseExec (.sleep n) = false := rfl

@[simp] theorem removesDir_info (d s : String) :
    removesDir d (.info s) = false := rfl
@[simp] theorem removesDir_warn (d s : String) :
    removesDir d (.warn s) = false := rfl
@[simp] theorem removesDir_err (d s : String) :
    removesDir d (.err s) = false := rfl
@[simp] theorem removesDir_write (d p c : String) :
    removesDir d (.write p c) = false := rfl
@[simp] theorem removesDir_copy (d p c : String) :
    removesDir d (.copy p c) = false := rfl
@[simp] theorem removesDir_mkdir (d p : String) :
    removesDir d (.mkdir p) = false := rfl
@[simp] theorem removesDir_sleep (d : String) (n : Nat) :
    removesDir d (.sleep n) = false := rfl

/-! #### Classifying each concrete command of the pipeline -/

theorem irx_commit (v : String) :
    isReleaseExec (.exec projectRoot (commitCmd v)) = true := by
  simp only [isReleaseExec]
  rw [sw_commit "git commit" (by decide) v]
  have h : strStartsWith "git commit" "git commit -m \"chore: release " = true := by
    decide
  simp [h]

theorem irx_tag (v : String) :
    isReleaseExec (.exec projectRoot (tagCmd v)) = true := by
  simp only [isReleaseExec]
  rw [sw_tag "git tag" (by decide) v]
  have h : strStartsWith "git tag" "git tag -a v" = true := by decide
  simp [h]

theorem irx_pushTag (v : String) :
    isReleaseExec (.exec projectRoot (pushTagCmd v)) = true := by
  simp only [isReleaseExec]
  rw [sw_pushTag "git push" (by decide) v]
  have h : strStartsWith "git push" "git push origin v" = true := by decide
  simp [h]

theorem irx_gh (v : String) (rn ts : List String) :
    isReleaseExec (.exec projectRoot (ghReleaseCommand v rn ts)) = true := by
  simp only [isReleaseExec]
  rw [sw_gh "gh release" (by decide) v rn ts]
  have h : strStartsWith "gh release" "gh release create v" = true := by decide
  simp [h]

theorem irx_tar (cwd : String) (archive : String) :
    isReleaseExec (.exec cwd
      ("tar -czf \"" ++ archive ++ "\" -C \"" ++ tempIosDir ++ "\" .")) = false := by
  simp only [isReleaseExec]
  rw [sw_tar "git commit" (by decide) archive, sw_tar "git tag" (by decide) archive,
    sw_tar "git push" (by decide) archive, sw_tar "gh release" (by decide) archive,
    strStartsWith_false_of_short "npm" "npm publish" _ (by decide)
      (by rw [sw_tar "npm" (by decide) archive]; decide)]
  decide

/-! #### `rm -rf` classification for the scratch-directory claim -/

theorem removesDir_exec_eq (d cwd cmd : String) :
    removesDir d (.exec cwd cmd) = decide (cmd = "rm -rf \"" ++ d ++ "\"") := rfl

theorem removesDir_exec_of_not_rm (d cwd cmd : String)
    (h : strStartsWith "rm -rf \"" cmd = false) :
    removesDir d (.exec cwd cmd) = false := by
  rw [removesDir_exec_eq]
  apply decide_eq_false
  intro hcm
  rw [hcm, String.append_assoc,
    strStartsWith_append_of_le "rm -rf \"" "rm -rf \"" (d ++ "\"")
      (le_refl _)] at h
  revert h
  decide

theorem rmArchive_commit (v : String) :
    removesDir archiveDir (.exec projectRoot (commitCmd v)) = false := by
  refine removesDir_exec_of_not_rm _ _ _ ?_
  rw [sw_commit "rm -rf \"" (by decide) v]
  decide

theorem rmArchive_tag (v : String) :
    removesDir archiveDir (.exec projectRoot (tagCmd v)) = false := by
  refine removesDir_exec_of_not_rm _ _ _ ?_
  rw [sw_tag "rm -rf \"" (by decide) v]
  decide

theorem rmArchive_pushTag (v : String) :
    removesDir archiveDir (.exec projectRoot (pushTagCmd v)) = false := by
  refine removesDir_exec_of_not_rm _ _ _ ?_
  rw [sw_pushTag "rm -rf \"" (by decide) v]
  decide

theorem rmArchive_gh (v : String) (rn ts : List String) :
    removesDir archiveDir (.exec projectRoot (ghReleaseCommand v rn ts)) = false := by
  refine removesDir_exec_of_not_rm _ _ _ ?_
  rw [sw_gh "rm -rf \"" (by decide) v rn ts]
  decide

theorem rmArchive_tar (cwd archive : String) :
    removesDir archiveDir (.exec cwd
      ("tar -czf \"" ++ archive ++ "\" -C \"" ++ tempIosDir ++ "\" .")) = false := by
  refine removesDir_exec_of_not_rm _ _ _ ?_
  rw [sw_tar "rm -rf \"" (by decide) archive]
  decide

/-! ### Claim C4: gate failures -/

theorem releaseBody_of_thrown (env : Env) (v : String) (t : List Event)
    (m : String) (h : stagesBeforeGit v env = (t, .thrown m)) :
    releaseBody v env = (t, .thrown m) := by
  simp [releaseBody, M.bind_apply, h]

theorem releaseBody_of_exited (env : Env) (v : String) (t : List Event)
    (c : Nat) (h : stagesBeforeGit v env = (t, .exited c)) :
    releaseBody v env = (t, .exited c) := by
  simp [releaseBody, M.bind_apply, h]

/-- The trace when the clean-tree check passes and `cargo test` fails. -/
def cargoFailTrace : List Event :=
  [.info "🔍 Checking git status...",
   .exec projectRoot "git status --porcelain",
   .info "✅ Git working directory is clean\n",
   .info "🧪 Running tests...\n",
   .info "   Testing ddk-ffi (Rust)...",
   .info "📋 Rust tests",
   .info "   $ cargo test",
   .exec ddkFfiRoot "cargo test",
   .err "❌ Command failed: cargo test"]

theorem stagesBeforeGit_cargoFail (env : Env) (v : String)
    (hgit : env.cmdOk projectRoot "git status --porcelain" = true)
    (hclean : jsTrim (env.cmdOut projectRoot "git status --porcelain") = "")
    (hcargo : env.cmdOk ddkFfiRoot "cargo test" = false) :
    stagesBeforeGit v env = (cargoFailTrace, .thrown "Command failed: cargo test") := by
  simp [stagesBeforeGit, M.bind_apply,
    checkGitStatus_clean env hgit hclean, runTests_cargoFail env hcargo,
    cargoFailTrace]

/-- The trace when the tree is clean, cargo and the optional ddk-rn gate
pass, and the required ddk-ts `pnpm test` gate fails. -/
def tsFailTrace : List Event :=
  [.info "🔍 Checking git status...",
   .exec projectRoot "git status --porcelain",
   .info "✅ Git working directory is clean\n"] ++
  runTestsTraceCommon ++
  [.info "\n   Testing ddk-ts (TypeScript)...",
   .info "📋 TypeScript tests",
   .info "   $ pnpm test",
   .exec ddkTsRoot "pnpm test",
   .err "❌ Command failed: pnpm test"]

theorem stagesBeforeGit_tsFail (env : Env) (v : String)
    (hgit : env.cmdOk projectRoot "git status --porcelain" = true)
    (hclean : jsTrim (env.cmdOut projectRoot "git status --porcelain") = "")
    (hffi : env.cmdOk ddkFfiRoot "cargo test" = true)
    (hrn : env.cmdOk ddkRnRoot "pnpm test" = true)
    (hts : env.cmdOk ddkTsRoot "pnpm test" = false) :
    stagesBeforeGit v env = (tsFailTrace, .thrown "Command failed: pnpm test") := by
  simp [stagesBeforeGit, M.bind_apply,
    checkGitStatus_clean env hgit hclean, runTests_tsFail env hffi hrn hts,
    tsFailTrace, runTestsTraceCommon]

/-- C4: a failing required gate aborts the whole pipeline.  When
`cargo test` in ddk-ffi fails, the process exits 1, no file is written,
and the only commands ever spawned are the status query and the failed
gate itself; when the required `pnpm test` gate in ddk-ts fails, the
process likewise exits 1 with no file written, and the only commands
spawned are the status query and the three test gates (so in either
case no version update, binding generation, packaging, commit, tag,
push, release or publish happens); whereas a failing non-required gate
(`pnpm test` in ddk-rn) merely logs the skip notice and the pipeline
runs to completion with exit code 0. -/
theorem c4_gate_failures :
    (∀ (env : Env) (v : String), isValidVersion v = true →
      env.cmdOk projectRoot "git status --porcelain" = true →
      jsTrim (env.cmdOut projectRoot "git status --porcelain") = "" →
      env.cmdOk ddkFfiRoot "cargo test" = false →
      (script [v] env).2 = 1 ∧
      (script [v] env).1.filter isFsMutation = [] ∧
      (script [v] env).1.filter isExecEvent =
        [.exec projectRoot "git status --porcelain",
         .exec ddkFfiRoot "cargo test"]) ∧
    (∀ (env : Env) (v : String), isValidVersion v = true →
      env.cmdOk projectRoot "git status --porcelain" = true →
      jsTrim (env.cmdOut projectRoot "git status --porcelain") = "" →
      env.cmdOk ddkFfiRoot "cargo test" = true →
      env.cmdOk ddkRnRoot "pnpm test" = true →
      env.cmdOk ddkTsRoot "pnpm test" = false →
      (script [v] env).2 = 1 ∧
      (script [v] env).1.filter isFsMutation = [] ∧
      (script [v] env).1.filter isExecEvent =
        [.exec projectRoot "git status --porcelain",
         .exec ddkFfiRoot "cargo test",
         .exec ddkRnRoot "pnpm test",
         .exec ddkTsRoot "pnpm test"]) ∧
    (∀ (env : Env) (v orn ots : String), isValidVersion v = true →
      PreEnvOk env v orn ots →
      env.cmdOk ddkRnRoot "pnpm test" = false →
      PublishEnvOk env v →
      env.cmdOk projectRoot (ghReleaseCommand v [] []) = true →
      (script [v] env).2 = 0 ∧
      Event.info "   ⚠️  No React Native tests found or tests skipped"
        ∈ (script [v] env).1) := by
  refine ⟨?_, ?_, ?_⟩
  · intro env v hv hgit hclean hcargo
    have hpre := stagesBeforeGit_cargoFail env v hgit hclean hcargo
    have hrb := releaseBody_of_thrown env v _ _ hpre
    have hm := mainRelease_of_thrown env v _ _ hrb
    have hs := script_of_mainRelease env v hv _ _ hm
    rw [hs]
    refine ⟨rfl, ?_, ?_⟩ <;>
      simp [cargoFailTrace, recoveryTrace, isFsMutation, isExecEvent]
  · intro env v hv hgit hclean hffi hrn hts
    have hpre := stagesBeforeGit_tsFail env v hgit hclean hffi hrn hts
    have hrb := releaseBody_of_thrown env v _ _ hpre
    have hm := mainRelease_of_thrown env v _ _ hrb
    have hs := script_of_mainRelease env v hv _ _ hm
    rw [hs]
    refine ⟨rfl, ?_, ?_⟩ <;>
      simp [tsFailTrace, runTestsTraceCommon, recoveryTrace, isFsMutation,
        isExecEvent]
  · intro env v orn ots hv H hrn P hgh
    have hpre := stagesBeforeGit_rnFail env v orn ots H hrn
    by_cases hmatch : jsTrim (env.cmdOut projectRoot viewRnCmd) = v ∧
        jsTrim (env.cmdOut projectRoot viewTsCmd) = v
    · have hgp := gitAndPublish_verified env v ([], []) P hgh hmatch.1 hmatch.2
      have hrb := releaseBody_of_ok env v _ _ hpre
      rw [hgp] at hrb
      have hm := mainRelease_of_ok env v _ hrb
      have hs := script_of_mainRelease env v hv _ _ hm
      rw [hs]
      refine ⟨rfl, ?_⟩
      simp [preTraceWith]
    · have hgp := gitAndPublish_mismatch env v
        (jsTrim (env.cmdOut projectRoot viewRnCmd))
        (jsTrim (env.cmdOut projectRoot viewTsCmd))
        ([], []) P hgh rfl rfl hmatch
      have hrb := releaseBody_of_ok env v _ _ hpre
      rw [hgp] at hrb
      have hm := mainRelease_of_ok env v _ hrb
      have hs := script_of_mainRelease env v hv _ _ hm
      rw [hs]
      refine ⟨rfl, ?_⟩
      simp [preTraceWith]

/-- An environment in which only the ddk-ffi `cargo test` gate fails. -/
def cargoFailEnv : Env :=
  { happyEnv with
    cmdOk := fun cwd cmd => !(cwd == ddkFfiRoot && cmd == "cargo test") }

/-- An environment in which only the optional ddk-rn `pnpm test` gate
fails. -/
def rnTestFailEnv : Env :=
  { happyEnv with
    cmdOk := fun cwd cmd => !(cwd == ddkRnRoot && cmd == "pnpm test") }

/-- An environment in which only the required ddk-ts `pnpm test` gate
fails. -/
def tsTestFailEnv : Env :=
  { happyEnv with
    cmdOk := fun cwd cmd => !(cwd == ddkTsRoot && cmd == "pnpm test") }

/-- The canonical rewritten `package.json` body for `samplePackageJson`
at version 1.2.0. -/
def samplePackageJsonOut : String :=
  "\x7b\n  \"name\": \"sample\",\n  \"version\": \"1.2.0\"\n\x7d\n"

/-- The pre-git-stage oracle facts hold in the environment whose only
failure is the optional ddk-rn gate. -/
theorem preOk_rnTestFail :
    PreEnvOk rnTestFailEnv "1.2.0" samplePackageJsonOut samplePackageJsonOut := by
  constructor <;> rfl

/-- The publish-step oracle facts hold in the environment whose only
failure is the optional ddk-rn gate. -/
theorem pubOk_rnTestFail : PublishEnvOk rnTestFailEnv "1.2.0" := by
  constructor <;> rfl

/-- Witness for C4 at concrete environments: a failing cargo gate, a
failing required ddk-ts gate, and a failing optional ddk-rn gate. -/
theorem c4_gate_failures_witness :
    ((script ["1.2.0"] cargoFailEnv).2 = 1 ∧
      (script ["1.2.0"] cargoFailEnv).1.filter isFsMutation = [] ∧
      (script ["1.2.0"] cargoFailEnv).1.filter isExecEvent =
        [.exec projectRoot "git status --porcelain",
         .exec ddkFfiRoot "cargo test"]) ∧
    ((script ["1.2.0"] tsTestFailEnv).2 = 1 ∧
      (script ["1.2.0"] tsTestFailEnv).1.filter isFsMutation = [] ∧
      (script ["1.2.0"] tsTestFailEnv).1.filter isExecEvent =
        [.exec projectRoot "git status --porcelain",
         .exec ddkFfiRoot "cargo test",
         .exec ddkRnRoot "pnpm test",
         .exec ddkTsRoot "pnpm test"]) ∧
    ((script ["1.2.0"] rnTestFailEnv).2 = 0 ∧
      Event.info "   ⚠️  No React Native tests found or tests skipped"
        ∈ (script ["1.2.0"] rnTestFailEnv).1) :=
  ⟨c4_gate_failures.1 cargoFailEnv "1.2.0" rfl rfl rfl rfl,
   c4_gate_failures.2.1 tsTestFailEnv "1.2.0" rfl rfl rfl rfl rfl rfl,
   c4_gate_failures.2.2 rnTestFailEnv "1.2.0" samplePackageJsonOut
      samplePackageJsonOut rfl preOk_rnTestFail rfl pubOk_rnTestFail rfl⟩

/-! ### Claim C9: CLI contract and exit codes -/

/-- The trace when the working tree is dirty. -/
def dirtyTrace (status : String) : List Event :=
  [.info "🔍 Checking git status...",
   .exec projectRoot "git status --porcelain",
   .err "❌ Git working directory is not clean. Please commit or stash changes first.",
   .err "Uncommitted changes:",
   .err status]

theorem stagesBeforeGit_dirty (env : Env) (v : String)
    (hgit : env.cmdOk projectRoot "git status --porcelain" = true)
    (hdirty : jsTrim (env.cmdOut projectRoot "git status --porcelain") ≠ "") :
    stagesBeforeGit v env =
      (dirtyTrace (env.cmdOut projectRoot "git status --porcelain"), .exited 1) := by
  simp [stagesBeforeGit, M.bind_apply,
    checkGitStatus_dirty env hgit hdirty, dirtyTrace]

/-- C9: the CLI contract.  `--help`/`-h` anywhere in the arguments print
the usage text and exit 0; a missing version argument prints usage and
exits 1; an invalid version prints an error and exits 1; a completed
pipeline exits 0 even when only the registry-propagation check warned;
and a fatal stage failure (here: the dirty-working-tree precondition)
exits 1. -/
theorem c9_cli_contract :
    (∀ (env : Env) (args : List String),
      "--help" ∈ args ∨ "-h" ∈ args →
      script args env = ([.info usageText], 0)) ∧
    (∀ env : Env, script [] env = ([.info usageText], 1)) ∧
    (∀ (env : Env) (v : String), isValidVersion v = false →
      v ≠ "" → v ≠ "--help" → v ≠ "-h" →
      script [v] env =
        ([.err "❌ Invalid version format. Expected: X.Y.Z or X.Y.Z-tag"], 1)) ∧
    (∀ (env : Env) (v orn ots : String), isValidVersion v = true →
      PreEnvOk env v orn ots →
      env.cmdOk ddkRnRoot "pnpm test" = true →
      PublishEnvOk env v →
      env.cmdOk projectRoot (ghReleaseCommand v [] []) = true →
      (script [v] env).2 = 0) ∧
    (∀ (env : Env) (v : String), isValidVersion v = true →
      env.cmdOk projectRoot "git status --porcelain" = true →
      jsTrim (env.cmdOut projectRoot "git status --porcelain") ≠ "" →
      (script [v] env).2 = 1) := by
  refine ⟨?_, ?_, ?_, ?_, ?_⟩
  · intro env args h
    rcases h with h | h <;> simp [script, h]
  · intro env
    simp [script, List.contains, List.elem]
  · intro env v hv h1 h2 h3
    have b1 : decide (v = "") = false := decide_eq_false h1
    have b2 : ("--help" == v) = false := beq_eq_false_iff_ne.mpr (Ne.symm h2)
    have b3 : ("-h" == v) = false := beq_eq_false_iff_ne.mpr (Ne.symm h3)
    simp [script, List.contains, List.elem, b1, b2, b3, h1, hv]
  · intro env v orn ots hv H hrn P hgh
    have hpre := stagesBeforeGit_ok env v orn ots H hrn
    by_cases hmatch : jsTrim (env.cmdOut projectRoot viewRnCmd) = v ∧
        jsTrim (env.cmdOut projectRoot viewTsCmd) = v
    · have hgp := gitAndPublish_verified env v ([], []) P hgh hmatch.1 hmatch.2
      have hrb := releaseBody_of_ok env v _ _ hpre
      rw [hgp] at hrb
      have hm := mainRelease_of_ok env v _ hrb
      rw [script_of_mainRelease env v hv _ _ hm]
    · have hgp := gitAndPublish_mismatch env v
        (jsTrim (env.cmdOut projectRoot viewRnCmd))
        (jsTrim (env.cmdOut projectRoot viewTsCmd))
        ([], []) P hgh rfl rfl hmatch
      have hrb := releaseBody_of_ok env v _ _ hpre
      rw [hgp] at hrb
      have hm := mainRelease_of_ok env v _ hrb
      rw [script_of_mainRelease env v hv _ _ hm]
  · intro env v hv hgit hdirty
    have hpre := stagesBeforeGit_dirty env v hgit hdirty
    have hrb := releaseBody_of_exited env v _ _ hpre
    have hm := mainRelease_of_exited env v _ _ hrb
    rw [script_of_mainRelease env v hv _ _ hm]

/-- An all-success environment whose registry reports `1.1.9` for both
packages after a `1.2.0` release: warnings only, still exit 0. -/
def staleRegistryEnv : Env :=
  { happyEnv with
    cmdOut := fun _ cmd =>
      if cmd = "git status --porcelain" then ""
      else if cmd = viewRnCmd then "1.1.9"
      else if cmd = viewTsCmd then "1.1.9"
      else "1.2.0" }

/-- An environment with a dirty working tree. -/
def dirtyEnv : Env :=
  { happyEnv with cmdOut := fun _ _ => " M scripts/unified-release.js" }

/-- The pre-git-stage oracle facts hold in the stale-registry
environment. -/
theorem preOk_stale :
    PreEnvOk staleRegistryEnv "1.2.0" samplePackageJsonOut samplePackageJsonOut := by
  constructor <;> rfl

/-- The publish-step oracle facts hold in the stale-registry
environment. -/
theorem pubOk_stale : PublishEnvOk staleRegistryEnv "1.2.0" := by
  constructor <;> rfl

/-- Witness for C9 at concrete inputs. -/
theorem c9_cli_contract_witness :
    script ["--help"] happyEnv = ([.info usageText], 0) ∧
    script [] happyEnv = ([.info usageText], 1) ∧
    script ["1.2"] happyEnv =
      ([.err "❌ Invalid version format. Expected: X.Y.Z or X.Y.Z-tag"], 1) ∧
    (script ["1.2.0"] staleRegistryEnv).2 = 0 ∧
    (script ["1.2.0"] dirtyEnv).2 = 1 :=
  ⟨c9_cli_contract.1 happyEnv ["--help"] (Or.inl (by decide)),
   c9_cli_contract.2.1 happyEnv,
   c9_cli_contract.2.2.1 happyEnv "1.2" (by decide) (by decide) (by decide)
     (by decide),
   c9_cli_contract.2.2.2.1 staleRegistryEnv "1.2.0" samplePackageJsonOut
     samplePackageJsonOut rfl preOk_stale rfl pubOk_stale rfl,
   c9_cli_contract.2.2.2.2 dirtyEnv "1.2.0" rfl rfl (by decide)⟩

/-! ### Claim C6: the post-publish registry verification -/

theorem gitAndPublish_viewFail (env : Env) (v : String)
    (arts : List String × List String)
    (hadd : env.cmdOk projectRoot "git add ." = true)
    (hcommit : env.cmdOk projectRoot (commitCmd v) = true)
    (htag : env.cmdOk projectRoot (tagCmd v) = true)
    (hbr : env.cmdOk projectRoot "git push origin master" = true)
    (htg : env.cmdOk projectRoot (pushTagCmd v) = true)
    (hgh : env.cmdOk projectRoot (ghReleaseCommand v arts.1 arts.2) = true)
    (hwho : env.cmdOk projectRoot "npm whoami" = true)
    (hprn : env.cmdOk ddkRnRoot "npm publish --access public" = true)
    (hpts : env.cmdOk ddkTsRoot "npm publish --access public" = true)
    (hvrn : env.cmdOk projectRoot viewRnCmd = false) :
    gitAndPublish v arts env =
      (gitReleaseHead v arts.1 arts.2 ++ publishTraceHead ++
        [.exec projectRoot viewRnCmd,
         .err ("❌ Command failed: " ++ viewRnCmd),
         .warn "   ⚠️  Could not verify published versions (registry may be updating)",
         .info ""] ++ successTrace v, .ok ()) := by
  simp [gitAndPublish, successLogs, M.bind_apply, M.pure_apply,
    commitChanges_ok env v hadd hcommit,
    createTag_ok env v htag,
    pushToGitHub_ok env v hbr htg,
    createGitHubRelease_ok env v arts hgh,
    publishNpm_viewFail env v hwho hprn hpts hvrn,
    gitReleaseHead, publishTraceHead, successTrace, info, emit]

/-- C6: after both npm publishes succeed the pipeline sleeps a fixed
3000 ms, then queries the registry version of each package; a version
mismatch yields warnings naming both packages with their queried
versions, immediately after the delay and the two queries, and the run
still exits 0; a failure of the query itself likewise only yields a
warning and exit 0. -/
theorem c6_propagation_check :
    (∀ (env : Env) (v orn ots o1 o2 : String), isValidVersion v = true →
      PreEnvOk env v orn ots →
      env.cmdOk ddkRnRoot "pnpm test" = true →
      PublishEnvOk env v →
      env.cmdOk projectRoot (ghReleaseCommand v [] []) = true →
      jsTrim (env.cmdOut projectRoot viewRnCmd) = o1 →
      jsTrim (env.cmdOut projectRoot viewTsCmd) = o2 →
      ¬(o1 = v ∧ o2 = v) →
      (script [v] env).2 = 0 ∧
      ∃ t1 t2, (script [v] env).1 =
        t1 ++ .sleep 3000 :: .exec projectRoot viewRnCmd ::
          .exec projectRoot viewTsCmd ::
          .warn "   ⚠️  Version mismatch detected:" ::
          .warn ("      ddk-rn: " ++ o1) ::
          .warn ("      ddk-ts: " ++ o2) :: t2) ∧
    (∀ (env : Env) (v orn ots : String), isValidVersion v = true →
      PreEnvOk env v orn ots →
      env.cmdOk ddkRnRoot "pnpm test" = true →
      env.cmdOk projectRoot "git add ." = true →
      env.cmdOk projectRoot (commitCmd v) = true →
      env.cmdOk projectRoot (tagCmd v) = true →
      env.cmdOk projectRoot "git push origin master" = true →
      env.cmdOk projectRoot (pushTagCmd v) = true →
      env.cmdOk projectRoot (ghReleaseCommand v [] []) = true →
      env.cmdOk projectRoot "npm whoami" = true →
      env.cmdOk ddkRnRoot "npm publish --access public" = true →
      env.cmdOk ddkTsRoot "npm publish --access public" = true →
      env.cmdOk projectRoot viewRnCmd = false →
      (script [v] env).2 = 0 ∧
      ∃ t1 t2, (script [v] env).1 =
        t1 ++ .sleep 3000 :: .exec projectRoot viewRnCmd ::
          .err ("❌ Command failed: " ++ viewRnCmd) ::
          .warn "   ⚠️  Could not verify published versions (registry may be updating)" ::
          t2) := by
  constructor
  · intro env v orn ots o1 o2 hv H hrn P hgh horn hots hne
    have hpre := stagesBeforeGit_ok env v orn ots H hrn
    have hgp := gitAndPublish_mismatch env v o1 o2 ([], []) P hgh horn hots hne
    have hrb := releaseBody_of_ok env v _ _ hpre
    rw [hgp] at hrb
    have hm := mainRelease_of_ok env v _ hrb
    have hs := script_of_mainRelease env v hv _ _ hm
    rw [hs]
    refine ⟨rfl, ?_⟩
    refine ⟨Event.info ("🚀 Starting unified release for version " ++ v ++ "...\n") ::
      (preTraceWith (runTestsTraceCommon ++ runTestsTraceTail) orn ots ++
        gitReleaseHead v [] [] ++
        (publishTraceHead.take 12)),
      [Event.info ""] ++ successTrace v, ?_⟩
    simp [publishTraceHead]
  · intro env v orn ots hv H hrn hadd hcommit htag hbr htg hgh hwho hprn hpts hvrn
    have hpre := stagesBeforeGit_ok env v orn ots H hrn
    have hgp := gitAndPublish_viewFail env v ([], []) hadd hcommit htag hbr htg
      hgh hwho hprn hpts hvrn
    have hrb := releaseBody_of_ok env v _ _ hpre
    rw [hgp] at hrb
    have hm := mainRelease_of_ok env v _ hrb
    have hs := script_of_mainRelease env v hv _ _ hm
    rw [hs]
    refine ⟨rfl, ?_⟩
    refine ⟨Event.info ("🚀 Starting unified release for version " ++ v ++ "...\n") ::
      (preTraceWith (runTestsTraceCommon ++ runTestsTraceTail) orn ots ++
        gitReleaseHead v [] [] ++
        (publishTraceHead.take 12)),
      [Event.info ""] ++ successTrace v, ?_⟩
    simp [publishTraceHead]

/-- The scenario given in the spec: the registry still reports `1.1.9` for
ddk-ts after a `1.2.0` release. -/
def halfStaleRegistryEnv : Env :=
  { happyEnv with
    cmdOut := fun _ cmd =>
      if cmd = "git status --porcelain" then ""
      else if cmd = viewTsCmd then "1.1.9"
      else "1.2.0" }

/-- An environment in which the registry query itself fails. -/
def viewFailEnv : Env :=
  { happyEnv with
    cmdOk := fun cwd cmd => !(cwd == projectRoot && cmd == viewRnCmd) }

/-- The pre-git-stage oracle facts hold in the half-stale-registry
environment. -/
theorem preOk_halfStale :
    PreEnvOk halfStaleRegistryEnv "1.2.0" samplePackageJsonOut
      samplePackageJsonOut := by
  constructor <;> rfl

/-- The publish-step oracle facts hold in the half-stale-registry
environment. -/
theorem pubOk_halfStale : PublishEnvOk halfStaleRegistryEnv "1.2.0" := by
  constructor <;> rfl

/-- The pre-git-stage oracle facts hold in the failed-query
environment. -/
theorem preOk_viewFail :
    PreEnvOk viewFailEnv "1.2.0" samplePackageJsonOut samplePackageJsonOut := by
  constructor <;> rfl

/-- Witness for C6 at the scenario given in the spec. -/
theorem c6_propagation_check_witness :
    ((script ["1.2.0"] halfStaleRegistryEnv).2 = 0 ∧
      ∃ t1 t2, (script ["1.2.0"] halfStaleRegistryEnv).1 =
        t1 ++ .sleep 3000 :: .exec projectRoot viewRnCmd ::
          .exec projectRoot viewTsCmd ::
          .warn "   ⚠️  Version mismatch detected:" ::
          .warn ("      ddk-rn: " ++ "1.2.0") ::
          .warn ("      ddk-ts: " ++ "1.1.9") :: t2) ∧
    ((script ["1.2.0"] viewFailEnv).2 = 0 ∧
      ∃ t1 t2, (script ["1.2.0"] viewFailEnv).1 =
        t1 ++ .sleep 3000 :: .exec projectRoot viewRnCmd ::
          .err ("❌ Command failed: " ++ viewRnCmd) ::
          .warn "   ⚠️  Could not verify published versions (registry may be updating)" ::
          t2) :=
  ⟨c6_propagation_check.1 halfStaleRegistryEnv "1.2.0" samplePackageJsonOut
      samplePackageJsonOut "1.2.0" "1.1.9" rfl preOk_halfStale rfl
      pubOk_halfStale rfl rfl rfl (by decide),
   c6_propagation_check.2 viewFailEnv "1.2.0" samplePackageJsonOut
      samplePackageJsonOut rfl preOk_viewFail rfl rfl rfl rfl rfl rfl rfl
      rfl rfl rfl rfl⟩

/-! ### Claim C8: the scratch archive directory -/

theorem rmA_status : removesDir archiveDir
    (.exec projectRoot "git status --porcelain") = false := by decide
theorem rmA_cargo : removesDir archiveDir
    (.exec ddkFfiRoot "cargo test") = false := by decide
theorem rmA_rnTest : removesDir archiveDir
    (.exec ddkRnRoot "pnpm test") = false := by decide
theorem rmA_tsTest : removesDir archiveDir
    (.exec ddkTsRoot "pnpm test") = false := by decide
theorem rmA_jsi : removesDir archiveDir
    (.exec projectRoot "just uniffi-jsi") = false := by decide
theorem rmA_turbo : removesDir archiveDir
    (.exec projectRoot "just uniffi-turbo") = false := by decide
theorem rmA_tsBuild : removesDir archiveDir
    (.exec ddkTsRoot "pnpm build") = false := by decide
theorem rmA_tsPrepub : removesDir archiveDir
    (.exec ddkTsRoot "pnpm prepublish") = false := by decide
theorem rmA_prepRust : removesDir archiveDir
    (.exec ddkRnRoot "node scripts/prepare-rust-src.js") = false := by decide
theorem rmA_rnPrepare : removesDir archiveDir
    (.exec ddkRnRoot "pnpm prepare") = false := by decide
theorem rmA_gitAdd : removesDir archiveDir
    (.exec projectRoot "git add .") = false := by decide
theorem rmA_pushMaster : removesDir archiveDir
    (.exec projectRoot "git push origin master") = false := by decide
theorem rmA_whoami : removesDir archiveDir
    (.exec projectRoot "npm whoami") = false := by decide
theorem rmA_pubRn : removesDir archiveDir
    (.exec ddkRnRoot "npm publish --access public") = false := by decide
theorem rmA_pubTs : removesDir archiveDir
    (.exec ddkTsRoot "npm publish --access public") = false := by decide
theorem rmA_viewRn : removesDir archiveDir
    (.exec projectRoot viewRnCmd) = false := by decide
theorem rmA_viewTs : removesDir archiveDir
    (.exec projectRoot viewTsCmd) = false := by decide
theorem rmA_unlinkNotes : removesDir archiveDir
    (.unlink releaseNotesFile) = false := by decide

/-- The deterministic iOS archive path. -/
def iosArchivePath (v : String) : String :=
  pathJoin archiveDir ("react-native-ios-xcframeworks-" ++ v ++ ".tar.gz")

/-- The iOS staging copy command for one framework. -/
def cpFrameworkCmd : String :=
  "cp -R \"" ++ pathJoin iosDir "DdkRn.xcframework" ++ "\" \"" ++ tempIosDir ++ "\""

/-- The archive compression command. -/
def tarIosCmd (v : String) : String :=
  "tar -czf \"" ++ iosArchivePath v ++ "\" -C \"" ++ tempIosDir ++ "\" ."

/-- The staging-directory removal command. -/
def rmTempIosCmd : String := "rm -rf \"" ++ tempIosDir ++ "\""

/-! ### Cleanup exclusivity

The following machinery proves, for EVERY oracle (hence on every success
and every failure path), that the only removal operations the pipeline
ever performs are the `temp-ios` staging-directory removal and the
release-notes unlink — in particular the archive directory itself is
never removed. -/

/-- Is this event a file or directory removal: a spawned command line
beginning with rm, or an `unlinkSync`? -/
def isRemovalEvent (e : Event) : Bool :=
  match e with
  | .exec _ cmd => strStartsWith "rm " cmd
  | .unlink _ => true
  | _ => false

/-- The event is either no removal at all, or one of the two cleanups
the script performs: removing the `temp-ios` staging directory or
unlinking the release-notes temp file. -/
def cleanupEventOk (e : Event) : Bool :=
  !isRemovalEvent e || e == .exec projectRoot rmTempIosCmd ||
    e == .unlink releaseNotesFile

/-- Holds when every removal event of the trace is one of the two
sanctioned cleanups. -/
def cleanupOnly (t : List Event) : Bool := t.all cleanupEventOk

/-- Cleanup exclusivity of a computation: under every oracle its trace
contains no removal beyond the two sanctioned cleanups. -/
def CleanupM {α : Type} (m : M α) : Prop :=
  ∀ env : Env, cleanupOnly (m env).1 = true

theorem cleanupOnly_append (t1 t2 : List Event) :
    cleanupOnly (t1 ++ t2) = (cleanupOnly t1 && cleanupOnly t2) :=
  List.all_append

theorem cleanupM_bind {α β : Type} {x : M α} {f : α → M β}
    (hx : CleanupM x) (hf : ∀ a, CleanupM (f a)) : CleanupM (x >>= f) := by
  intro env
  have hx' := hx env
  rw [M.bind_apply]
  rcases hxe : x env with ⟨t, o⟩
  rw [hxe] at hx'
  cases o with
  | ok a => simp [cleanupOnly_append, hx', hf a env]
  | thrown m => exact hx'
  | exited c => exact hx'

theorem cleanupM_tryCatch {α : Type} {x : M α} {h : String → M α}
    (hx : CleanupM x) (hh : ∀ m, CleanupM (h m)) : CleanupM (tryCatch x h) := by
  intro env
  have hx' := hx env
  rw [tryCatch_apply]
  rcases hxe : x env with ⟨t, o⟩
  rw [hxe] at hx'
  cases o with
  | ok a => exact hx'
  | thrown m => simp [cleanupOnly_append, hx', hh m env]
  | exited c => exact hx'

theorem cleanupM_ite {α : Type} (P : Prop) [Decidable P] {x y : M α}
    (hx : CleanupM x) (hy : CleanupM y) : CleanupM (if P then x else y) := by
  by_cases h : P
  · rwa [if_pos h]
  · rwa [if_neg h]

theorem cleanupM_pure {α : Type} (a : α) : CleanupM (pure a : M α) :=
  fun _ => rfl

theorem cleanupM_emit {e : Event} (he : cleanupEventOk e = true) :
    CleanupM (emit e) := by
  intro env
  simp [emit, cleanupOnly, he]

theorem cleanupM_info (s : String) : CleanupM (info s) := cleanupM_emit rfl

theorem cleanupM_warnLog (s : String) : CleanupM (warnLog s) := cleanupM_emit rfl

theorem cleanupM_errLog (s : String) : CleanupM (errLog s) := cleanupM_emit rfl

theorem cleanupM_write (p c : String) : CleanupM (emit (.write p c)) :=
  cleanupM_emit rfl

theorem cleanupM_throwJs {α : Type} (m : String) : CleanupM (@throwJs α m) :=
  fun _ => rfl

theorem cleanupM_exitProc {α : Type} (c : Nat) : CleanupM (@exitProc α c) :=
  fun _ => rfl

theorem cleanupM_getPlatform : CleanupM getPlatform := fun _ => rfl

theorem cleanupM_getNdk : CleanupM getNdk := fun _ => rfl

theorem cleanupM_fileExistsM (p : String) : CleanupM (fileExistsM p) :=
  fun _ => rfl

theorem cleanupM_readFileM (p : String) : CleanupM (readFileM p) :=
  fun _ => rfl

theorem cleanupM_readDirM (p : String) : CleanupM (readDirM p) :=
  fun _ => rfl

theorem cleanupM_ensureDir (d : String) : CleanupM (ensureDir d) := by
  intro env
  cases h : env.fileExists d <;>
    simp [ensureDir, h, cleanupOnly, cleanupEventOk, isRemovalEvent]

theorem cleanupM_runCommand (c cwd : String) (d : Option String) (s : Bool)
    (h : strStartsWith "rm " c = false) : CleanupM (runCommand c cwd d s) := by
  intro env
  cases hok : env.cmdOk cwd c <;> cases s <;> cases d <;>
    simp [runCommand, hok, cleanupOnly, cleanupEventOk, isRemovalEvent, h]

theorem cleanupM_rmTemp : CleanupM (runCommand rmTempIosCmd projectRoot none true) := by
  intro env
  cases hok : env.cmdOk projectRoot rmTempIosCmd <;>
    simp [runCommand, hok, cleanupOnly, cleanupEventOk, isRemovalEvent]

theorem ceo_info (s : String) : cleanupEventOk (.info s) = true := rfl

theorem ceo_warn (s : String) : cleanupEventOk (.warn s) = true := rfl

theorem ceo_err (s : String) : cleanupEventOk (.err s) = true := rfl

theorem ceo_write (p c : String) : cleanupEventOk (.write p c) = true := rfl

theorem ceo_copy (p c : String) : cleanupEventOk (.copy p c) = true := rfl

theorem ceo_mkdir (p : String) : cleanupEventOk (.mkdir p) = true := rfl

theorem ceo_sleep (n : Nat) : cleanupEventOk (.sleep n) = true := rfl

theorem ceo_jsi : cleanupEventOk (.exec projectRoot "just uniffi-jsi") = true := by
  decide

theorem ceo_turbo : cleanupEventOk (.exec projectRoot "just uniffi-turbo") = true := by
  decide

theorem ceo_buildIos : cleanupEventOk (.exec projectRoot "just build-ios") = true := by
  decide

theorem ceo_buildAndroid :
    cleanupEventOk (.exec projectRoot "just build-android") = true := by
  decide

theorem ceo_tsDarwin :
    cleanupEventOk (.exec ddkTsRoot "pnpm build:darwin-arm64") = true := by
  decide

theorem ceo_tsLinux :
    cleanupEventOk (.exec ddkTsRoot "pnpm build:linux-x64") = true := by
  decide

theorem ceo_tsBuild : cleanupEventOk (.exec ddkTsRoot "pnpm build") = true := by
  decide

theorem ceo_tsPrepub :
    cleanupEventOk (.exec ddkTsRoot "pnpm prepublish") = true := by
  decide

/-- Reduce a prefix test on a staging copy command to its literal stem. -/
theorem sw_cp (p : String) (hp : p.length ≤ 7) (fw : String) :
    strStartsWith p
        ("cp -R \"" ++ pathJoin iosDir fw ++ "\" \"" ++ tempIosDir ++ "\"") =
      strStartsWith p "cp -R \"" := by
  have hl : String.length "cp -R \"" = 7 := by decide
  rw [strStartsWith_append_of_le p _ "\""
      (by simp only [String.length_append, hl]; omega),
    strStartsWith_append_of_le p _ tempIosDir
      (by simp only [String.length_append, hl]; omega),
    strStartsWith_append_of_le p _ "\" \""
      (by simp only [String.length_append, hl]; omega),
    strStartsWith_append_of_le p _ (pathJoin iosDir fw) (by rw [hl]; omega)]

/-- Reduce a prefix test on a tar command with an arbitrary source
directory to its literal stem. -/
theorem sw_tarGen (p : String) (hp : p.length ≤ 10) (archive dir : String) :
    strStartsWith p
        ("tar -czf \"" ++ archive ++ "\" -C \"" ++ dir ++ "\" .") =
      strStartsWith p "tar -czf \"" := by
  have hl : String.length "tar -czf \"" = 10 := by decide
  rw [strStartsWith_append_of_le p _ "\" ."
      (by simp only [String.length_append, hl]; omega),
    strStartsWith_append_of_le p _ dir
      (by simp only [String.length_append, hl]; omega),
    strStartsWith_append_of_le p _ "\" -C \""
      (by simp only [String.length_append, hl]; omega),
    strStartsWith_append_of_le p _ archive (by rw [hl]; omega)]

theorem cleanupM_checkGitStatus : CleanupM checkGitStatus := by
  simp only [checkGitStatus]
  refine cleanupM_bind (cleanupM_info _) fun _ => ?_
  refine cleanupM_bind (cleanupM_runCommand _ _ _ _ (by decide)) fun status => ?_
  exact cleanupM_ite _
    (cleanupM_bind (cleanupM_errLog _) fun _ =>
      cleanupM_bind (cleanupM_errLog _) fun _ =>
        cleanupM_bind (cleanupM_errLog _) fun _ => cleanupM_exitProc _)
    (cleanupM_info _)

theorem cleanupM_runTests : CleanupM runTests := by
  simp only [runTests]
  refine cleanupM_bind (cleanupM_info _) fun _ => ?_
  refine cleanupM_bind (cleanupM_info _) fun _ => ?_
  refine cleanupM_bind (cleanupM_runCommand _ _ _ _ (by decide)) fun _ => ?_
  refine cleanupM_bind
    (cleanupM_tryCatch
      (cleanupM_bind (cleanupM_info _) fun _ =>
        cleanupM_bind (cleanupM_runCommand _ _ _ _ (by decide)) fun _ =>
          cleanupM_pure _)
      fun _ => cleanupM_info _) fun _ => ?_
  refine cleanupM_bind (cleanupM_info _) fun _ => ?_
  refine cleanupM_bind (cleanupM_runCommand _ _ _ _ (by decide)) fun _ => ?_
  exact cleanupM_info _

theorem cleanupM_updateCargoAt (v p : String) : CleanupM (updateCargoAt v p) := by
  simp only [updateCargoAt]
  refine cleanupM_bind (cleanupM_fileExistsM _) fun b => ?_
  exact cleanupM_ite _
    (cleanupM_bind (cleanupM_readFileM _) fun content =>
      cleanupM_bind (cleanupM_emit rfl) fun _ => cleanupM_info _)
    (cleanupM_pure _)

theorem cleanupM_updateRustVersions (v : String) :
    CleanupM (updateRustVersions v) := by
  simp only [updateRustVersions]
  refine cleanupM_bind (cleanupM_info _) fun _ => ?_
  refine cleanupM_bind (cleanupM_updateCargoAt _ _) fun _ => ?_
  exact cleanupM_bind (cleanupM_updateCargoAt _ _) fun _ => cleanupM_info _

theorem cleanupM_updatePackageAt (v root : String) :
    CleanupM (updatePackageAt v root) := by
  simp only [updatePackageAt]
  refine cleanupM_bind (cleanupM_readFileM _) fun content => ?_
  cases updatePackageFile content v with
  | none => exact cleanupM_throwJs _
  | some out => exact cleanupM_bind (cleanupM_emit rfl) fun _ => cleanupM_info _

theorem cleanupM_updatePackageVersions (v : String) :
    CleanupM (updatePackageVersions v) := by
  simp only [updatePackageVersions]
  refine cleanupM_bind (cleanupM_info _) fun _ => ?_
  refine cleanupM_bind (cleanupM_updatePackageAt _ _) fun _ => ?_
  exact cleanupM_bind (cleanupM_updatePackageAt _ _) fun _ => cleanupM_info _

theorem cleanupM_generateReactNativeBindings :
    CleanupM generateReactNativeBindings := by
  intro env
  by_cases hplat : env.platform = "darwin" <;>
  cases hndk : env.ndk <;>
  cases h1 : env.cmdOk projectRoot "just uniffi-jsi" <;>
  cases h2 : env.cmdOk projectRoot "just uniffi-turbo" <;>
  cases h3 : env.cmdOk projectRoot "just build-ios" <;>
  cases h4 : env.cmdOk projectRoot "just build-android" <;>
    simp [generateReactNativeBindings, M.bind_apply, M.pure_apply,
      tryCatch_apply, runCommand, info, emit, getPlatform, getNdk,
      hplat, hndk, h1, h2, h3, h4, cleanupOnly,
      ceo_info, ceo_err, ceo_jsi, ceo_turbo, ceo_buildIos, ceo_buildAndroid]

theorem cleanupM_applyHotFix : CleanupM applyHotFix := by
  intro env
  cases hcf : env.fileExists ddkRnCppFile <;>
  cases hinc : jsIncludes (env.readFile ddkRnCppFile) defectiveInclude <;>
  cases hpf : env.fileExists ddkRnPodspecFile <;>
  cases hm1 : jsIncludes (env.readFile ddkRnPodspecFile) xcconfigMarker <;>
  cases hm2 : jsIncludes (env.readFile ddkRnPodspecFile) librarySearchMarker <;>
  cases hv : jsIncludes (env.readFile ddkRnPodspecFile) vendoredFrameworksLine <;>
    simp [applyHotFix, M.bind_apply, M.pure_apply, fileExistsM, readFileM,
      info, emit, hcf, hinc, hpf, hm1, hm2, hv, cleanupOnly,
      ceo_info, ceo_write]

theorem cleanupM_generateTypeScriptBindings :
    CleanupM generateTypeScriptBindings := by
  intro env
  by_cases hplat : env.platform = "darwin" <;>
  cases h1 : env.cmdOk ddkTsRoot "pnpm build:darwin-arm64" <;>
  cases h2 : env.cmdOk ddkTsRoot "pnpm build:linux-x64" <;>
  cases h3 : env.cmdOk ddkTsRoot "pnpm build" <;>
  cases h4 : env.cmdOk ddkTsRoot "pnpm prepublish" <;>
    simp [generateTypeScriptBindings, M.bind_apply, M.pure_apply, runCommand,
      info, emit, getPlatform, hplat, h1, h2, h3, h4, cleanupOnly,
      ceo_info, ceo_err, ceo_tsDarwin, ceo_tsLinux, ceo_tsBuild, ceo_tsPrepub]

theorem cleanupM_prepareRustSource : CleanupM prepareRustSource := by
  simp only [prepareRustSource]
  refine cleanupM_bind (cleanupM_info _) fun _ => ?_
  refine cleanupM_bind (cleanupM_runCommand _ _ _ _ (by decide)) fun _ => ?_
  exact cleanupM_bind (cleanupM_info _) fun _ => cleanupM_info _

theorem cleanupM_buildReactNativePackage : CleanupM buildReactNativePackage := by
  simp only [buildReactNativePackage]
  refine cleanupM_bind (cleanupM_info _) fun _ => ?_
  exact cleanupM_bind (cleanupM_runCommand _ _ _ _ (by decide)) fun _ =>
    cleanupM_info _

theorem cleanupM_copyFrameworks (fws : List String) :
    CleanupM (copyFrameworks fws) := by
  induction fws with
  | nil => exact cleanupM_pure _
  | cons fw fws ih =>
    simp only [copyFrameworks]
    refine cleanupM_bind (cleanupM_runCommand _ _ _ _ ?_) fun _ => ih
    rw [sw_cp "rm " (by decide) fw]
    decide

theorem cleanupM_packageIos (v : String) : CleanupM (packageIos v) := by
  have htar : strStartsWith "rm "
      ("tar -czf \"" ++ pathJoin archiveDir
          ("react-native-ios-xcframeworks-" ++ v ++ ".tar.gz") ++
        "\" -C \"" ++ tempIosDir ++ "\" .") = false := by
    rw [sw_tarGen "rm " (by decide) _ tempIosDir]
    decide
  simp only [packageIos]
  refine cleanupM_bind (cleanupM_fileExistsM _) fun b => ?_
  refine cleanupM_ite _ ?_ (cleanupM_pure _)
  refine cleanupM_bind (cleanupM_readDirM _) fun entries => ?_
  refine cleanupM_ite _ ?_ (cleanupM_pure _)
  refine cleanupM_bind (cleanupM_ensureDir _) fun _ => ?_
  refine cleanupM_bind (cleanupM_copyFrameworks _) fun _ => ?_
  refine cleanupM_bind (cleanupM_runCommand _ _ _ _ htar) fun _ => ?_
  refine cleanupM_bind cleanupM_rmTemp fun _ => ?_
  exact cleanupM_bind (cleanupM_info _) fun _ => cleanupM_pure _

theorem cleanupM_packageAndroid (v : String) : CleanupM (packageAndroid v) := by
  have htar : strStartsWith "rm "
      ("tar -czf \"" ++ pathJoin archiveDir
          ("react-native-android-jni-" ++ v ++ ".tar.gz") ++
        "\" -C \"" ++ androidLibsDir ++ "\" .") = false := by
    rw [sw_tarGen "rm " (by decide) _ androidLibsDir]
    decide
  simp only [packageAndroid]
  refine cleanupM_bind (cleanupM_fileExistsM _) fun b => ?_
  refine cleanupM_ite _ ?_ (cleanupM_pure _)
  refine cleanupM_bind (cleanupM_runCommand _ _ _ _ htar) fun _ => ?_
  exact cleanupM_bind (cleanupM_info _) fun _ => cleanupM_pure _

theorem cleanupM_packNodeFiles (v : String) (fs : List String) :
    CleanupM (packNodeFiles v fs) := by
  induction fs with
  | nil => exact cleanupM_pure _
  | cons f fs ih =>
    simp only [packNodeFiles]
    exact cleanupM_bind (cleanupM_emit rfl) fun _ =>
      cleanupM_bind (cleanupM_info _) fun _ =>
        cleanupM_bind ih fun rest => cleanupM_pure _

theorem cleanupM_packageTs (v : String) : CleanupM (packageTs v) := by
  simp only [packageTs]
  refine cleanupM_bind (cleanupM_fileExistsM _) fun b => ?_
  refine cleanupM_ite _ ?_ (cleanupM_pure _)
  exact cleanupM_bind (cleanupM_readDirM _) fun entries =>
    cleanupM_packNodeFiles _ _

theorem cleanupM_createReleaseArtifacts (v : String) :
    CleanupM (createReleaseArtifacts v) := by
  simp only [createReleaseArtifacts]
  refine cleanupM_bind (cleanupM_info _) fun _ => ?_
  refine cleanupM_bind (cleanupM_ensureDir _) fun _ => ?_
  refine cleanupM_bind (cleanupM_packageIos _) fun rn => ?_
  refine cleanupM_bind (cleanupM_packageAndroid _) fun an => ?_
  refine cleanupM_bind (cleanupM_packageTs _) fun ts => ?_
  exact cleanupM_bind (cleanupM_info _) fun _ => cleanupM_pure _

theorem cleanupM_commitChanges (v : String) : CleanupM (commitChanges v) := by
  simp only [commitChanges]
  refine cleanupM_bind (cleanupM_info _) fun _ => ?_
  refine cleanupM_bind (cleanupM_runCommand _ _ _ _ (by decide)) fun _ => ?_
  refine cleanupM_bind (cleanupM_runCommand _ _ _ _ ?_) fun _ => cleanupM_info _
  show strStartsWith "rm " (commitCmd v) = false
  rw [sw_commit "rm " (by decide) v]
  decide

theorem cleanupM_createTag (v : String) : CleanupM (createTag v) := by
  simp only [createTag]
  refine cleanupM_bind (cleanupM_info _) fun _ => ?_
  refine cleanupM_bind (cleanupM_runCommand _ _ _ _ ?_) fun _ => cleanupM_info _
  show strStartsWith "rm " (tagCmd v) = false
  rw [sw_tag "rm " (by decide) v]
  decide

theorem cleanupM_pushToGitHub (v : String) : CleanupM (pushToGitHub v) := by
  simp only [pushToGitHub]
  refine cleanupM_bind (cleanupM_info _) fun _ => ?_
  refine cleanupM_bind (cleanupM_runCommand _ _ _ _ (by decide)) fun _ => ?_
  refine cleanupM_bind (cleanupM_runCommand _ _ _ _ ?_) fun _ => cleanupM_info _
  show strStartsWith "rm " (pushTagCmd v) = false
  rw [sw_pushTag "rm " (by decide) v]
  decide

theorem cleanupM_createGitHubRelease (v : String)
    (arts : List String × List String) :
    CleanupM (createGitHubRelease v arts) := by
  simp only [createGitHubRelease]
  refine cleanupM_bind (cleanupM_info _) fun _ => ?_
  refine cleanupM_bind (cleanupM_emit rfl) fun _ => ?_
  refine cleanupM_bind (cleanupM_runCommand _ _ _ _ ?_) fun _ =>
    cleanupM_bind (cleanupM_emit (by decide)) fun _ => cleanupM_info _
  rw [sw_gh "rm " (by decide) v arts.1 arts.2]
  decide

theorem cleanupM_publishNpmPackages (v : String) :
    CleanupM (publishNpmPackages v) := by
  simp only [publishNpmPackages]
  refine cleanupM_bind (cleanupM_info _) fun _ => ?_
  refine cleanupM_bind
    (cleanupM_tryCatch
      (cleanupM_bind (cleanupM_runCommand _ _ _ _ (by decide)) fun _ =>
        cleanupM_pure _)
      fun _ => cleanupM_bind (cleanupM_errLog _) fun _ =>
        cleanupM_exitProc _) fun _ => ?_
  refine cleanupM_bind (cleanupM_info _) fun _ => ?_
  refine cleanupM_bind (cleanupM_runCommand _ _ _ _ (by decide)) fun _ => ?_
  refine cleanupM_bind (cleanupM_info _) fun _ => ?_
  refine cleanupM_bind (cleanupM_runCommand _ _ _ _ (by decide)) fun _ => ?_
  refine cleanupM_bind (cleanupM_info _) fun _ => ?_
  refine cleanupM_bind (cleanupM_info _) fun _ => ?_
  refine cleanupM_bind (cleanupM_emit rfl) fun _ => ?_
  refine cleanupM_bind
    (cleanupM_tryCatch ?_ fun _ => cleanupM_warnLog _) fun _ =>
      cleanupM_info _
  refine cleanupM_bind (cleanupM_runCommand _ _ _ _ (by decide)) fun rv => ?_
  refine cleanupM_bind (cleanupM_runCommand _ _ _ _ (by decide)) fun tv => ?_
  exact cleanupM_ite _ (cleanupM_info _)
    (cleanupM_bind (cleanupM_warnLog _) fun _ =>
      cleanupM_bind (cleanupM_warnLog _) fun _ => cleanupM_warnLog _)

theorem cleanupM_successLogs (v : String) : CleanupM (successLogs v) := by
  simp only [successLogs]
  refine cleanupM_bind (cleanupM_info _) fun _ => ?_
  refine cleanupM_bind (cleanupM_info _) fun _ => ?_
  refine cleanupM_bind (cleanupM_info _) fun _ => ?_
  refine cleanupM_bind (cleanupM_info _) fun _ => ?_
  refine cleanupM_bind (cleanupM_info _) fun _ => ?_
  refine cleanupM_bind (cleanupM_info _) fun _ => ?_
  exact cleanupM_bind (cleanupM_info _) fun _ => cleanupM_info _

theorem cleanupM_recoveryLogs (m : String) : CleanupM (recoveryLogs m) := by
  simp only [recoveryLogs]
  refine cleanupM_bind (cleanupM_errLog _) fun _ => ?_
  refine cleanupM_bind (cleanupM_errLog _) fun _ => ?_
  refine cleanupM_bind (cleanupM_errLog _) fun _ => ?_
  exact cleanupM_bind (cleanupM_errLog _) fun _ => cleanupM_errLog _

theorem cleanupM_stagesBeforeGit (v : String) :
    CleanupM (stagesBeforeGit v) := by
  simp only [stagesBeforeGit]
  refine cleanupM_bind cleanupM_checkGitStatus fun _ => ?_
  refine cleanupM_bind cleanupM_runTests fun _ => ?_
  refine cleanupM_bind (cleanupM_updateRustVersions _) fun _ => ?_
  refine cleanupM_bind (cleanupM_updatePackageVersions _) fun _ => ?_
  refine cleanupM_bind cleanupM_generateReactNativeBindings fun _ => ?_
  refine cleanupM_bind cleanupM_applyHotFix fun _ => ?_
  refine cleanupM_bind cleanupM_generateTypeScriptBindings fun _ => ?_
  refine cleanupM_bind cleanupM_prepareRustSource fun _ => ?_
  exact cleanupM_bind cleanupM_buildReactNativePackage fun _ =>
    cleanupM_createReleaseArtifacts _

theorem cleanupM_gitAndPublish (v : String) (arts : List String × List String) :
    CleanupM (gitAndPublish v arts) := by
  simp only [gitAndPublish]
  refine cleanupM_bind (cleanupM_commitChanges _) fun _ => ?_
  refine cleanupM_bind (cleanupM_createTag _) fun _ => ?_
  refine cleanupM_bind (cleanupM_pushToGitHub _) fun _ => ?_
  refine cleanupM_bind (cleanupM_createGitHubRelease _ _) fun _ => ?_
  exact cleanupM_bind (cleanupM_publishNpmPackages _) fun _ =>
    cleanupM_successLogs _

theorem cleanupM_releaseBody (v : String) : CleanupM (releaseBody v) := by
  simp only [releaseBody]
  exact cleanupM_bind (cleanupM_stagesBeforeGit _) fun arts =>
    cleanupM_gitAndPublish _ arts

theorem cleanupM_mainRelease (v : String) : CleanupM (mainRelease v) := by
  simp only [mainRelease]
  exact cleanupM_tryCatch (cleanupM_releaseBody v) fun m =>
    cleanupM_bind (cleanupM_recoveryLogs m) fun _ => cleanupM_exitProc _

/-- Appending a final error line keeps the cleanup-exclusivity of a
trace. -/
theorem cleanupOnly_with_err (t : List Event) (h : cleanupOnly t = true)
    (s : String) : cleanupOnly (t ++ [Event.err s]) = true := by
  rw [cleanupOnly_append, h]
  rfl

/-- The whole process, for EVERY argument list and EVERY oracle — hence
on every success path and every failure path — performs no removal
beyond the two sanctioned cleanups. -/
theorem script_cleanupOnly (args : List String) (env : Env) :
    cleanupOnly (script args env).1 = true := by
  have hm : CleanupM (do
      info ("🚀 Starting unified release for version " ++ args.headD "" ++ "...\n")
      mainRelease (args.headD "")) :=
    cleanupM_bind (cleanupM_info _) fun _ => cleanupM_mainRelease _
  simp only [script]
  split
  · rfl
  · split
    · rfl
    · split
      · exact hm env
      · exact hm env
      · exact cleanupOnly_with_err _ (hm env) _

/-- An event that removes the archive directory is a removal event and
is not one of the two sanctioned cleanups. -/
theorem cleanupEventOk_removesArchive (e : Event)
    (h : removesDir archiveDir e = true) : cleanupEventOk e = false := by
  cases e with
  | exec cwd cmd =>
    simp only [removesDir, decide_eq_true_eq] at h
    subst h
    have h1 : isRemovalEvent
        (.exec cwd ("rm -rf \"" ++ archiveDir ++ "\"")) = true := by
      simp only [isRemovalEvent]
      decide
    have h2 : (Event.exec cwd ("rm -rf \"" ++ archiveDir ++ "\"") ==
        Event.exec projectRoot rmTempIosCmd) = false := by
      rw [beq_eq_false_iff_ne]
      intro heq
      injection heq with hcwd hcmd
      exact absurd hcmd (by decide)
    simp [cleanupEventOk, h1, h2]
  | unlink p =>
    simp only [removesDir, decide_eq_true_eq] at h
    subst h
    decide
  | write p c => simp [removesDir] at h
  | copy p c => simp [removesDir] at h
  | mkdir p => simp [removesDir] at h
  | info s => simp [removesDir] at h
  | warn s => simp [removesDir] at h
  | err s => simp [removesDir] at h
  | sleep n => simp [removesDir] at h

/-- A trace whose removals are only the sanctioned cleanups contains no
removal of the archive directory. -/
theorem filter_removesArchive_nil (t : List Event)
    (h : cleanupOnly t = true) :
    t.filter (removesDir archiveDir) = [] := by
  induction t with
  | nil => rfl
  | cons e t ih =>
    simp only [cleanupOnly, List.all_cons, Bool.and_eq_true] at h
    have he : removesDir archiveDir e = false := by
      cases hre : removesDir archiveDir e with
      | false => rfl
      | true =>
        rw [cleanupEventOk_removesArchive e hre] at h
        exact absurd h.1 (by simp)
    rw [List.filter_cons_of_neg (by simp [he])]
    exact ih h.2

theorem createReleaseArtifacts_iosOnly (env : Env) (v : String)
    (harc : env.fileExists archiveDir = false)
    (htmp : env.fileExists tempIosDir = false)
    (hios : env.fileExists iosDir = true)
    (hread : env.readDir iosDir = ["DdkRn.xcframework"])
    (hand : env.fileExists androidLibsDir = false)
    (hdist : env.fileExists tsDistDir = false)
    (hok : ∀ cmd, env.cmdOk projectRoot cmd = true) :
    createReleaseArtifacts v env =
      ([.info "📦 Creating release artifacts...",
        .mkdir archiveDir,
        .mkdir tempIosDir,
        .exec projectRoot cpFrameworkCmd,
        .exec projectRoot (tarIosCmd v),
        .exec projectRoot rmTempIosCmd,
        .info ("   ✅ Created react-native-ios-xcframeworks-" ++ v ++ ".tar.gz"),
        .info ("\n📁 Artifacts created in: " ++ archiveDir ++ "\n")],
        .ok ([iosArchivePath v], [])) := by
  have hf : jsEndsWith "DdkRn.xcframework" ".xcframework" = true := by decide
  simp [createReleaseArtifacts, packageIos, packageAndroid, packageTs,
    copyFrameworks, ensureDir, M.bind_apply, M.pure_apply, fileExistsM,
    readDirM, runCommand, info, emit, hios, hread, harc, htmp, hand, hdist,
    hok, hf, iosArchivePath, cpFrameworkCmd, tarIosCmd, rmTempIosCmd]

/-- C8 counterexample: a fully successful run of the pipeline never
removes the scratch archive directory — the run exits 0, the directory is
created during the run, and no event of the trace removes it. -/
theorem c8_archive_dir_not_removed_counterexample :
    (script ["1.2.0"] happyEnv).2 = 0 ∧
    Event.mkdir archiveDir ∈ (script ["1.2.0"] happyEnv).1 ∧
    (script ["1.2.0"] happyEnv).1.filter (removesDir archiveDir) = [] := by
  refine ⟨by decide, by decide, by decide⟩

/-- C8 amended: the `release-archives` directory is never removed, on
success or failure; what IS cleaned up is the temporary iOS aggregation
directory `temp-ios` (removed right after the archive is built) and the
release-notes temp file (unlinked after the host release is created).
Part one states the positive cleanup for the packaging stage with an
iOS build output present; part two states that an entire successful run
exits 0 without removing the archive directory; part three states
cleanup exclusivity over EVERY argument list and EVERY oracle — so on
every failure path as well as on success, the only removals the process
ever performs are the `temp-ios` removal and the release-notes unlink;
part four derives that no run, successful or failing, ever removes the
archive directory. -/
theorem c8_scratch_dir_lifetime :
    (∀ (env : Env) (v : String),
      env.fileExists archiveDir = false →
      env.fileExists tempIosDir = false →
      env.fileExists iosDir = true →
      env.readDir iosDir = ["DdkRn.xcframework"] →
      env.fileExists androidLibsDir = false →
      env.fileExists tsDistDir = false →
      (∀ cmd, env.cmdOk projectRoot cmd = true) →
      (createReleaseArtifacts v env).1.filter (removesDir tempIosDir) =
        [.exec projectRoot rmTempIosCmd] ∧
      (createReleaseArtifacts v env).1.filter (removesDir archiveDir) = []) ∧
    (∀ (env : Env) (v orn ots : String), isValidVersion v = true →
      PreEnvOk env v orn ots →
      env.cmdOk ddkRnRoot "pnpm test" = true →
      PublishEnvOk env v →
      env.cmdOk projectRoot (ghReleaseCommand v [] []) = true →
      (script [v] env).2 = 0 ∧
      (script [v] env).1.filter (removesDir archiveDir) = []) ∧
    (∀ (args : List String) (env : Env),
      cleanupOnly (script args env).1 = true) ∧
    (∀ (args : List String) (env : Env),
      (script args env).1.filter (removesDir archiveDir) = []) := by
  refine ⟨?_, ?_, script_cleanupOnly,
    fun args env => filter_removesArchive_nil _ (script_cleanupOnly args env)⟩
  · intro env v harc htmp hios hread hand hdist hok
    rw [createReleaseArtifacts_iosOnly env v harc htmp hios hread hand hdist hok]
    have h1 : removesDir tempIosDir (.exec projectRoot cpFrameworkCmd) = false := by
      decide
    have h2 : removesDir tempIosDir (.exec projectRoot (tarIosCmd v)) = false := by
      refine removesDir_exec_of_not_rm _ _ _ ?_
      rw [tarIosCmd, sw_tar "rm -rf \"" (by decide) (iosArchivePath v)]
      decide
    have h3 : removesDir tempIosDir (.exec projectRoot rmTempIosCmd) = true := by
      decide
    have h4 : removesDir archiveDir (.exec projectRoot cpFrameworkCmd) = false := by
      decide
    have h5 : removesDir archiveDir (.exec projectRoot (tarIosCmd v)) = false := by
      refine removesDir_exec_of_not_rm _ _ _ ?_
      rw [tarIosCmd, sw_tar "rm -rf \"" (by decide) (iosArchivePath v)]
      decide
    have h6 : removesDir archiveDir (.exec projectRoot rmTempIosCmd) = false := by
      decide
    constructor <;> simp [h1, h2, h3, h4, h5, h6]
  · intro env v orn ots hv H hrn P hgh
    have hpre := stagesBeforeGit_ok env v orn ots H hrn
    have hfilters : ∀ (tail : List Event),
        (tail.filter (removesDir archiveDir) = []) →
        ((Event.info ("🚀 Starting unified release for version " ++ v ++ "...\n") ::
          (preTraceWith (runTestsTraceCommon ++ runTestsTraceTail) orn ots ++
            (gitReleaseHead v [] [] ++ publishTraceHead ++ tail ++
              successTrace v))).filter (removesDir archiveDir) = []) := by
      intro tail htail
      simp [preTraceWith, runTestsTraceCommon, runTestsTraceTail,
        gitReleaseHead, publishTraceHead, successTrace, htail,
        rmA_status, rmA_cargo, rmA_rnTest, rmA_tsTest, rmA_jsi, rmA_turbo,
        rmA_tsBuild, rmA_tsPrepub, rmA_prepRust, rmA_rnPrepare, rmA_gitAdd,
        rmA_pushMaster, rmA_whoami, rmA_pubRn, rmA_pubTs, rmA_viewRn,
        rmA_viewTs, rmA_unlinkNotes, rmArchive_commit, rmArchive_tag,
        rmArchive_pushTag, rmArchive_gh]
    by_cases hmatch : jsTrim (env.cmdOut projectRoot viewRnCmd) = v ∧
        jsTrim (env.cmdOut projectRoot viewTsCmd) = v
    · have hgp := gitAndPublish_verified env v ([], []) P hgh hmatch.1 hmatch.2
      have hrb := releaseBody_of_ok env v _ _ hpre
      rw [hgp] at hrb
      have hm := mainRelease_of_ok env v _ hrb
      have hs := script_of_mainRelease env v hv _ _ hm
      rw [hs]
      refine ⟨rfl, ?_⟩
      have := hfilters [.exec projectRoot viewRnCmd, .exec projectRoot viewTsCmd,
        .info ("   ✅ Both packages published successfully at version " ++ v),
        .info ""] (by simp [rmA_viewRn, rmA_viewTs])
      simpa using this
    · have hgp := gitAndPublish_mismatch env v
        (jsTrim (env.cmdOut projectRoot viewRnCmd))
        (jsTrim (env.cmdOut projectRoot viewTsCmd))
        ([], []) P hgh rfl rfl hmatch
      have hrb := releaseBody_of_ok env v _ _ hpre
      rw [hgp] at hrb
      have hm := mainRelease_of_ok env v _ hrb
      have hs := script_of_mainRelease env v hv _ _ hm
      rw [hs]
      refine ⟨rfl, ?_⟩
      have := hfilters [.exec projectRoot viewRnCmd, .exec projectRoot viewTsCmd,
        .warn "   ⚠️  Version mismatch detected:",
        .warn ("      ddk-rn: " ++ jsTrim (env.cmdOut projectRoot viewRnCmd)),
        .warn ("      ddk-ts: " ++ jsTrim (env.cmdOut projectRoot viewTsCmd)),
        .info ""] (by simp [rmA_viewRn, rmA_viewTs])
      simpa using this

/-- An environment with one iOS XCFramework build output on disk. -/
def iosPresentEnv : Env :=
  { happyEnv with
    fileExists := fun p => p == iosDir
    readDir := fun p => if p == iosDir then ["DdkRn.xcframework"] else [] }

/-- The pre-git-stage oracle facts hold in the all-success
environment. -/
theorem preOk_happy :
    PreEnvOk happyEnv "1.2.0" samplePackageJsonOut samplePackageJsonOut := by
  constructor <;> rfl

/-- The publish-step oracle facts hold in the all-success
environment. -/
theorem pubOk_happy : PublishEnvOk happyEnv "1.2.0" := by
  constructor <;> rfl

/-- Witness for C8 at concrete environments, including a failing run
(the cargo gate fails) for the universal cleanup-exclusivity parts. -/
theorem c8_scratch_dir_lifetime_witness :
    ((createReleaseArtifacts "1.2.0" iosPresentEnv).1.filter
        (removesDir tempIosDir) = [.exec projectRoot rmTempIosCmd] ∧
      (createReleaseArtifacts "1.2.0" iosPresentEnv).1.filter
        (removesDir archiveDir) = []) ∧
    ((script ["1.2.0"] happyEnv).2 = 0 ∧
      (script ["1.2.0"] happyEnv).1.filter (removesDir archiveDir) = []) ∧
    cleanupOnly (script ["1.2.0"] cargoFailEnv).1 = true ∧
    (script ["1.2.0"] cargoFailEnv).1.filter (removesDir archiveDir) = [] :=
  ⟨c8_scratch_dir_lifetime.1 iosPresentEnv "1.2.0" rfl rfl rfl rfl rfl rfl
      (fun _ => rfl),
   c8_scratch_dir_lifetime.2.1 happyEnv "1.2.0" samplePackageJsonOut
      samplePackageJsonOut rfl preOk_happy rfl pubOk_happy rfl,
   c8_scratch_dir_lifetime.2.2.1 ["1.2.0"] cargoFailEnv,
   c8_scratch_dir_lifetime.2.2.2 ["1.2.0"] cargoFailEnv⟩

/-! ### Claim C7: artifact packaging -/

/-- The deterministic Android archive path. -/
def androidArchivePath (v : String) : String :=
  pathJoin archiveDir ("react-native-android-jni-" ++ v ++ ".tar.gz")

theorem copyFrameworks_ok (env : Env)
    (hok : ∀ cmd, env.cmdOk projectRoot cmd = true) :
    ∀ l : List String, ∃ t, copyFrameworks l env = (t, .ok ()) := by
  intro l
  induction l with
  | nil => exact ⟨[], rfl⟩
  | cons fw fws ih =>
    obtain ⟨t, ht⟩ := ih
    refine ⟨[.exec projectRoot
      ("cp -R \"" ++ pathJoin iosDir fw ++ "\" \"" ++ tempIosDir ++ "\"")] ++ t, ?_⟩
    simp [copyFrameworks, M.bind_apply, runCommand, hok, ht]

theorem packageIos_present (env : Env) (v : String)
    (hios : env.fileExists iosDir = true)
    (hne : (env.readDir iosDir).filter (fun f => jsEndsWith f ".xcframework") ≠ [])
    (hok : ∀ cmd, env.cmdOk projectRoot cmd = true) :
    (packageIos v env).2 = .ok [iosArchivePath v] := by
  obtain ⟨t, ht⟩ := copyFrameworks_ok env hok
    ((env.readDir iosDir).filter (fun f => jsEndsWith f ".xcframework"))
  have hlen : 0 <
      ((env.readDir iosDir).filter (fun f => jsEndsWith f ".xcframework")).length :=
    List.length_pos.mpr hne
  cases htmp : env.fileExists tempIosDir <;>
    simp [packageIos, ensureDir, M.bind_apply, M.pure_apply, fileExistsM,
      readDirM, runCommand, info, emit, hios, htmp, hok, ht, hlen,
      iosArchivePath]

/-- The Android archive command. -/
def tarAndroidCmd (v : String) : String :=
  "tar -czf \"" ++ androidArchivePath v ++ "\" -C \"" ++ androidLibsDir ++ "\" ."

theorem packageAndroid_present (env : Env) (v : String)
    (hand : env.fileExists androidLibsDir = true)
    (hok : ∀ cmd, env.cmdOk projectRoot cmd = true) :
    packageAndroid v env =
      ([.exec projectRoot (tarAndroidCmd v),
        .info ("   ✅ Created react-native-android-jni-" ++ v ++ ".tar.gz")],
        .ok [androidArchivePath v]) := by
  simp [packageAndroid, M.bind_apply, M.pure_apply, fileExistsM, runCommand,
    info, emit, hand, hok, androidArchivePath, tarAndroidCmd]

/-- The events emitted per packed `.node` file. -/
def packTrace (v : String) : List String → List Event
  | [] => []
  | f :: rest =>
    .copy (pathJoin tsDistDir f) (pathJoin archiveDir (tsArtifactName v f)) ::
    .info ("   ✅ Created " ++ tsArtifactName v f) :: packTrace v rest

theorem packNodeFiles_eq (env : Env) (v : String) :
    ∀ l : List String, packNodeFiles v l env =
      (packTrace v l,
        .ok (l.map fun f => pathJoin archiveDir (tsArtifactName v f))) := by
  intro l
  induction l with
  | nil => rfl
  | cons f rest ih =>
    simp [packNodeFiles, packTrace, M.bind_apply, M.pure_apply, info, emit, ih]

theorem packageTs_present (env : Env) (v : String)
    (hdist : env.fileExists tsDistDir = true) :
    packageTs v env =
      (packTrace v ((env.readDir tsDistDir).filter (fun f => jsEndsWith f ".node")),
        .ok (((env.readDir tsDistDir).filter (fun f => jsEndsWith f ".node")).map
          fun f => pathJoin archiveDir (tsArtifactName v f))) := by
  simp [packageTs, M.bind_apply, M.pure_apply, fileExistsM, readDirM, hdist,
    packNodeFiles_eq]

/-- An environment whose iOS build output directory exists but holds no
`.xcframework` entry. -/
def emptyIosEnv : Env :=
  { happyEnv with fileExists := fun p => p == iosDir }

/-- C7 counterexample: a platform whose build output directory EXISTS can
still yield no artifact — an existing `ios` directory without any
`.xcframework` entry produces an empty artifact list (no archive command
is ever spawned), contradicting "for each platform whose build output
directory exists ... exactly one output file". -/
theorem c7_existing_but_empty_dir_counterexample :
    emptyIosEnv.fileExists iosDir = true ∧
    createReleaseArtifacts "1.2.0" emptyIosEnv =
      ([.info "📦 Creating release artifacts...",
        .mkdir archiveDir,
        .info ("\n📁 Artifacts created in: " ++ archiveDir ++ "\n")],
        .ok ([], [])) := by
  constructor
  · decide
  · decide

/-- C7 amended: (iOS) when the `ios` directory exists and contains at
least one `.xcframework`, exactly one archive named
`react-native-ios-xcframeworks-{version}.tar.gz` is produced; (Android)
when the jniLibs directory exists, exactly one archive named
`react-native-android-jni-{version}.tar.gz` is produced; (TypeScript)
when the `dist` directory exists, one renamed copy
`typescript-{platform}-{version}.node` is produced per `.node` file
found; a directory that is absent — or, for iOS, exists but has no
matching build output — contributes no artifact and raises no error; and
with every optional directory absent the pipeline still reaches the
publishing stage and completes. -/
theorem c7_artifact_packaging :
    (∀ (env : Env) (v : String),
      env.fileExists iosDir = true →
      (env.readDir iosDir).filter (fun f => jsEndsWith f ".xcframework") ≠ [] →
      (∀ cmd, env.cmdOk projectRoot cmd = true) →
      (packageIos v env).2 = .ok [iosArchivePath v]) ∧
    (∀ (env : Env) (v : String),
      env.fileExists androidLibsDir = true →
      (∀ cmd, env.cmdOk projectRoot cmd = true) →
      (packageAndroid v env).2 = .ok [androidArchivePath v]) ∧
    (∀ (env : Env) (v : String),
      env.fileExists tsDistDir = true →
      (packageTs v env).2 =
        .ok (((env.readDir tsDistDir).filter (fun f => jsEndsWith f ".node")).map
          fun f => pathJoin archiveDir (tsArtifactName v f))) ∧
    (∀ (env : Env) (v : String),
      env.fileExists archiveDir = false →
      env.fileExists iosDir = false →
      env.fileExists androidLibsDir = false →
      env.fileExists tsDistDir = false →
      createReleaseArtifacts v env =
        ([.info "📦 Creating release artifacts...",
          .mkdir archiveDir,
          .info ("\n📁 Artifacts created in: " ++ archiveDir ++ "\n")],
          .ok ([], []))) ∧
    (∀ (env : Env) (v orn ots : String), isValidVersion v = true →
      PreEnvOk env v orn ots →
      env.cmdOk ddkRnRoot "pnpm test" = true →
      PublishEnvOk env v →
      env.cmdOk projectRoot (ghReleaseCommand v [] []) = true →
      (script [v] env).2 = 0 ∧
      Event.exec ddkRnRoot "npm publish --access public" ∈ (script [v] env).1) := by
  refine ⟨?_, ?_, ?_, ?_, ?_⟩
  · intro env v hios hne hok
    exact packageIos_present env v hios hne hok
  · intro env v hand hok
    rw [packageAndroid_present env v hand hok]
  · intro env v hdist
    rw [packageTs_present env v hdist]
  · intro env v harc hios hand hdist
    exact createReleaseArtifacts_none env v harc hios hand hdist
  · intro env v orn ots hv H hrn P hgh
    have hpre := stagesBeforeGit_ok env v orn ots H hrn
    by_cases hmatch : jsTrim (env.cmdOut projectRoot viewRnCmd) = v ∧
        jsTrim (env.cmdOut projectRoot viewTsCmd) = v
    · have hgp := gitAndPublish_verified env v ([], []) P hgh hmatch.1 hmatch.2
      have hrb := releaseBody_of_ok env v _ _ hpre
      rw [hgp] at hrb
      have hm := mainRelease_of_ok env v _ hrb
      have hs := script_of_mainRelease env v hv _ _ hm
      rw [hs]
      refine ⟨rfl, ?_⟩
      simp [publishTraceHead]
    · have hgp := gitAndPublish_mismatch env v
        (jsTrim (env.cmdOut projectRoot viewRnCmd))
        (jsTrim (env.cmdOut projectRoot viewTsCmd))
        ([], []) P hgh rfl rfl hmatch
      have hrb := releaseBody_of_ok env v _ _ hpre
      rw [hgp] at hrb
      have hm := mainRelease_of_ok env v _ hrb
      have hs := script_of_mainRelease env v hv _ _ hm
      rw [hs]
      refine ⟨rfl, ?_⟩
      simp [publishTraceHead]

/-- An environment with two `.node` build outputs in `ddk-ts/dist`. -/
def tsDistEnv : Env :=
  { happyEnv with
    fileExists := fun p => p == tsDistDir
    readDir := fun p =>
      if p == tsDistDir then ["ddk.darwin-arm64.node", "ddk.linux-x64.node"]
      else [] }

/-- An environment with the Android jniLibs directory present. -/
def androidPresentEnv : Env :=
  { happyEnv with fileExists := fun p => p == androidLibsDir }

/-- Witness for C7 at concrete environments. -/
theorem c7_artifact_packaging_witness :
    (packageIos "1.2.0" iosPresentEnv).2 = .ok [iosArchivePath "1.2.0"] ∧
    (packageAndroid "1.2.0" androidPresentEnv).2 =
      .ok [androidArchivePath "1.2.0"] ∧
    (packageTs "1.2.0" tsDistEnv).2 =
      .ok [pathJoin archiveDir (tsArtifactName "1.2.0" "ddk.darwin-arm64.node"),
           pathJoin archiveDir (tsArtifactName "1.2.0" "ddk.linux-x64.node")] ∧
    (script ["1.2.0"] happyEnv).2 = 0 ∧
    Event.exec ddkRnRoot "npm publish --access public"
      ∈ (script ["1.2.0"] happyEnv).1 :=
  ⟨c7_artifact_packaging.1 iosPresentEnv "1.2.0" rfl (by decide)
      (fun _ => rfl),
   c7_artifact_packaging.2.1 androidPresentEnv "1.2.0" rfl (fun _ => rfl),
   by
     have h := c7_artifact_packaging.2.2.1 tsDistEnv "1.2.0" rfl
     rw [h]
     decide,
   (c7_artifact_packaging.2.2.2.2 happyEnv "1.2.0" samplePackageJsonOut
      samplePackageJsonOut rfl preOk_happy rfl pubOk_happy rfl).1,
   (c7_artifact_packaging.2.2.2.2 happyEnv "1.2.0" samplePackageJsonOut
      samplePackageJsonOut rfl preOk_happy rfl pubOk_happy rfl).2⟩

/-! ### Claim C5: the publishing order -/

theorem publishNpm_pubRnFail (env : Env) (v : String)
    (hwho : env.cmdOk projectRoot "npm whoami" = true)
    (hprn : env.cmdOk ddkRnRoot "npm publish --access public" = false) :
    publishNpmPackages v env =
      ([.info "📦 Publishing npm packages...\n",
        .exec projectRoot "npm whoami",
        .info "   Publishing @bennyblader/ddk-rn...",
        .info "📋 Publishing ddk-rn",
        .info "   $ npm publish --access public",
        .exec ddkRnRoot "npm publish --access public",
        .err "❌ Command failed: npm publish --access public"],
        .thrown "Command failed: npm publish --access public") := by
  simp [publishNpmPackages, M.bind_apply, M.pure_apply, tryCatch_apply,
    runCommand, info, warnLog, errLog, emit, exitProc, hwho, hprn]

/-- The trace of a failed commit step. -/
def commitFailTrace (v : String) : List Event :=
  [.info "📝 Committing changes...",
   .exec projectRoot "git add .",
   .info "📋 Creating commit",
   .info ("   $ " ++ commitCmd v),
   .exec projectRoot (commitCmd v),
   .err ("❌ Command failed: " ++ commitCmd v)]

theorem gitAndPublish_commitFail (env : Env) (v : String)
    (arts : List String × List String)
    (hadd : env.cmdOk projectRoot "git add ." = true)
    (hcommit : env.cmdOk projectRoot (commitCmd v) = false) :
    gitAndPublish v arts env =
      (commitFailTrace v, .thrown ("Command failed: " ++ commitCmd v)) := by
  simp [gitAndPublish, M.bind_apply, commitChanges_fail env v hadd hcommit,
    commitFailTrace]

/-- The events of a successful commit step. -/
def commitOkTrace (v : String) : List Event :=
  [.info "📝 Committing changes...",
   .exec projectRoot "git add .",
   .info "📋 Creating commit",
   .info ("   $ " ++ commitCmd v),
   .exec projectRoot (commitCmd v),
   .info ""]

/-- The trace of a failed tag step. -/
def tagFailTrace (v : String) : List Event :=
  [.info "🏷️  Creating git tag...",
   .info ("📋 " ++ ("Creating tag v" ++ v)),
   .info ("   $ " ++ tagCmd v),
   .exec projectRoot (tagCmd v),
   .err ("❌ Command failed: " ++ tagCmd v)]

theorem gitAndPublish_tagFail (env : Env) (v : String)
    (arts : List String × List String)
    (hadd : env.cmdOk projectRoot "git add ." = true)
    (hcommit : env.cmdOk projectRoot (commitCmd v) = true)
    (htag : env.cmdOk projectRoot (tagCmd v) = false) :
    gitAndPublish v arts env =
      (commitOkTrace v ++ tagFailTrace v,
        .thrown ("Command failed: " ++ tagCmd v)) := by
  simp [gitAndPublish, M.bind_apply, commitChanges_ok env v hadd hcommit,
    createTag_fail env v htag, commitOkTrace, tagFailTrace]

/-- The events of a successful tag step. -/
def tagOkTrace (v : String) : List Event :=
  [.info "🏷️  Creating git tag...",
   .info ("📋 " ++ ("Creating tag v" ++ v)),
   .info ("   $ " ++ tagCmd v),
   .exec projectRoot (tagCmd v),
   .info ""]

/-- The trace of a failed branch push. -/
def pushBrFailTrace : List Event :=
  [.info "📤 Pushing to GitHub...",
   .info "📋 Pushing commits",
   .info "   $ git push origin master",
   .exec projectRoot "git push origin master",
   .err "❌ Command failed: git push origin master"]

theorem gitAndPublish_pushBrFail (env : Env) (v : String)
    (arts : List String × List String)
    (hadd : env.cmdOk projectRoot "git add ." = true)
    (hcommit : env.cmdOk projectRoot (commitCmd v) = true)
    (htag : env.cmdOk projectRoot (tagCmd v) = true)
    (hbr : env.cmdOk projectRoot "git push origin master" = false) :
    gitAndPublish v arts env =
      (commitOkTrace v ++ tagOkTrace v ++ pushBrFailTrace,
        .thrown "Command failed: git push origin master") := by
  simp [gitAndPublish, M.bind_apply, commitChanges_ok env v hadd hcommit,
    createTag_ok env v htag, pushToGitHub_failBranch env v hbr,
    commitOkTrace, tagOkTrace, pushBrFailTrace]

/-- The trace of a failed tag push. -/
def pushTagFailTrace (v : String) : List Event :=
  [.info "📤 Pushing to GitHub...",
   .info "📋 Pushing commits",
   .info "   $ git push origin master",
   .exec projectRoot "git push origin master",
   .info "📋 Pushing tag",
   .info ("   $ " ++ pushTagCmd v),
   .exec projectRoot (pushTagCmd v),
   .err ("❌ Command failed: " ++ pushTagCmd v)]

theorem gitAndPublish_pushTagFail (env : Env) (v : String)
    (arts : List String × List String)
    (hadd : env.cmdOk projectRoot "git add ." = true)
    (hcommit : env.cmdOk projectRoot (commitCmd v) = true)
    (htag : env.cmdOk projectRoot (tagCmd v) = true)
    (hbr : env.cmdOk projectRoot "git push origin master" = true)
    (htg : env.cmdOk projectRoot (pushTagCmd v) = false) :
    gitAndPublish v arts env =
      (commitOkTrace v ++ tagOkTrace v ++ pushTagFailTrace v,
        .thrown ("Command failed: " ++ pushTagCmd v)) := by
  simp [gitAndPublish, M.bind_apply, commitChanges_ok env v hadd hcommit,
    createTag_ok env v htag, pushToGitHub_failTag env v hbr htg,
    commitOkTrace, tagOkTrace, pushTagFailTrace]

/-- The events of a successful push step. -/
def pushOkTrace (v : String) : List Event :=
  [.info "📤 Pushing to GitHub...",
   .info "📋 Pushing commits",
   .info "   $ git push origin master",
   .exec projectRoot "git push origin master",
   .info "📋 Pushing tag",
   .info ("   $ " ++ pushTagCmd v),
   .exec projectRoot (pushTagCmd v),
   .info ""]

/-- The trace of a failed host-release creation. -/
def ghFailTrace (v : String) (rn ts : List String) : List Event :=
  [.info "🚀 Creating GitHub release...",
   .write releaseNotesFile (releaseNotes v),
   .info "📋 Creating GitHub release with artifacts",
   .info ("   $ " ++ ghReleaseCommand v rn ts),
   .exec projectRoot (ghReleaseCommand v rn ts),
   .err ("❌ Command failed: " ++ ghReleaseCommand v rn ts)]

theorem gitAndPublish_ghFail (env : Env) (v : String)
    (arts : List String × List String)
    (hadd : env.cmdOk projectRoot "git add ." = true)
    (hcommit : env.cmdOk projectRoot (commitCmd v) = true)
    (htag : env.cmdOk projectRoot (tagCmd v) = true)
    (hbr : env.cmdOk projectRoot "git push origin master" = true)
    (htg : env.cmdOk projectRoot (pushTagCmd v) = true)
    (hgh : env.cmdOk projectRoot (ghReleaseCommand v arts.1 arts.2) = false) :
    gitAndPublish v arts env =
      (commitOkTrace v ++ tagOkTrace v ++ pushOkTrace v ++
        ghFailTrace v arts.1 arts.2,
        .thrown ("Command failed: " ++ ghReleaseCommand v arts.1 arts.2)) := by
  simp [gitAndPublish, M.bind_apply, commitChanges_ok env v hadd hcommit,
    createTag_ok env v htag, pushToGitHub_ok env v hbr htg,
    createGitHubRelease_fail env v arts hgh,
    commitOkTrace, tagOkTrace, pushOkTrace, ghFailTrace]

/-- The events of a successful host-release creation. -/
def ghOkTrace (v : String) (rn ts : List String) : List Event :=
  [.info "🚀 Creating GitHub release...",
   .write releaseNotesFile (releaseNotes v),
   .info "📋 Creating GitHub release with artifacts",
   .info ("   $ " ++ ghReleaseCommand v rn ts),
   .exec projectRoot (ghReleaseCommand v rn ts),
   .unlink releaseNotesFile,
   .info ""]

/-- The trace of a failed ddk-rn npm publish. -/
def pubRnFailTrace : List Event :=
  [.info "📦 Publishing npm packages...\n",
   .exec projectRoot "npm whoami",
   .info "   Publishing @bennyblader/ddk-rn...",
   .info "📋 Publishing ddk-rn",
   .info "   $ npm publish --access public",
   .exec ddkRnRoot "npm publish --access public",
   .err "❌ Command failed: npm publish --access public"]

theorem gitAndPublish_pubRnFail (env : Env) (v : String)
    (arts : List String × List String)
    (hadd : env.cmdOk projectRoot "git add ." = true)
    (hcommit : env.cmdOk projectRoot (commitCmd v) = true)
    (htag : env.cmdOk projectRoot (tagCmd v) = true)
    (hbr : env.cmdOk projectRoot "git push origin master" = true)
    (htg : env.cmdOk projectRoot (pushTagCmd v) = true)
    (hgh : env.cmdOk projectRoot (ghReleaseCommand v arts.1 arts.2) = true)
    (hwho : env.cmdOk projectRoot "npm whoami" = true)
    (hprn : env.cmdOk ddkRnRoot "npm publish --access public" = false) :
    gitAndPublish v arts env =
      (commitOkTrace v ++ tagOkTrace v ++ pushOkTrace v ++
        ghOkTrace v arts.1 arts.2 ++ pubRnFailTrace,
        .thrown "Command failed: npm publish --access public") := by
  simp [gitAndPublish, M.bind_apply, commitChanges_ok env v hadd hcommit,
    createTag_ok env v htag, pushToGitHub_ok env v hbr htg,
    createGitHubRelease_ok env v arts hgh,
    publishNpm_pubRnFail env v hwho hprn,
    commitOkTrace, tagOkTrace, pushOkTrace, ghOkTrace, pubRnFailTrace]

/-! #### Release-command classification of every other spawned command -/

theorem irxF_status : isReleaseExec
    (.exec projectRoot "git status --porcelain") = false := by decide
theorem irxF_cargo : isReleaseExec
    (.exec ddkFfiRoot "cargo test") = false := by decide
theorem irxF_rnTest : isReleaseExec
    (.exec ddkRnRoot "pnpm test") = false := by decide
theorem irxF_tsTest : isReleaseExec
    (.exec ddkTsRoot "pnpm test") = false := by decide
theorem irxF_jsi : isReleaseExec
    (.exec projectRoot "just uniffi-jsi") = false := by decide
theorem irxF_turbo : isReleaseExec
    (.exec projectRoot "just uniffi-turbo") = false := by decide
theorem irxF_tsBuild : isReleaseExec
    (.exec ddkTsRoot "pnpm build") = false := by decide
theorem irxF_tsPrepub : isReleaseExec
    (.exec ddkTsRoot "pnpm prepublish") = false := by decide
theorem irxF_prepRust : isReleaseExec
    (.exec ddkRnRoot "node scripts/prepare-rust-src.js") = false := by decide
theorem irxF_rnPrepare : isReleaseExec
    (.exec ddkRnRoot "pnpm prepare") = false := by decide
theorem irxF_gitAdd : isReleaseExec
    (.exec projectRoot "git add .") = false := by decide
theorem irxF_whoami : isReleaseExec
    (.exec projectRoot "npm whoami") = false := by decide
theorem irxF_viewRn : isReleaseExec
    (.exec projectRoot viewRnCmd) = false := by decide
theorem irxF_viewTs : isReleaseExec
    (.exec projectRoot viewTsCmd) = false := by decide
theorem irxT_pushMaster : isReleaseExec
    (.exec projectRoot "git push origin master") = true := by decide
theorem irxT_pubRn : isReleaseExec
    (.exec ddkRnRoot "npm publish --access public") = true := by decide
theorem irxT_pubTs : isReleaseExec
    (.exec ddkTsRoot "npm publish --access public") = true := by decide

attribute [simp] irx_commit irx_tag irx_pushTag irx_gh irx_tar irxF_status
  irxF_cargo irxF_rnTest irxF_tsTest irxF_jsi irxF_turbo irxF_tsBuild
  irxF_tsPrepub irxF_prepRust irxF_rnPrepare irxF_gitAdd irxF_whoami
  irxF_viewRn irxF_viewTs irxT_pushMaster irxT_pubRn irxT_pubTs

/-- The pre-git stages spawn no release command. -/
theorem filter_release_preTrace (testsTrace : List Event) (orn ots : String)
    (h : testsTrace.filter isReleaseExec = []) :
    (preTraceWith testsTrace orn ots).filter isReleaseExec = [] := by
  simp [preTraceWith, h]

theorem filter_release_tests :
    (runTestsTraceCommon ++ runTestsTraceTail).filter isReleaseExec = [] := by
  simp [runTestsTraceCommon, runTestsTraceTail]

theorem filter_release_recovery (m : String) :
    (recoveryTrace m).filter isReleaseExec = [] := by
  simp [recoveryTrace]

/-- The exact ordered sequence of externally visible publishing commands
of one successful release: one commit embedding the version, one
annotated tag `v{version}`, the branch push, the tag push, one host
release creation with the artifacts attached, then the two npm
publishes. -/
def releaseOrder (v : String) : List Event :=
  [.exec projectRoot (commitCmd v),
   .exec projectRoot (tagCmd v),
   .exec projectRoot "git push origin master",
   .exec projectRoot (pushTagCmd v),
   .exec projectRoot (ghReleaseCommand v [] []),
   .exec ddkRnRoot "npm publish --access public",
   .exec ddkTsRoot "npm publish --access public"]

/-- C5: on a successful run the publishing commands appear in the trace
in exactly the claimed order — commit, annotated tag, branch push, tag
push (two distinct git operations), host release with artifacts, then
the npm publishes — and when any of these steps fails, no later command
of the sequence is ever spawned and the process exits 1. -/
theorem c5_publish_order :
    (∀ (env : Env) (v orn ots : String), isValidVersion v = true →
      PreEnvOk env v orn ots →
      env.cmdOk ddkRnRoot "pnpm test" = true →
      PublishEnvOk env v →
      env.cmdOk projectRoot (ghReleaseCommand v [] []) = true →
      (script [v] env).1.filter isReleaseExec = releaseOrder v ∧
      (script [v] env).2 = 0) ∧
    (∀ (env : Env) (v orn ots : String), isValidVersion v = true →
      PreEnvOk env v orn ots →
      env.cmdOk ddkRnRoot "pnpm test" = true →
      env.cmdOk projectRoot "git add ." = true →
      env.cmdOk projectRoot (commitCmd v) = false →
      (script [v] env).1.filter isReleaseExec =
        [.exec projectRoot (commitCmd v)] ∧
      (script [v] env).2 = 1) ∧
    (∀ (env : Env) (v orn ots : String), isValidVersion v = true →
      PreEnvOk env v orn ots →
      env.cmdOk ddkRnRoot "pnpm test" = true →
      env.cmdOk projectRoot "git add ." = true →
      env.cmdOk projectRoot (commitCmd v) = true →
      env.cmdOk projectRoot (tagCmd v) = false →
      (script [v] env).1.filter isReleaseExec =
        [.exec projectRoot (commitCmd v), .exec projectRoot (tagCmd v)] ∧
      (script [v] env).2 = 1) ∧
    (∀ (env : Env) (v orn ots : String), isValidVersion v = true →
      PreEnvOk env v orn ots →
      env.cmdOk ddkRnRoot "pnpm test" = true →
      env.cmdOk projectRoot "git add ." = true →
      env.cmdOk projectRoot (commitCmd v) = true →
      env.cmdOk projectRoot (tagCmd v) = true →
      env.cmdOk projectRoot "git push origin master" = false →
      (script [v] env).1.filter isReleaseExec =
        [.exec projectRoot (commitCmd v), .exec projectRoot (tagCmd v),
         .exec projectRoot "git push origin master"] ∧
      (script [v] env).2 = 1) ∧
    (∀ (env : Env) (v orn ots : String), isValidVersion v = true →
      PreEnvOk env v orn ots →
      env.cmdOk ddkRnRoot "pnpm test" = true →
      env.cmdOk projectRoot "git add ." = true →
      env.cmdOk projectRoot (commitCmd v) = true →
      env.cmdOk projectRoot (tagCmd v) = true →
      env.cmdOk projectRoot "git push origin master" = true →
      env.cmdOk projectRoot (pushTagCmd v) = false →
      (script [v] env).1.filter isReleaseExec =
        [.exec projectRoot (commitCmd v), .exec projectRoot (tagCmd v),
         .exec projectRoot "git push origin master",
         .exec projectRoot (pushTagCmd v)] ∧
      (script [v] env).2 = 1) ∧
    (∀ (env : Env) (v orn ots : String), isValidVersion v = true →
      PreEnvOk env v orn ots →
      env.cmdOk ddkRnRoot "pnpm test" = true →
      env.cmdOk projectRoot "git add ." = true →
      env.cmdOk projectRoot (commitCmd v) = true →
      env.cmdOk projectRoot (tagCmd v) = true →
      env.cmdOk projectRoot "git push origin master" = true →
      env.cmdOk projectRoot (pushTagCmd v) = true →
      env.cmdOk projectRoot (ghReleaseCommand v [] []) = false →
      (script [v] env).1.filter isReleaseExec =
        [.exec projectRoot (commitCmd v), .exec projectRoot (tagCmd v),
         .exec projectRoot "git push origin master",
         .exec projectRoot (pushTagCmd v),
         .exec projectRoot (ghReleaseCommand v [] [])] ∧
      (script [v] env).2 = 1) ∧
    (∀ (env : Env) (v orn ots : String), isValidVersion v = true →
      PreEnvOk env v orn ots →
      env.cmdOk ddkRnRoot "pnpm test" = true →
      env.cmdOk projectRoot "git add ." = true →
      env.cmdOk projectRoot (commitCmd v) = true →
      env.cmdOk projectRoot (tagCmd v) = true →
      env.cmdOk projectRoot "git push origin master" = true →
      env.cmdOk projectRoot (pushTagCmd v) = true →
      env.cmdOk projectRoot (ghReleaseCommand v [] []) = true →
      env.cmdOk projectRoot "npm whoami" = true →
      env.cmdOk ddkRnRoot "npm publish --access public" = false →
      (script [v] env).1.filter isReleaseExec =
        [.exec projectRoot (commitCmd v), .exec projectRoot (tagCmd v),
         .exec projectRoot "git push origin master",
         .exec projectRoot (pushTagCmd v),
         .exec projectRoot (ghReleaseCommand v [] []),
         .exec ddkRnRoot "npm publish --access public"] ∧
      (script [v] env).2 = 1) := by
  refine ⟨?_, ?_, ?_, ?_, ?_, ?_, ?_⟩
  · intro env v orn ots hv H hrn P hgh
    have hpre := stagesBeforeGit_ok env v orn ots H hrn
    by_cases hmatch : jsTrim (env.cmdOut projectRoot viewRnCmd) = v ∧
        jsTrim (env.cmdOut projectRoot viewTsCmd) = v
    · have hgp := gitAndPublish_verified env v ([], []) P hgh hmatch.1 hmatch.2
      have hrb := releaseBody_of_ok env v _ _ hpre
      rw [hgp] at hrb
      have hm := mainRelease_of_ok env v _ hrb
      have hs := script_of_mainRelease env v hv _ _ hm
      rw [hs]
      refine ⟨?_, rfl⟩
      simp [preTraceWith, runTestsTraceCommon, runTestsTraceTail,
        gitReleaseHead, publishTraceHead, successTrace, releaseOrder]
    · have hgp := gitAndPublish_mismatch env v
        (jsTrim (env.cmdOut projectRoot viewRnCmd))
        (jsTrim (env.cmdOut projectRoot viewTsCmd))
        ([], []) P hgh rfl rfl hmatch
      have hrb := releaseBody_of_ok env v _ _ hpre
      rw [hgp] at hrb
      have hm := mainRelease_of_ok env v _ hrb
      have hs := script_of_mainRelease env v hv _ _ hm
      rw [hs]
      refine ⟨?_, rfl⟩
      simp [preTraceWith, runTestsTraceCommon, runTestsTraceTail,
        gitReleaseHead, publishTraceHead, successTrace, releaseOrder]
  · intro env v orn ots hv H hrn hadd hcommit
    have hpre := stagesBeforeGit_ok env v orn ots H hrn
    have hgp := gitAndPublish_commitFail env v ([], []) hadd hcommit
    have hrb := releaseBody_of_ok env v _ _ hpre
    rw [hgp] at hrb
    have hm := mainRelease_of_thrown env v _ _ hrb
    have hs := script_of_mainRelease env v hv _ _ hm
    rw [hs]
    refine ⟨?_, rfl⟩
    simp [preTraceWith, runTestsTraceCommon, runTestsTraceTail,
      commitFailTrace, recoveryTrace]
  · intro env v orn ots hv H hrn hadd hcommit htag
    have hpre := stagesBeforeGit_ok env v orn ots H hrn
    have hgp := gitAndPublish_tagFail env v ([], []) hadd hcommit htag
    have hrb := releaseBody_of_ok env v _ _ hpre
    rw [hgp] at hrb
    have hm := mainRelease_of_thrown env v _ _ hrb
    have hs := script_of_mainRelease env v hv _ _ hm
    rw [hs]
    refine ⟨?_, rfl⟩
    simp [preTraceWith, runTestsTraceCommon, runTestsTraceTail,
      commitOkTrace, tagFailTrace, recoveryTrace]
  · intro env v orn ots hv H hrn hadd hcommit htag hbr
    have hpre := stagesBeforeGit_ok env v orn ots H hrn
    have hgp := gitAndPublish_pushBrFail env v ([], []) hadd hcommit htag hbr
    have hrb := releaseBody_of_ok env v _ _ hpre
    rw [hgp] at hrb
    have hm := mainRelease_of_thrown env v _ _ hrb
    have hs := script_of_mainRelease env v hv _ _ hm
    rw [hs]
    refine ⟨?_, rfl⟩
    simp [preTraceWith, runTestsTraceCommon, runTestsTraceTail,
      commitOkTrace, tagOkTrace, pushBrFailTrace, recoveryTrace]
  · intro env v orn ots hv H hrn hadd hcommit htag hbr htg
    have hpre := stagesBeforeGit_ok env v orn ots H hrn
    have hgp := gitAndPublish_pushTagFail env v ([], []) hadd hcommit htag hbr htg
    have hrb := releaseBody_of_ok env v _ _ hpre
    rw [hgp] at hrb
    have hm := mainRelease_of_thrown env v _ _ hrb
    have hs := script_of_mainRelease env v hv _ _ hm
    rw [hs]
    refine ⟨?_, rfl⟩
    simp [preTraceWith, runTestsTraceCommon, runTestsTraceTail,
      commitOkTrace, tagOkTrace, pushTagFailTrace, recoveryTrace]
  · intro env v orn ots hv H hrn hadd hcommit htag hbr htg hgh
    have hpre := stagesBeforeGit_ok env v orn ots H hrn
    have hgp := gitAndPublish_ghFail env v ([], []) hadd hcommit htag hbr htg hgh
    have hrb := releaseBody_of_ok env v _ _ hpre
    rw [hgp] at hrb
    have hm := mainRelease_of_thrown env v _ _ hrb
    have hs := script_of_mainRelease env v hv _ _ hm
    rw [hs]
    refine ⟨?_, rfl⟩
    simp [preTraceWith, runTestsTraceCommon, runTestsTraceTail,
      commitOkTrace, tagOkTrace, pushOkTrace, ghFailTrace, recoveryTrace]
  · intro env v orn ots hv H hrn hadd hcommit htag hbr htg hgh hwho hprn
    have hpre := stagesBeforeGit_ok env v orn ots H hrn
    have hgp := gitAndPublish_pubRnFail env v ([], []) hadd hcommit htag hbr htg
      hgh hwho hprn
    have hrb := releaseBody_of_ok env v _ _ hpre
    rw [hgp] at hrb
    have hm := mainRelease_of_thrown env v _ _ hrb
    have hs := script_of_mainRelease env v hv _ _ hm
    rw [hs]
    refine ⟨?_, rfl⟩
    simp [preTraceWith, runTestsTraceCommon, runTestsTraceTail,
      commitOkTrace, tagOkTrace, pushOkTrace, ghOkTrace, pubRnFailTrace,
      recoveryTrace]

/-- An environment in which only the commit command fails. -/
def commitFailEnv : Env :=
  { happyEnv with
    cmdOk := fun cwd cmd => !(cwd == projectRoot && cmd == commitCmd "1.2.0") }

/-- An environment in which only the ddk-rn npm publish fails. -/
def pubRnFailEnv : Env :=
  { happyEnv with
    cmdOk := fun cwd cmd =>
      !(cwd == ddkRnRoot && cmd == "npm publish --access public") }

/-- The pre-git-stage oracle facts hold in the failing-commit
environment. -/
theorem preOk_commitFail :
    PreEnvOk commitFailEnv "1.2.0" samplePackageJsonOut samplePackageJsonOut := by
  constructor <;> rfl

/-- The pre-git-stage oracle facts hold in the failing-first-publish
environment. -/
theorem preOk_pubRnFail :
    PreEnvOk pubRnFailEnv "1.2.0" samplePackageJsonOut samplePackageJsonOut := by
  constructor <;> rfl

/-- Witness for C5 at concrete environments: a fully successful run
shows the exact command order; a failing commit leaves only the commit
attempt; a failing first publish stops before the second publish. -/
theorem c5_publish_order_witness :
    ((script ["1.2.0"] happyEnv).1.filter isReleaseExec =
        releaseOrder "1.2.0" ∧
      (script ["1.2.0"] happyEnv).2 = 0) ∧
    ((script ["1.2.0"] commitFailEnv).1.filter isReleaseExec =
        [.exec projectRoot (commitCmd "1.2.0")] ∧
      (script ["1.2.0"] commitFailEnv).2 = 1) ∧
    ((script ["1.2.0"] pubRnFailEnv).1.filter isReleaseExec =
        [.exec projectRoot (commitCmd "1.2.0"),
         .exec projectRoot (tagCmd "1.2.0"),
         .exec projectRoot "git push origin master",
         .exec projectRoot (pushTagCmd "1.2.0"),
         .exec projectRoot (ghReleaseCommand "1.2.0" [] []),
         .exec ddkRnRoot "npm publish --access public"] ∧
      (script ["1.2.0"] pubRnFailEnv).2 = 1) :=
  ⟨c5_publish_order.1 happyEnv "1.2.0" samplePackageJsonOut
      samplePackageJsonOut rfl preOk_happy rfl pubOk_happy rfl,
   c5_publish_order.2.1 commitFailEnv "1.2.0" samplePackageJsonOut
      samplePackageJsonOut rfl preOk_commitFail rfl rfl rfl,
   c5_publish_order.2.2.2.2.2.2 pubRnFailEnv "1.2.0" samplePackageJsonOut
      samplePackageJsonOut rfl preOk_pubRnFail rfl rfl rfl rfl rfl rfl rfl
      rfl rfl⟩

end DdkRelease
